import Mathlib

/-!
# Service and host event and state handlers (`base/sehandlers.c`)

A shallow embedding of the nine functions of `base/sehandlers.c` and the
properties of the state-transition engine, the event-handler dispatcher and the
obsessive forwarder that are checked against it.  Every function takes the
collaborators `env`, the globals `g`, the events recorded before the call
`hist` and its C argument, and yields its C return value together with the
events of the call.

## Conventions of the embedding

* A C pointer argument that may be `NULL` is an `Option`; `int` flags and state
  codes are `Int` and are compared with the same constants as in the C text
  (`x==FALSE`, `x==TRUE`), so a flag holding a value other than 0 or 1 behaves
  as in C.  `unsigned long` values are `Nat`, and the one arithmetic operation
  on them, `next_event_id++`, is taken modulo `ULONG_MODULUS`.
* Dereferencing a null pointer has no defined result: a function that does so
  yields `none`.
* Functions defined in other translation units (macro expansion, the command
  runner `my_system`, logging, notifications, downtime, comments, the external
  command drain, the event broker, the clock) are collaborators.  Every call to
  one of them is recorded, in program order, as an `Event` that carries the
  arguments of the call and, where the C code consumes it, the value that came
  back.  The values that come back are supplied by an `Env`; each of its
  functions receives the events recorded so far, so two calls with equal
  arguments may answer differently.  Collaborators are taken not to write the
  `host`/`service` record they are handed, nor the globals declared `extern` in
  this file; an event that has a record as argument carries the record as it
  stands at the moment of the call.
* A guarded assignment `if(c) x->f=v;` is written as the assignment to `f` of
  `if c then v else x.f`; the `case` labels of a `switch` are the equality tests
  they stand for.
* The `double exectime` produced by `my_system` is only passed on to the event
  broker and is left out.
-/

namespace Sehandlers

/-! ## Constants of the included headers -/

/-- Modelled from the spec: the success code of `include/common.h` (the header is
not part of the translated sources; the spec calls it the `Ok` signal). -/
def OK : Int := 0

/-- Modelled from the spec: the error code of `include/common.h` (the `Error`
sentinel of the spec). -/
def ERROR : Int := -2

/-- Modelled from the spec: C truth value `TRUE` of `include/common.h`. -/
def TRUE : Int := 1

/-- Modelled from the spec: C truth value `FALSE` of `include/common.h`. -/
def FALSE : Int := 0

/-- Modelled from the spec: host state `Up` (the fully-OK state of a host). -/
def HOST_UP : Int := 0

/-- Modelled from the spec: host state `Down`. -/
def HOST_DOWN : Int := 1

/-- Modelled from the spec: host state `Unreachable`. -/
def HOST_UNREACHABLE : Int := 2

/-- Modelled from the spec: state type `Soft`. -/
def SOFT_STATE : Int := 0

/-- Modelled from the spec: state type `Hard`. -/
def HARD_STATE : Int := 1

/-- Modelled from the spec: acknowledgement type `None`. -/
def ACKNOWLEDGEMENT_NONE : Int := 0

/-- Modelled from the spec: acknowledgement type `Normal`. -/
def ACKNOWLEDGEMENT_NORMAL : Int := 1

/-- Modelled from the spec: acknowledgement type `Sticky`. -/
def ACKNOWLEDGEMENT_STICKY : Int := 2

/-- Modelled from the spec: the normal notification category. -/
def NOTIFICATION_NORMAL : Int := 0

/-- Modelled from the spec: no notification options (`include/nagios.h`). -/
def NOTIFICATION_OPTION_NONE : Int := 0

/-- Modelled from the spec: log category of runtime warnings (`include/nagios.h`). -/
def NSLOG_RUNTIME_WARNING : Nat := 2

/-- Modelled from the spec: log category of event-handler lines (`include/nagios.h`). -/
def NSLOG_EVENT_HANDLER : Nat := 4096

/-- Modelled from the spec: macro option flag of `include/macros.h`. -/
def STRIP_ILLEGAL_MACRO_CHARS : Nat := 1

/-- Modelled from the spec: macro option flag of `include/macros.h`. -/
def ESCAPE_MACRO_CHARS : Nat := 2

/-- Number of values of a C `unsigned long` (LP64 data model). -/
def ULONG_MODULUS : Nat := 2 ^ 64

/-! ## Data model -/

/-- Handle of a command definition (`command *`); the layout of the structure is
declared in `include/objects.h` and is never inspected by this file. -/
structure command where
  id : Nat
deriving DecidableEq

/-- Seconds and microseconds, as filled in by `gettimeofday`. -/
structure timeval where
  tv_sec : Int
  tv_usec : Int
deriving DecidableEq

/-- The fields of `host` (`include/objects.h`) that `sehandlers.c` reads or
writes. -/
structure host where
  name : String
  current_state : Int
  last_state : Int
  last_hard_state : Int
  state_type : Int
  current_attempt : Int
  max_attempts : Int
  current_event_id : Nat
  last_event_id : Nat
  acknowledgement_type : Int
  problem_has_been_acknowledged : Int
  event_handler_enabled : Int
  event_handler : Option String
  event_handler_ptr : Option command
  obsess_over_host : Int
  last_time_up : Int
  last_time_down : Int
  last_time_unreachable : Int
  last_state_change : Int
  last_hard_state_change : Int
  last_host_notification : Int
  next_host_notification : Int
  no_more_notifications : Int
  current_notification_number : Int
  notified_on_down : Int
  notified_on_unreachable : Int
deriving DecidableEq

/-- The fields of `service` (`include/objects.h`) that `sehandlers.c` reads. -/
structure service where
  host_name : String
  description : String
  current_state : Int
  state_type : Int
  current_attempt : Int
  max_attempts : Int
  event_handler_enabled : Int
  event_handler : Option String
  event_handler_ptr : Option command
  obsess_over_service : Int
  host_ptr : Option host
deriving DecidableEq

/-- The `extern` globals of `sehandlers.c`. -/
structure Globals where
  enable_event_handlers : Int
  obsess_over_services : Int
  obsess_over_hosts : Int
  log_event_handlers : Int
  log_host_retries : Int
  next_event_id : Nat
  event_handler_timeout : Int
  ocsp_timeout : Int
  ochp_timeout : Int
  global_host_event_handler : Option String
  global_service_event_handler : Option String
  global_host_event_handler_ptr : Option command
  global_service_event_handler_ptr : Option command
  ocsp_command : Option String
  ochp_command : Option String
  ocsp_command_ptr : Option command
  ochp_command_ptr : Option command
  program_start : Int
deriving DecidableEq

/-- The six places of the file where a command line is expanded and handed to
`my_system`; the last four are also the handler kinds reported to the broker. -/
inductive CallSite where
  | OCSP
  | OCHP
  | GLOBAL_SERVICE_EVENTHANDLER
  | SERVICE_EVENTHANDLER
  | GLOBAL_HOST_EVENTHANDLER
  | HOST_EVENTHANDLER
deriving DecidableEq

/-- Debug categories used by the `log_debug_info` calls of the file. -/
inductive DebugLevel where
  | DEBUGL_FUNCTIONS
  | DEBUGL_CHECKS
  | DEBUGL_EVENTHANDLERS
deriving DecidableEq

/-- Event types sent to the broker by this file. -/
inductive BrokerType where
  | NEBTYPE_STATECHANGE_END
  | NEBTYPE_EVENTHANDLER_START
  | NEBTYPE_EVENTHANDLER_END
deriving DecidableEq

/-- Indices of `macro_x` read by the event-handler log lines. -/
inductive MacroIndex where
  | MACRO_HOSTSTATE
  | MACRO_HOSTSTATETYPE
  | MACRO_HOSTATTEMPT
  | MACRO_SERVICESTATE
  | MACRO_SERVICESTATETYPE
  | MACRO_SERVICEATTEMPT
deriving DecidableEq

/-- What `my_system` hands back: its return value and the out-parameters
`early_timeout` and `command_output`. -/
structure SystemResult where
  result : Int
  early_timeout : Int
  command_output : Option String
deriving DecidableEq

/-- One call to a collaborator, with its arguments and, for the calls whose
answer the C code consumes, the answer. -/
inductive Event where
  | log_debug_info (level : DebugLevel) (verbosity : Nat) (msg : String)
  | time (current_time : Int)
  | gettimeofday (tv : timeval)
  | update_host_performance_data (hst : Option host)
  | clear_volatile_macros
  | grab_host_macros (hst : host)
  | grab_service_macros (svc : service)
  | grab_datetime_macros
  | grab_summary_macros
  | get_raw_command_line (site : CallSite) (cmd_ptr : Option command) (cmd : String)
      (macro_options : Nat) (raw_command : Option String)
  | process_macros (site : CallSite) (raw_command : String) (macro_options : Nat)
      (processed_command : Option String)
  | my_system (site : CallSite) (cmd : Option String) (timeout : Int) (res : SystemResult)
  | write_to_logs_and_console (buffer : String) (data_type : Nat) (display : Int)
  | write_to_all_logs (buffer : String) (data_type : Nat)
  | broker_statechange_data_host (type : BrokerType) (hst : host)
  | broker_statechange_data_service (type : BrokerType) (svc : service)
  | broker_event_handler (type : BrokerType) (kind : CallSite) (current_state state_type : Int)
      (start_time end_time : timeval) (timeout early_timeout result : Int)
      (cmd : Option String) (processed_command command_output : Option String)
  | check_for_external_commands
  | delete_host_acknowledgement_comments (hst : host)
  | log_host_event (hst : host)
  | check_pending_flex_host_downtime (hst : host)
  | host_notification (hst : host) (type : Int) (options : Int)
deriving DecidableEq

/-- The answers of the collaborators and the one compile-time switch of the
file.  Every function receives the events recorded so far. -/
structure Env where
  USE_EVENT_BROKER : Bool
  time : List Event → Int
  gettimeofday : List Event → timeval
  get_raw_command_line : List Event → Option command → String → Nat → Option String
  process_macros : List Event → String → Nat → Option String
  my_system : List Event → Option String → Int → SystemResult
  macro_x : List Event → MacroIndex → Option String

/-- How `printf` renders a `%s` argument (glibc prints a null pointer as
`(null)`). -/
def fmt_s (s : Option String) : String := s.getD "(null)"

/-- How `printf` renders a `%d` argument. -/
def fmt_d (n : Int) : String := toString n

/-- Both macro options, `STRIP_ILLEGAL_MACRO_CHARS|ESCAPE_MACRO_CHARS`, the value
of the local `macro_options` in every function that expands a command. -/
def macro_options : Nat := STRIP_ILLEGAL_MACRO_CHARS ||| ESCAPE_MACRO_CHARS

/-! ## Obsessive compulsive handler functions -/

/-- Translation of `obsessive_compulsive_service_check_processor` (lines 70-134):
the value returned and the events of the call. -/
def obsessive_compulsive_service_check_processor (env : Env) (g : Globals)
    (hist : List Event) (svc : Option service) : Int × List Event :=
  let ev0 := [Event.log_debug_info .DEBUGL_FUNCTIONS 0
    "obsessive_compulsive_service_check_processor()\n"]
  match svc with
  | none => (ERROR, ev0)
  | some s =>
  -- bail out if we shouldn't be obsessing
  if g.obsess_over_services = FALSE then (OK, ev0) else
  if s.obsess_over_service = FALSE then (OK, ev0) else
  -- if there is no valid command, exit
  match g.ocsp_command with
  | none => (ERROR, ev0)
  | some ocsp_command =>
  -- find the associated host
  match s.host_ptr with
  | none => (ERROR, ev0)
  | some temp_host =>
  -- update service macros
  let ev1 := ev0 ++ [Event.clear_volatile_macros, Event.grab_host_macros temp_host,
    Event.grab_service_macros s, Event.grab_datetime_macros, Event.grab_summary_macros]
  -- get the raw command line
  let raw_command := env.get_raw_command_line (hist ++ ev1) g.ocsp_command_ptr ocsp_command
    macro_options
  let ev2 := ev1 ++ [Event.get_raw_command_line .OCSP g.ocsp_command_ptr ocsp_command
    macro_options raw_command]
  match raw_command with
  | none => (ERROR, ev2)
  | some raw =>
  let ev3 := ev2 ++ [Event.log_debug_info .DEBUGL_CHECKS 2
    ("Raw obsessive compulsive service processor command line: " ++ raw ++ "\n")]
  -- process any macros in the raw command line
  let processed_command := env.process_macros (hist ++ ev3) raw macro_options
  let ev4 := ev3 ++ [Event.process_macros .OCSP raw macro_options processed_command]
  match processed_command with
  | none => (ERROR, ev4)
  | some processed =>
  let ev5 := ev4 ++ [Event.log_debug_info .DEBUGL_CHECKS 2
    ("Processed obsessive compulsive service processor command line: " ++ processed ++ "\n")]
  -- run the command
  let res := env.my_system (hist ++ ev5) (some processed) g.ocsp_timeout
  let ev6 := ev5 ++ [Event.my_system .OCSP (some processed) g.ocsp_timeout res]
  -- check to see if the command timed out
  let ev7 := ev6 ++ (if res.early_timeout = TRUE then
    [Event.write_to_logs_and_console
      ("Warning: OCSP command '" ++ processed ++ "' for service '" ++ s.description
        ++ "' on host '" ++ s.host_name ++ "' timed out after " ++ fmt_d g.ocsp_timeout
        ++ " seconds\n")
      NSLOG_RUNTIME_WARNING TRUE]
    else [])
  (OK, ev7)

/-- Translation of `obsessive_compulsive_host_check_processor` (lines 139-197).
Line 177 reads `if(processed_command=NULL)`: an assignment, so the expanded
command line is overwritten with `NULL`, the test is false, and the function
goes on to call `my_system` with a null command. -/
def obsessive_compulsive_host_check_processor (env : Env) (g : Globals)
    (hist : List Event) (hst : Option host) : Int × List Event :=
  let ev0 := [Event.log_debug_info .DEBUGL_FUNCTIONS 0
    "obsessive_compulsive_host_check_processor()\n"]
  match hst with
  | none => (ERROR, ev0)
  | some h =>
  -- bail out if we shouldn't be obsessing
  if g.obsess_over_hosts = FALSE then (OK, ev0) else
  if h.obsess_over_host = FALSE then (OK, ev0) else
  -- if there is no valid command, exit
  match g.ochp_command with
  | none => (ERROR, ev0)
  | some ochp_command =>
  -- update macros
  let ev1 := ev0 ++ [Event.clear_volatile_macros, Event.grab_host_macros h,
    Event.grab_datetime_macros, Event.grab_summary_macros]
  -- get the raw command line
  let raw_command := env.get_raw_command_line (hist ++ ev1) g.ochp_command_ptr ochp_command
    macro_options
  let ev2 := ev1 ++ [Event.get_raw_command_line .OCHP g.ochp_command_ptr ochp_command
    macro_options raw_command]
  match raw_command with
  | none => (ERROR, ev2)
  | some raw =>
  let ev3 := ev2 ++ [Event.log_debug_info .DEBUGL_CHECKS 2
    ("Raw obsessive compulsive host processor command line: " ++ raw ++ "\n")]
  -- process any macros in the raw command line
  let expanded := env.process_macros (hist ++ ev3) raw macro_options
  let ev4 := ev3 ++ [Event.process_macros .OCHP raw macro_options expanded]
  -- `if(processed_command=NULL) return ERROR;` assigns NULL and does not return
  let processed_command : Option String := none
  let ev5 := ev4 ++ [Event.log_debug_info .DEBUGL_CHECKS 2
    ("Processed obsessive compulsive host processor command line: "
      ++ fmt_s processed_command ++ "\n")]
  -- run the command
  let res := env.my_system (hist ++ ev5) processed_command g.ochp_timeout
  let ev6 := ev5 ++ [Event.my_system .OCHP processed_command g.ochp_timeout res]
  -- check to see if the command timed out
  let ev7 := ev6 ++ (if res.early_timeout = TRUE then
    [Event.write_to_logs_and_console
      ("Warning: OCHP command '" ++ fmt_s processed_command ++ "' for host '" ++ h.name
        ++ "' timed out after " ++ fmt_d g.ochp_timeout ++ " seconds\n")
      NSLOG_RUNTIME_WARNING TRUE]
    else [])
  (OK, ev7)

/-! ## Service event handler functions -/

/-- Translation of `run_global_service_event_handler` (lines 254-336). -/
def run_global_service_event_handler (env : Env) (g : Globals) (hist : List Event)
    (svc : Option service) : Int × List Event :=
  let ev0 := [Event.log_debug_info .DEBUGL_FUNCTIONS 0 "run_global_service_event_handler()\n"]
  match svc with
  | none => (ERROR, ev0)
  | some s =>
  -- bail out if we shouldn't be running event handlers
  if g.enable_event_handlers = FALSE then (OK, ev0) else
  -- a global service event handler command has not been defined
  match g.global_service_event_handler with
  | none => (ERROR, ev0)
  | some handler =>
  let ev1 := ev0 ++ [Event.log_debug_info .DEBUGL_EVENTHANDLERS 1
    ("Running global event handler for service '" ++ s.description
      ++ "' on host '" ++ s.host_name ++ "'...\n")]
  -- get start time
  let start_time := env.gettimeofday (hist ++ ev1)
  let ev2 := ev1 ++ [Event.gettimeofday start_time]
  -- send event data to broker
  let ev3 := ev2 ++ (if env.USE_EVENT_BROKER then
    [Event.broker_event_handler .NEBTYPE_EVENTHANDLER_START .GLOBAL_SERVICE_EVENTHANDLER
      s.current_state s.state_type start_time ⟨0, 0⟩ g.event_handler_timeout FALSE 0
      (some handler) none none]
    else [])
  -- get the raw command line
  let raw_command := env.get_raw_command_line (hist ++ ev3)
    g.global_service_event_handler_ptr handler macro_options
  let ev4 := ev3 ++ [Event.get_raw_command_line .GLOBAL_SERVICE_EVENTHANDLER
    g.global_service_event_handler_ptr handler macro_options raw_command]
  match raw_command with
  | none => (ERROR, ev4)
  | some raw =>
  let ev5 := ev4 ++ [Event.log_debug_info .DEBUGL_EVENTHANDLERS 2
    ("Raw global service event handler command line: " ++ raw ++ "\n")]
  -- process any macros in the raw command line
  let processed_command := env.process_macros (hist ++ ev5) raw macro_options
  let ev6 := ev5 ++ [Event.process_macros .GLOBAL_SERVICE_EVENTHANDLER raw macro_options
    processed_command]
  match processed_command with
  | none => (ERROR, ev6)
  | some processed =>
  let ev7 := ev6 ++ [Event.log_debug_info .DEBUGL_EVENTHANDLERS 2
    ("Processed global service event handler command line: " ++ processed ++ "\n")]
  let ev8 := ev7 ++ (if g.log_event_handlers = TRUE then
    [Event.write_to_all_logs
      ("GLOBAL SERVICE EVENT HANDLER: " ++ s.host_name ++ ";" ++ s.description ++ ";"
        ++ fmt_s (env.macro_x (hist ++ ev7) .MACRO_SERVICESTATE) ++ ";"
        ++ fmt_s (env.macro_x (hist ++ ev7) .MACRO_SERVICESTATETYPE) ++ ";"
        ++ fmt_s (env.macro_x (hist ++ ev7) .MACRO_SERVICEATTEMPT) ++ ";" ++ handler ++ "\n")
      NSLOG_EVENT_HANDLER]
    else [])
  -- run the command
  let res := env.my_system (hist ++ ev8) (some processed) g.event_handler_timeout
  let ev9 := ev8 ++ [Event.my_system .GLOBAL_SERVICE_EVENTHANDLER (some processed)
    g.event_handler_timeout res]
  -- check to see if the event handler timed out
  let ev10 := ev9 ++ (if res.early_timeout = TRUE then
    [Event.write_to_logs_and_console
      ("Warning: Global service event handler command '" ++ processed ++ "' timed out after "
        ++ fmt_d g.event_handler_timeout ++ " seconds\n")
      (NSLOG_EVENT_HANDLER ||| NSLOG_RUNTIME_WARNING) TRUE]
    else [])
  -- get end time
  let end_time := env.gettimeofday (hist ++ ev10)
  let ev11 := ev10 ++ [Event.gettimeofday end_time]
  -- send event data to broker
  let ev12 := ev11 ++ (if env.USE_EVENT_BROKER then
    [Event.broker_event_handler .NEBTYPE_EVENTHANDLER_END .GLOBAL_SERVICE_EVENTHANDLER
      s.current_state s.state_type start_time end_time g.event_handler_timeout
      res.early_timeout res.result (some handler) (some processed) res.command_output]
    else [])
  (OK, ev12)

/-- Translation of `run_service_event_handler` (lines 341-419). -/
def run_service_event_handler (env : Env) (g : Globals) (hist : List Event)
    (svc : Option service) : Int × List Event :=
  let ev0 := [Event.log_debug_info .DEBUGL_FUNCTIONS 0 "run_service_event_handler()\n"]
  match svc with
  | none => (ERROR, ev0)
  | some s =>
  -- bail if there's no command
  match s.event_handler with
  | none => (ERROR, ev0)
  | some handler =>
  let ev1 := ev0 ++ [Event.log_debug_info .DEBUGL_EVENTHANDLERS 1
    ("Running event handler for service '" ++ s.description
      ++ "' on host '" ++ s.host_name ++ "'...\n")]
  -- get start time
  let start_time := env.gettimeofday (hist ++ ev1)
  let ev2 := ev1 ++ [Event.gettimeofday start_time]
  -- send event data to broker
  let ev3 := ev2 ++ (if env.USE_EVENT_BROKER then
    [Event.broker_event_handler .NEBTYPE_EVENTHANDLER_START .SERVICE_EVENTHANDLER
      s.current_state s.state_type start_time ⟨0, 0⟩ g.event_handler_timeout FALSE 0
      (some handler) none none]
    else [])
  -- get the raw command line
  let raw_command := env.get_raw_command_line (hist ++ ev3)
    s.event_handler_ptr handler macro_options
  let ev4 := ev3 ++ [Event.get_raw_command_line .SERVICE_EVENTHANDLER
    s.event_handler_ptr handler macro_options raw_command]
  match raw_command with
  | none => (ERROR, ev4)
  | some raw =>
  let ev5 := ev4 ++ [Event.log_debug_info .DEBUGL_EVENTHANDLERS 2
    ("Raw service event handler command line: " ++ raw ++ "\n")]
  -- process any macros in the raw command line
  let processed_command := env.process_macros (hist ++ ev5) raw macro_options
  let ev6 := ev5 ++ [Event.process_macros .SERVICE_EVENTHANDLER raw macro_options
    processed_command]
  match processed_command with
  | none => (ERROR, ev6)
  | some processed =>
  let ev7 := ev6 ++ [Event.log_debug_info .DEBUGL_EVENTHANDLERS 2
    ("Processed service event handler command line: " ++ processed ++ "\n")]
  let ev8 := ev7 ++ (if g.log_event_handlers = TRUE then
    [Event.write_to_all_logs
      ("SERVICE EVENT HANDLER: " ++ s.host_name ++ ";" ++ s.description ++ ";"
        ++ fmt_s (env.macro_x (hist ++ ev7) .MACRO_SERVICESTATE) ++ ";"
        ++ fmt_s (env.macro_x (hist ++ ev7) .MACRO_SERVICESTATETYPE) ++ ";"
        ++ fmt_s (env.macro_x (hist ++ ev7) .MACRO_SERVICEATTEMPT) ++ ";" ++ handler ++ "\n")
      NSLOG_EVENT_HANDLER]
    else [])
  -- run the command
  let res := env.my_system (hist ++ ev8) (some processed) g.event_handler_timeout
  let ev9 := ev8 ++ [Event.my_system .SERVICE_EVENTHANDLER (some processed)
    g.event_handler_timeout res]
  -- check to see if the event handler timed out
  let ev10 := ev9 ++ (if res.early_timeout = TRUE then
    [Event.write_to_logs_and_console
      ("Warning: Service event handler command '" ++ processed ++ "' timed out after "
        ++ fmt_d g.event_handler_timeout ++ " seconds\n")
      (NSLOG_EVENT_HANDLER ||| NSLOG_RUNTIME_WARNING) TRUE]
    else [])
  -- get end time
  let end_time := env.gettimeofday (hist ++ ev10)
  let ev11 := ev10 ++ [Event.gettimeofday end_time]
  -- send event data to broker
  let ev12 := ev11 ++ (if env.USE_EVENT_BROKER then
    [Event.broker_event_handler .NEBTYPE_EVENTHANDLER_END .SERVICE_EVENTHANDLER
      s.current_state s.state_type start_time end_time g.event_handler_timeout
      res.early_timeout res.result (some handler) (some processed) res.command_output]
    else [])
  (OK, ev12)

/-- Translation of `handle_service_event` (lines 208-249). -/
def handle_service_event (env : Env) (g : Globals) (hist : List Event)
    (svc : Option service) : Int × List Event :=
  let ev0 := [Event.log_debug_info .DEBUGL_FUNCTIONS 0 "handle_service_event()\n"]
  match svc with
  | none => (ERROR, ev0)
  | some s =>
  -- send event data to broker
  let ev1 := ev0 ++ (if env.USE_EVENT_BROKER then
    [Event.broker_statechange_data_service .NEBTYPE_STATECHANGE_END s] else [])
  -- bail out if we shouldn't be running event handlers
  if g.enable_event_handlers = FALSE then (OK, ev1) else
  if s.event_handler_enabled = FALSE then (OK, ev1) else
  -- find the host
  match s.host_ptr with
  | none => (ERROR, ev1)
  | some temp_host =>
  -- update service macros
  let ev2 := ev1 ++ [Event.clear_volatile_macros, Event.grab_host_macros temp_host,
    Event.grab_service_macros s, Event.grab_datetime_macros, Event.grab_summary_macros]
  -- run the global service event handler
  let ev3 := ev2 ++ (run_global_service_event_handler env g (hist ++ ev2) (some s)).2
  -- run the event handler command if there is one
  let ev4 := ev3 ++ (match s.event_handler with
    | some _ => (run_service_event_handler env g (hist ++ ev3) (some s)).2
    | none => [])
  -- check for external commands - the event handler may have given us some directives...
  let ev5 := ev4 ++ [Event.check_for_external_commands]
  (OK, ev5)

/-! ## Host event handler functions -/

/-- Translation of `run_global_host_event_handler` (lines 469-551). -/
def run_global_host_event_handler (env : Env) (g : Globals) (hist : List Event)
    (hst : Option host) : Int × List Event :=
  let ev0 := [Event.log_debug_info .DEBUGL_FUNCTIONS 0 "run_global_host_event_handler()\n"]
  match hst with
  | none => (ERROR, ev0)
  | some h =>
  -- bail out if we shouldn't be running event handlers
  if g.enable_event_handlers = FALSE then (OK, ev0) else
  -- no global host event handler command is defined
  match g.global_host_event_handler with
  | none => (ERROR, ev0)
  | some handler =>
  let ev1 := ev0 ++ [Event.log_debug_info .DEBUGL_EVENTHANDLERS 1
    ("Running global event handler for host '" ++ h.name ++ "'..\n")]
  -- get start time
  let start_time := env.gettimeofday (hist ++ ev1)
  let ev2 := ev1 ++ [Event.gettimeofday start_time]
  -- send event data to broker
  let ev3 := ev2 ++ (if env.USE_EVENT_BROKER then
    [Event.broker_event_handler .NEBTYPE_EVENTHANDLER_START .GLOBAL_HOST_EVENTHANDLER
      h.current_state h.state_type start_time ⟨0, 0⟩ g.event_handler_timeout FALSE 0
      (some handler) none none]
    else [])
  -- get the raw command line
  let raw_command := env.get_raw_command_line (hist ++ ev3)
    g.global_host_event_handler_ptr handler macro_options
  let ev4 := ev3 ++ [Event.get_raw_command_line .GLOBAL_HOST_EVENTHANDLER
    g.global_host_event_handler_ptr handler macro_options raw_command]
  match raw_command with
  | none => (ERROR, ev4)
  | some raw =>
  let ev5 := ev4 ++ [Event.log_debug_info .DEBUGL_EVENTHANDLERS 2
    ("Raw global host event handler command line: " ++ raw ++ "\n")]
  -- process any macros in the raw command line
  let processed_command := env.process_macros (hist ++ ev5) raw macro_options
  let ev6 := ev5 ++ [Event.process_macros .GLOBAL_HOST_EVENTHANDLER raw macro_options
    processed_command]
  match processed_command with
  | none => (ERROR, ev6)
  | some processed =>
  let ev7 := ev6 ++ [Event.log_debug_info .DEBUGL_EVENTHANDLERS 2
    ("Processed global host event handler command line: " ++ processed ++ "\n")]
  let ev8 := ev7 ++ (if g.log_event_handlers = TRUE then
    [Event.write_to_all_logs
      ("GLOBAL HOST EVENT HANDLER: " ++ h.name ++ ";"
        ++ fmt_s (env.macro_x (hist ++ ev7) .MACRO_HOSTSTATE) ++ ";"
        ++ fmt_s (env.macro_x (hist ++ ev7) .MACRO_HOSTSTATETYPE) ++ ";"
        ++ fmt_s (env.macro_x (hist ++ ev7) .MACRO_HOSTATTEMPT) ++ ";" ++ handler ++ "\n")
      NSLOG_EVENT_HANDLER]
    else [])
  -- run the command
  let res := env.my_system (hist ++ ev8) (some processed) g.event_handler_timeout
  let ev9 := ev8 ++ [Event.my_system .GLOBAL_HOST_EVENTHANDLER (some processed)
    g.event_handler_timeout res]
  -- check to see if the event handler timed out
  let ev10 := ev9 ++ (if res.early_timeout = TRUE then
    [Event.write_to_logs_and_console
      ("Warning: Global host event handler command '" ++ processed ++ "' timed out after "
        ++ fmt_d g.event_handler_timeout ++ " seconds\n")
      (NSLOG_EVENT_HANDLER ||| NSLOG_RUNTIME_WARNING) TRUE]
    else [])
  -- get end time
  let end_time := env.gettimeofday (hist ++ ev10)
  let ev11 := ev10 ++ [Event.gettimeofday end_time]
  -- send event data to broker
  let ev12 := ev11 ++ (if env.USE_EVENT_BROKER then
    [Event.broker_event_handler .NEBTYPE_EVENTHANDLER_END .GLOBAL_HOST_EVENTHANDLER
      h.current_state h.state_type start_time end_time g.event_handler_timeout
      res.early_timeout res.result (some handler) (some processed) res.command_output]
    else [])
  (OK, ev12)

/-- Translation of `run_host_event_handler` (lines 555-633). -/
def run_host_event_handler (env : Env) (g : Globals) (hist : List Event)
    (hst : Option host) : Int × List Event :=
  let ev0 := [Event.log_debug_info .DEBUGL_FUNCTIONS 0 "run_host_event_handler()\n"]
  match hst with
  | none => (ERROR, ev0)
  | some h =>
  -- bail if there's no command
  match h.event_handler with
  | none => (ERROR, ev0)
  | some handler =>
  let ev1 := ev0 ++ [Event.log_debug_info .DEBUGL_EVENTHANDLERS 1
    ("Running event handler for host '" ++ h.name ++ "'..\n")]
  -- get start time
  let start_time := env.gettimeofday (hist ++ ev1)
  let ev2 := ev1 ++ [Event.gettimeofday start_time]
  -- send event data to broker
  let ev3 := ev2 ++ (if env.USE_EVENT_BROKER then
    [Event.broker_event_handler .NEBTYPE_EVENTHANDLER_START .HOST_EVENTHANDLER
      h.current_state h.state_type start_time ⟨0, 0⟩ g.event_handler_timeout FALSE 0
      (some handler) none none]
    else [])
  -- get the raw command line
  let raw_command := env.get_raw_command_line (hist ++ ev3)
    h.event_handler_ptr handler macro_options
  let ev4 := ev3 ++ [Event.get_raw_command_line .HOST_EVENTHANDLER
    h.event_handler_ptr handler macro_options raw_command]
  match raw_command with
  | none => (ERROR, ev4)
  | some raw =>
  let ev5 := ev4 ++ [Event.log_debug_info .DEBUGL_EVENTHANDLERS 2
    ("Raw host event handler command line: " ++ raw ++ "\n")]
  -- process any macros in the raw command line
  let processed_command := env.process_macros (hist ++ ev5) raw macro_options
  let ev6 := ev5 ++ [Event.process_macros .HOST_EVENTHANDLER raw macro_options
    processed_command]
  match processed_command with
  | none => (ERROR, ev6)
  | some processed =>
  let ev7 := ev6 ++ [Event.log_debug_info .DEBUGL_EVENTHANDLERS 2
    ("Processed host event handler command line: " ++ processed ++ "\n")]
  let ev8 := ev7 ++ (if g.log_event_handlers = TRUE then
    [Event.write_to_all_logs
      ("HOST EVENT HANDLER: " ++ h.name ++ ";"
        ++ fmt_s (env.macro_x (hist ++ ev7) .MACRO_HOSTSTATE) ++ ";"
        ++ fmt_s (env.macro_x (hist ++ ev7) .MACRO_HOSTSTATETYPE) ++ ";"
        ++ fmt_s (env.macro_x (hist ++ ev7) .MACRO_HOSTATTEMPT) ++ ";" ++ handler ++ "\n")
      NSLOG_EVENT_HANDLER]
    else [])
  -- run the command
  let res := env.my_system (hist ++ ev8) (some processed) g.event_handler_timeout
  let ev9 := ev8 ++ [Event.my_system .HOST_EVENTHANDLER (some processed)
    g.event_handler_timeout res]
  -- check to see if the event handler timed out
  let ev10 := ev9 ++ (if res.early_timeout = TRUE then
    [Event.write_to_logs_and_console
      ("Warning: Host event handler command '" ++ processed ++ "' timed out after "
        ++ fmt_d g.event_handler_timeout ++ " seconds\n")
      (NSLOG_EVENT_HANDLER ||| NSLOG_RUNTIME_WARNING) TRUE]
    else [])
  -- get end time
  let end_time := env.gettimeofday (hist ++ ev10)
  let ev11 := ev10 ++ [Event.gettimeofday end_time]
  -- send event data to broker
  let ev12 := ev11 ++ (if env.USE_EVENT_BROKER then
    [Event.broker_event_handler .NEBTYPE_EVENTHANDLER_END .HOST_EVENTHANDLER
      h.current_state h.state_type start_time end_time g.event_handler_timeout
      res.early_timeout res.result (some handler) (some processed) res.command_output]
    else [])
  (OK, ev12)

/-- Translation of `handle_host_event` (lines 430-465). -/
def handle_host_event (env : Env) (g : Globals) (hist : List Event)
    (hst : Option host) : Int × List Event :=
  let ev0 := [Event.log_debug_info .DEBUGL_FUNCTIONS 0 "handle_host_event()\n"]
  match hst with
  | none => (ERROR, ev0)
  | some h =>
  -- send event data to broker
  let ev1 := ev0 ++ (if env.USE_EVENT_BROKER then
    [Event.broker_statechange_data_host .NEBTYPE_STATECHANGE_END h] else [])
  -- bail out if we shouldn't be running event handlers
  if g.enable_event_handlers = FALSE then (OK, ev1) else
  if h.event_handler_enabled = FALSE then (OK, ev1) else
  -- update host macros
  let ev2 := ev1 ++ [Event.clear_volatile_macros, Event.grab_host_macros h,
    Event.grab_datetime_macros, Event.grab_summary_macros]
  -- run the global host event handler
  let ev3 := ev2 ++ (run_global_host_event_handler env g (hist ++ ev2) (some h)).2
  -- run the event handler command if there is one
  let ev4 := ev3 ++ (match h.event_handler with
    | some _ => (run_host_event_handler env g (hist ++ ev3) (some h)).2
    | none => [])
  -- check for external commands - the event handler may have given us some directives...
  let ev5 := ev4 ++ [Event.check_for_external_commands]
  (OK, ev5)

/-! ## Host state handler functions -/

/-- What one call of `handle_host_state` leaves behind: the value returned, the
host record and the globals after the call, the final value of the local
`state_change`, the value `time` stored in the local `current_time`, and the
events of the call. -/
structure HostPass where
  result : Int
  hst : host
  g : Globals
  state_change : Int
  current_time : Int
  events : List Event

/-- Translation of `handle_host_state` (lines 644-757).  The function has no
test of `hst` against `NULL`: with a null host it calls the obsessive processor
and the performance-data update and then evaluates `hst->current_state`
(line 661), which has no defined result (`none`).  The callees are taken not to
write the record they are handed; `handle_host_state_with_writers` below is the
same translation without this convention. -/
def handle_host_state (env : Env) (g : Globals) (hist : List Event)
    (hst : Option host) : Option HostPass :=
  let ev0 := [Event.log_debug_info .DEBUGL_FUNCTIONS 0 "handle_host_state()\n"]
  -- get current time
  let current_time := env.time (hist ++ ev0)
  let ev1 := ev0 ++ [Event.time current_time]
  -- obsess over this host check
  let ev2 := ev1 ++ (obsessive_compulsive_host_check_processor env g (hist ++ ev1) hst).2
  -- update performance data
  let ev3 := ev2 ++ [Event.update_host_performance_data hst]
  match hst with
  | none => none
  | some h0 =>
  -- record latest time for current state
  let h1 : host :=
    { h0 with
      last_time_up := if h0.current_state = HOST_UP then current_time else h0.last_time_up,
      last_time_down := if h0.current_state = HOST_DOWN then current_time else h0.last_time_down,
      last_time_unreachable :=
        if h0.current_state = HOST_UNREACHABLE then current_time else h0.last_time_unreachable }
  -- has the host state changed?
  let state_change : Int :=
    if h1.last_state ≠ h1.current_state ∨ h1.last_hard_state ≠ h1.current_state
        ∨ (h1.current_state = HOST_UP ∧ h1.state_type = SOFT_STATE) then TRUE
    else FALSE
  -- if the host state has changed...
  if state_change = TRUE then
    -- update last state change times
    let h2 : host := { h1 with last_state_change := current_time }
    let h3 : host :=
      { h2 with
        last_hard_state_change :=
          if h2.state_type = HARD_STATE then current_time else h2.last_hard_state_change }
    -- update the event id
    let h4 : host := { h3 with last_event_id := h3.current_event_id }
    let h5 : host := { h4 with current_event_id := g.next_event_id }
    let g1 : Globals := { g with next_event_id := (g.next_event_id + 1) % ULONG_MODULUS }
    -- reset the acknowledgement flag if necessary
    let h6 : host :=
      { h5 with
        problem_has_been_acknowledged :=
          if h5.acknowledgement_type = ACKNOWLEDGEMENT_NORMAL then FALSE
          else if h5.acknowledgement_type = ACKNOWLEDGEMENT_STICKY ∧ h5.current_state = HOST_UP
          then FALSE
          else h5.problem_has_been_acknowledged,
        acknowledgement_type :=
          if h5.acknowledgement_type = ACKNOWLEDGEMENT_NORMAL then ACKNOWLEDGEMENT_NONE
          else if h5.acknowledgement_type = ACKNOWLEDGEMENT_STICKY ∧ h5.current_state = HOST_UP
          then ACKNOWLEDGEMENT_NONE
          else h5.acknowledgement_type }
    -- remove any non-persistant comments associated with the ack
    let ev4 := ev3 ++ (
      if h5.acknowledgement_type = ACKNOWLEDGEMENT_NORMAL then
        [Event.delete_host_acknowledgement_comments h6]
      else if h5.acknowledgement_type = ACKNOWLEDGEMENT_STICKY ∧ h5.current_state = HOST_UP then
        [Event.delete_host_acknowledgement_comments h6]
      else [])
    -- reset the next and last notification times
    let h7 : host := { h6 with last_host_notification := 0 }
    let h8 : host := { h7 with next_host_notification := 0 }
    -- reset notification suppression option
    let h9 : host := { h8 with no_more_notifications := FALSE }
    -- write the host state change to the main log file
    let ev5 := ev4 ++ (
      if h9.state_type = HARD_STATE ∨ (h9.state_type = SOFT_STATE ∧ g1.log_host_retries = TRUE)
      then [Event.log_host_event h9] else [])
    -- check for start of flexible (non-fixed) scheduled downtime
    let ev6 := ev5 ++ (
      if h9.state_type = HARD_STATE then [Event.check_pending_flex_host_downtime h9] else [])
    -- notify contacts about the recovery or problem if its a "hard" state
    let ev7 := ev6 ++ (
      if h9.state_type = HARD_STATE then
        [Event.host_notification h9 NOTIFICATION_NORMAL NOTIFICATION_OPTION_NONE]
      else [])
    -- handle the host state change
    let ev8 := ev7 ++ (handle_host_event env g1 (hist ++ ev7) (some h9)).2
    -- the host just recovered, so reset the current host attempt
    let h10 : host :=
      { h9 with current_attempt := if h9.current_state = HOST_UP then 1 else h9.current_attempt }
    -- the host recovered, so reset the current notification number and state flags
    -- (after the recovery notification has gone out)
    let h11 : host :=
      { h10 with
        current_notification_number :=
          if h10.current_state = HOST_UP then 0 else h10.current_notification_number,
        notified_on_down := if h10.current_state = HOST_UP then FALSE else h10.notified_on_down,
        notified_on_unreachable :=
          if h10.current_state = HOST_UP then FALSE else h10.notified_on_unreachable }
    some ⟨OK, h11, g1, state_change, current_time, ev8⟩
  -- else the host state has not changed
  else
    -- notify contacts if host is still down or unreachable
    let ev4 := ev3 ++ (
      if h1.current_state ≠ HOST_UP ∧ h1.state_type = HARD_STATE then
        [Event.host_notification h1 NOTIFICATION_NORMAL NOTIFICATION_OPTION_NONE]
      else [])
    -- if we're in a soft state and we should log host retries, do so now...
    let ev5 := ev4 ++ (
      if h1.state_type = SOFT_STATE ∧ g.log_host_retries = TRUE then [Event.log_host_event h1]
      else [])
    some ⟨OK, h1, g, state_change, current_time, ev5⟩

/-- What the callees of `handle_host_state` that are handed the host record
(`host *hst`, a pointer to the record of the caller) leave in it: for every
callee, the record after the call, from the events recorded before the call and
the record handed over.  The two callees of this file,
`obsessive_compulsive_host_check_processor` and `handle_host_event`, assign to no
field themselves; their entry stands for the writes of the collaborators they
hand the record to. -/
structure HostWriters where
  obsessive_compulsive_host_check_processor : List Event → host → host
  update_host_performance_data : List Event → host → host
  delete_host_acknowledgement_comments : List Event → host → host
  log_host_event : List Event → host → host
  check_pending_flex_host_downtime : List Event → host → host
  host_notification : List Event → host → host
  handle_host_event : List Event → host → host

/-- Translation of `handle_host_state` (lines 644-757) with callees that may write
the host record they are handed: every statement of the function reads the
record as the calls before it left it.  The events of the two callees of this
file are those of their translations on the record at the time of the call; the
globals are written by `handle_host_state` alone. -/
def handle_host_state_with_writers (env : Env) (w : HostWriters) (g : Globals)
    (hist : List Event) (hst : Option host) : Option HostPass :=
  let ev0 := [Event.log_debug_info .DEBUGL_FUNCTIONS 0 "handle_host_state()\n"]
  -- get current time
  let current_time := env.time (hist ++ ev0)
  let ev1 := ev0 ++ [Event.time current_time]
  match hst with
  | none => none
  | some h =>
  -- obsess over this host check
  let ev2 := ev1 ++ (obsessive_compulsive_host_check_processor env g (hist ++ ev1) (some h)).2
  let ha : host := w.obsessive_compulsive_host_check_processor (hist ++ ev1) h
  -- update performance data
  let ev3 := ev2 ++ [Event.update_host_performance_data (some ha)]
  let h0 : host := w.update_host_performance_data (hist ++ ev2) ha
  -- record latest time for current state
  let h1 : host :=
    { h0 with
      last_time_up := if h0.current_state = HOST_UP then current_time else h0.last_time_up,
      last_time_down := if h0.current_state = HOST_DOWN then current_time else h0.last_time_down,
      last_time_unreachable :=
        if h0.current_state = HOST_UNREACHABLE then current_time else h0.last_time_unreachable }
  -- has the host state changed?
  let state_change : Int :=
    if h1.last_state ≠ h1.current_state ∨ h1.last_hard_state ≠ h1.current_state
        ∨ (h1.current_state = HOST_UP ∧ h1.state_type = SOFT_STATE) then TRUE
    else FALSE
  -- if the host state has changed...
  if state_change = TRUE then
    -- update last state change times
    let h2 : host := { h1 with last_state_change := current_time }
    let h3 : host :=
      { h2 with
        last_hard_state_change :=
          if h2.state_type = HARD_STATE then current_time else h2.last_hard_state_change }
    -- update the event id
    let h4 : host := { h3 with last_event_id := h3.current_event_id }
    let h5 : host := { h4 with current_event_id := g.next_event_id }
    let g1 : Globals := { g with next_event_id := (g.next_event_id + 1) % ULONG_MODULUS }
    -- reset the acknowledgement flag if necessary
    let h6 : host :=
      { h5 with
        problem_has_been_acknowledged :=
          if h5.acknowledgement_type = ACKNOWLEDGEMENT_NORMAL then FALSE
          else if h5.acknowledgement_type = ACKNOWLEDGEMENT_STICKY ∧ h5.current_state = HOST_UP
          then FALSE
          else h5.problem_has_been_acknowledged,
        acknowledgement_type :=
          if h5.acknowledgement_type = ACKNOWLEDGEMENT_NORMAL then ACKNOWLEDGEMENT_NONE
          else if h5.acknowledgement_type = ACKNOWLEDGEMENT_STICKY ∧ h5.current_state = HOST_UP
          then ACKNOWLEDGEMENT_NONE
          else h5.acknowledgement_type }
    -- remove any non-persistant comments associated with the ack
    let ev4 := ev3 ++ (
      if h5.acknowledgement_type = ACKNOWLEDGEMENT_NORMAL then
        [Event.delete_host_acknowledgement_comments h6]
      else if h5.acknowledgement_type = ACKNOWLEDGEMENT_STICKY ∧ h5.current_state = HOST_UP then
        [Event.delete_host_acknowledgement_comments h6]
      else [])
    let hd : host :=
      if h5.acknowledgement_type = ACKNOWLEDGEMENT_NORMAL then
        w.delete_host_acknowledgement_comments (hist ++ ev3) h6
      else if h5.acknowledgement_type = ACKNOWLEDGEMENT_STICKY ∧ h5.current_state = HOST_UP then
        w.delete_host_acknowledgement_comments (hist ++ ev3) h6
      else h6
    -- reset the next and last notification times
    let h7 : host := { hd with last_host_notification := 0 }
    let h8 : host := { h7 with next_host_notification := 0 }
    -- reset notification suppression option
    let h9 : host := { h8 with no_more_notifications := FALSE }
    -- write the host state change to the main log file
    let ev5 := ev4 ++ (
      if h9.state_type = HARD_STATE ∨ (h9.state_type = SOFT_STATE ∧ g1.log_host_retries = TRUE)
      then [Event.log_host_event h9] else [])
    let hl : host :=
      if h9.state_type = HARD_STATE ∨ (h9.state_type = SOFT_STATE ∧ g1.log_host_retries = TRUE)
      then w.log_host_event (hist ++ ev4) h9 else h9
    -- check for start of flexible (non-fixed) scheduled downtime
    let ev6 := ev5 ++ (
      if hl.state_type = HARD_STATE then [Event.check_pending_flex_host_downtime hl] else [])
    let hf : host :=
      if hl.state_type = HARD_STATE then w.check_pending_flex_host_downtime (hist ++ ev5) hl
      else hl
    -- notify contacts about the recovery or problem if its a "hard" state
    let ev7 := ev6 ++ (
      if hf.state_type = HARD_STATE then
        [Event.host_notification hf NOTIFICATION_NORMAL NOTIFICATION_OPTION_NONE]
      else [])
    let hn : host :=
      if hf.state_type = HARD_STATE then w.host_notification (hist ++ ev6) hf else hf
    -- handle the host state change
    let ev8 := ev7 ++ (handle_host_event env g1 (hist ++ ev7) (some hn)).2
    let he : host := w.handle_host_event (hist ++ ev7) hn
    -- the host just recovered, so reset the current host attempt
    let h10 : host :=
      { he with current_attempt := if he.current_state = HOST_UP then 1 else he.current_attempt }
    -- the host recovered, so reset the current notification number and state flags
    -- (after the recovery notification has gone out)
    let h11 : host :=
      { h10 with
        current_notification_number :=
          if h10.current_state = HOST_UP then 0 else h10.current_notification_number,
        notified_on_down := if h10.current_state = HOST_UP then FALSE else h10.notified_on_down,
        notified_on_unreachable :=
          if h10.current_state = HOST_UP then FALSE else h10.notified_on_unreachable }
    some ⟨OK, h11, g1, state_change, current_time, ev8⟩
  -- else the host state has not changed
  else
    -- notify contacts if host is still down or unreachable
    let ev4 := ev3 ++ (
      if h1.current_state ≠ HOST_UP ∧ h1.state_type = HARD_STATE then
        [Event.host_notification h1 NOTIFICATION_NORMAL NOTIFICATION_OPTION_NONE]
      else [])
    let hn : host :=
      if h1.current_state ≠ HOST_UP ∧ h1.state_type = HARD_STATE then
        w.host_notification (hist ++ ev3) h1
      else h1
    -- if we're in a soft state and we should log host retries, do so now...
    let ev5 := ev4 ++ (
      if hn.state_type = SOFT_STATE ∧ g.log_host_retries = TRUE then [Event.log_host_event hn]
      else [])
    let hl : host :=
      if hn.state_type = SOFT_STATE ∧ g.log_host_retries = TRUE then
        w.log_host_event (hist ++ ev4) hn
      else hn
    some ⟨OK, hl, g, state_change, current_time, ev5⟩

/-! ## Vocabulary of the properties -/

/-- The change-detection condition of line 676, on the fields of a host record. -/
def state_changed (h : host) : Prop :=
  h.last_state ≠ h.current_state ∨ h.last_hard_state ≠ h.current_state
    ∨ (h.current_state = HOST_UP ∧ h.state_type = SOFT_STATE)

instance (h : host) : Decidable (state_changed h) :=
  inferInstanceAs (Decidable (_ ∨ _ ∨ _))

/-- A call of `handle_host_state` on a non-null host declares a transition: it
returns with the local `state_change` equal to `TRUE`. -/
def declares_transition (env : Env) (g : Globals) (hist : List Event) (h : host) : Prop :=
  ∃ r, handle_host_state env g hist (some h) = some r ∧ r.state_change = TRUE

/-- The notification requests among the events, in order: the category and the
options of every `host_notification` call. -/
def notification_requests (evs : List Event) : List (Int × Int) :=
  evs.filterMap fun e =>
    match e with
    | .host_notification _ type options => some (type, options)
    | _ => none

/-- The collaborator calls that `handle_host_state` makes itself (and not through
the obsessive processor or the event-handler dispatcher), without the host
record they are handed. -/
inductive EngineCall where
  | time
  | update_host_performance_data
  | delete_host_acknowledgement_comments
  | log_host_event
  | check_pending_flex_host_downtime
  | host_notification (type : Int) (options : Int)
deriving DecidableEq

/-- The engine call an event stands for, if any. -/
def engineCall : Event → Option EngineCall
  | .time _ => some .time
  | .update_host_performance_data _ => some .update_host_performance_data
  | .delete_host_acknowledgement_comments _ => some .delete_host_acknowledgement_comments
  | .log_host_event _ => some .log_host_event
  | .check_pending_flex_host_downtime _ => some .check_pending_flex_host_downtime
  | .host_notification _ type options => some (.host_notification type options)
  | _ => none

/-- The engine calls among the events, in order. -/
def engine_calls (evs : List Event) : List EngineCall := evs.filterMap engineCall

/-- What the dispatcher and the forwarder do with a command, without the texts:
the request for the raw command line and whether one came back, the macro
expansion and whether a command line came back, the run of the command and
whether `my_system` reported a timeout, a line written by
`write_to_logs_and_console` with its category, and the drain of the external
commands. -/
inductive DispatchStep where
  | request (site : CallSite) (found : Bool)
  | expand (site : CallSite) (found : Bool)
  | run (site : CallSite) (timed_out : Bool)
  | warning (data_type : Nat)
  | drain
deriving DecidableEq

/-- The dispatch step an event stands for, if any. -/
def dispatchStep : Event → Option DispatchStep
  | .get_raw_command_line site _ _ _ raw_command => some (.request site raw_command.isSome)
  | .process_macros site _ _ processed_command => some (.expand site processed_command.isSome)
  | .my_system site _ _ res => some (.run site (decide (res.early_timeout = TRUE)))
  | .write_to_logs_and_console _ data_type _ => some (.warning data_type)
  | .check_for_external_commands => some .drain
  | _ => none

/-- The dispatch steps among the events, in order. -/
def dispatch_steps (evs : List Event) : List DispatchStep := evs.filterMap dispatchStep

/-- The steps of one handler whose command is configured: the raw command line is
requested; if it is found it is expanded; if the expansion yields a command
line the command is run; if the run times out a warning of category
`NSLOG_EVENT_HANDLER | NSLOG_RUNTIME_WARNING` is written. -/
def handler_steps (site : CallSite) (raw_found expanded timed_out : Bool) : List DispatchStep :=
  .request site raw_found ::
    (if raw_found then
      .expand site expanded ::
        (if expanded then
          .run site timed_out ::
            (if timed_out then [.warning (NSLOG_EVENT_HANDLER ||| NSLOG_RUNTIME_WARNING)] else [])
        else [])
    else [])

/-- The call sites of the `my_system` calls among the events, in order. -/
def command_runs (evs : List Event) : List CallSite :=
  evs.filterMap fun e =>
    match e with
    | .my_system site _ _ _ => some site
    | _ => none

/-- The sites of the runs among dispatch steps, in order. -/
def run_sites (steps : List DispatchStep) : List CallSite :=
  steps.filterMap fun c =>
    match c with
    | .run site _ => some site
    | _ => none

/-- The writes to the log files: `write_to_logs_and_console`, `write_to_all_logs`
and `log_host_event` (the function-entry and diagnostic traces of
`log_debug_info` go to the debug file and are not log lines). -/
def isLogLine : Event → Bool
  | .write_to_logs_and_console _ _ _ => true
  | .write_to_all_logs _ _ => true
  | .log_host_event _ => true
  | _ => false

/-- The calls into the macro engine: clearing and grabbing macros, fetching a raw
command line and expanding it. -/
def isMacroCall : Event → Bool
  | .clear_volatile_macros => true
  | .grab_host_macros _ => true
  | .grab_service_macros _ => true
  | .grab_datetime_macros => true
  | .grab_summary_macros => true
  | .get_raw_command_line _ _ _ _ _ => true
  | .process_macros _ _ _ _ => true
  | _ => false

/-- The calls of `my_system` among the events, in order: the call site, the
command line handed over and the timeout. -/
def command_calls (evs : List Event) : List (CallSite × Option String × Int) :=
  evs.filterMap fun e =>
    match e with
    | .my_system site cmd timeout _ => some (site, cmd, timeout)
    | _ => none

/-- The macro expansions among the events, in order: the call site and the
command line `process_macros` produced (`none` for a null result). -/
def expansions (evs : List Event) : List (CallSite × Option String) :=
  evs.filterMap fun e =>
    match e with
    | .process_macros site _ _ processed_command => some (site, processed_command)
    | _ => none

/-- The steps of an obsessive processor whose command is configured, as the
service processor takes them: like `handler_steps`, with the timeout warning in
category `NSLOG_RUNTIME_WARNING`. -/
def forwarder_steps (site : CallSite) (raw_found expanded timed_out : Bool) :
    List DispatchStep :=
  .request site raw_found ::
    (if raw_found then
      .expand site expanded ::
        (if expanded then
          .run site timed_out ::
            (if timed_out then [.warning NSLOG_RUNTIME_WARNING] else [])
        else [])
    else [])

/-- The expansions among dispatch steps: the site and whether a command line came
back. -/
def expand_flags (steps : List DispatchStep) : List (CallSite × Bool) :=
  steps.filterMap fun c =>
    match c with
    | .expand site found => some (site, found)
    | _ => none

/-- Recognises a call of `check_for_external_commands`. -/
def isDrain : Event → Bool
  | .check_for_external_commands => true
  | _ => false

/-- How often the external commands are drained among the events. -/
def drain_calls (evs : List Event) : Nat := (evs.filter isDrain).length

/-- One call in a sequence of `handle_host_state` calls: the globals before the
call, the host record before the call and what the call leaves behind. -/
structure PassRecord where
  g_before : Globals
  input : host
  pass : HostPass

/-- A finite sequence of `handle_host_state` calls, one on each of the given host
records (of any hosts, as the scheduler left them), in order; each call starts
from the globals and the events the call before it left. -/
def run_passes (env : Env) : Globals → List Event → List host → List PassRecord
  | _, _, [] => []
  | g, hist, h :: rest =>
    match handle_host_state env g hist (some h) with
    | none => []
    | some r => ⟨g, h, r⟩ :: run_passes env r.g (hist ++ r.events) rest

/-- The values assigned to `current_event_id` at the declared transitions of a
sequence of calls, in call order. -/
def assigned_event_ids (rs : List PassRecord) : List Nat :=
  (rs.filter fun p => decide (p.pass.state_change = TRUE)).map fun p => p.pass.hst.current_event_id

/-- How many of the records make `handle_host_state` declare a transition. -/
def transition_count (hs : List host) : Nat := hs.countP fun h => decide (state_changed h)

/-- The calls one pass of `handle_host_state` makes to its collaborators and to
the two functions of this file it calls, without their arguments. -/
inductive PassCall where
  | obsessive_compulsive_host_check_processor
  | update_host_performance_data
  | delete_host_acknowledgement_comments
  | log_host_event
  | check_pending_flex_host_downtime
  | host_notification
  | handle_host_event
deriving DecidableEq

/-- The pass call an event stands for, if any.  A call of
`obsessive_compulsive_host_check_processor` or of `handle_host_event` is
recognised by the function-entry trace that is its first statement. -/
def passCall : Event → Option PassCall
  | .log_debug_info .DEBUGL_FUNCTIONS _ msg =>
    if msg = "obsessive_compulsive_host_check_processor()\n" then
      some .obsessive_compulsive_host_check_processor
    else if msg = "handle_host_event()\n" then some .handle_host_event
    else none
  | .update_host_performance_data _ => some .update_host_performance_data
  | .delete_host_acknowledgement_comments _ => some .delete_host_acknowledgement_comments
  | .log_host_event _ => some .log_host_event
  | .check_pending_flex_host_downtime _ => some .check_pending_flex_host_downtime
  | .host_notification _ _ _ => some .host_notification
  | _ => none

/-- The pass calls among the events, in order. -/
def pass_calls (evs : List Event) : List PassCall := evs.filterMap passCall

/-- Whether the event is a call of `log_host_event`. -/
def isLogHostEvent : Event → Bool
  | .log_host_event _ => true
  | _ => false

/-- How often `log_host_event` is called among the events. -/
def log_host_event_calls (evs : List Event) : Nat := (evs.filter isLogHostEvent).length

/-- A call of `handle_host_state` with writing callees on a non-null host declares
a transition: it returns with the local `state_change` equal to `TRUE`. -/
def declares_transition_with_writers (env : Env) (w : HostWriters) (g : Globals)
    (hist : List Event) (h : host) : Prop :=
  ∃ r, handle_host_state_with_writers env w g hist (some h) = some r ∧ r.state_change = TRUE

/-- The callee writes none of `last_host_notification`, `next_host_notification`
and `no_more_notifications` of the record it is handed. -/
def keeps_notification_times (f : List Event → host → host) : Prop :=
  ∀ hist h, (f hist h).last_host_notification = h.last_host_notification
    ∧ (f hist h).next_host_notification = h.next_host_notification
    ∧ (f hist h).no_more_notifications = h.no_more_notifications

/-- The records handed to the `host_notification` calls among the events, in
order. -/
def notified_records (evs : List Event) : List host :=
  evs.filterMap fun e =>
    match e with
    | .host_notification hst _ _ => some hst
    | _ => none

/-! ## Sample inputs -/

/-- Collaborators that expand every command to itself, never time out and read
the clock as 1000. -/
def sampleEnv : Env where
  USE_EVENT_BROKER := false
  time := fun _ => 1000
  gettimeofday := fun _ => ⟨1000, 0⟩
  get_raw_command_line := fun _ _ cmd _ => some cmd
  process_macros := fun _ raw _ => some raw
  my_system := fun _ _ _ => ⟨0, FALSE, none⟩
  macro_x := fun _ _ => none

/-- Globals with event handlers and obsessing switched off and the event id
counter at 3. -/
def sampleGlobals : Globals where
  enable_event_handlers := FALSE
  obsess_over_services := FALSE
  obsess_over_hosts := FALSE
  log_event_handlers := FALSE
  log_host_retries := FALSE
  next_event_id := 3
  event_handler_timeout := 30
  ocsp_timeout := 15
  ochp_timeout := 15
  global_host_event_handler := none
  global_service_event_handler := none
  global_host_event_handler_ptr := none
  global_service_event_handler_ptr := none
  ocsp_command := none
  ochp_command := none
  ocsp_command_ptr := none
  ochp_command_ptr := none
  program_start := 0

/-- A host that has been up, in a hard state, since its last check. -/
def sampleHost : host where
  name := "gw"
  current_state := HOST_UP
  last_state := HOST_UP
  last_hard_state := HOST_UP
  state_type := HARD_STATE
  current_attempt := 1
  max_attempts := 3
  current_event_id := 0
  last_event_id := 0
  acknowledgement_type := ACKNOWLEDGEMENT_NONE
  problem_has_been_acknowledged := FALSE
  event_handler_enabled := TRUE
  event_handler := none
  event_handler_ptr := none
  obsess_over_host := FALSE
  last_time_up := 900
  last_time_down := 0
  last_time_unreachable := 0
  last_state_change := 0
  last_hard_state_change := 0
  last_host_notification := 0
  next_host_notification := 0
  no_more_notifications := FALSE
  current_notification_number := 0
  notified_on_down := FALSE
  notified_on_unreachable := FALSE

/-- The sample host just found down: its last state and last hard state are
still up. -/
def downHost : host := { sampleHost with current_state := HOST_DOWN }

/-- The sample host found down while a normal acknowledgement is set. -/
def normalAckHost : host :=
  { downHost with acknowledgement_type := ACKNOWLEDGEMENT_NORMAL,
                  problem_has_been_acknowledged := TRUE }

/-- The sample host found down while a sticky acknowledgement is set. -/
def stickyAckHost : host :=
  { downHost with acknowledgement_type := ACKNOWLEDGEMENT_STICKY,
                  problem_has_been_acknowledged := TRUE }

/-- A host that comes back up after three failed attempts and two notifications. -/
def recoveringHost : host :=
  { sampleHost with last_state := HOST_DOWN, last_hard_state := HOST_DOWN, current_attempt := 3,
                    current_notification_number := 2, notified_on_down := TRUE }

/-- Collaborators like `sampleEnv`, except that a raw command line is found only
for a command whose definition is resolved (non-null command pointer). -/
def resolvedOnlyEnv : Env :=
  { sampleEnv with
    get_raw_command_line := fun _ cmd_ptr cmd _ =>
      match cmd_ptr with
      | some _ => some cmd
      | none => none }

/-- Collaborators like `resolvedOnlyEnv`, except that every command run is
reported as timed out. -/
def timeoutEnv : Env :=
  { resolvedOnlyEnv with my_system := fun _ _ _ => ⟨0, TRUE, none⟩ }

/-- Globals with event handlers enabled and both global handlers configured and
resolved. -/
def handlerGlobals : Globals :=
  { sampleGlobals with
    enable_event_handlers := TRUE,
    global_host_event_handler := some "global-host-handler",
    global_host_event_handler_ptr := some ⟨1⟩,
    global_service_event_handler := some "global-service-handler",
    global_service_event_handler_ptr := some ⟨2⟩ }

/-- The sample host found down, with an event handler of its own. -/
def handlerHost : host :=
  { downHost with event_handler := some "restart-host", event_handler_ptr := some ⟨3⟩ }

/-- A service of `handlerHost` with an event handler of its own. -/
def handlerService : service where
  host_name := "gw"
  description := "ping"
  current_state := 2
  state_type := HARD_STATE
  current_attempt := 3
  max_attempts := 3
  event_handler_enabled := TRUE
  event_handler := some "restart-service"
  event_handler_ptr := some ⟨4⟩
  obsess_over_service := FALSE
  host_ptr := some handlerHost

/-- A host like `handlerHost`, but its event handler names a command whose
definition is not resolved. -/
def unresolvedHandlerHost : host := { handlerHost with event_handler_ptr := none }

/-- A service whose host back-reference is missing and whose event handlers are
switched off. -/
def orphanQuietService : service :=
  { handlerService with host_ptr := none, event_handler_enabled := FALSE }

/-- The sample host with handlers of its own, switched off for this host. -/
def quietHost : host := { handlerHost with event_handler_enabled := FALSE }

/-- Globals with event handlers enabled and no global host event handler. -/
def ownHandlerOnlyGlobals : Globals :=
  { handlerGlobals with global_host_event_handler := none,
                        global_host_event_handler_ptr := none }

/-- Globals with obsessing enabled for hosts and services and both forwarding
commands configured and resolved. -/
def obsessGlobals : Globals :=
  { sampleGlobals with
    obsess_over_services := TRUE,
    obsess_over_hosts := TRUE,
    ocsp_command := some "forward-service",
    ocsp_command_ptr := some ⟨5⟩,
    ochp_command := some "forward-host",
    ochp_command_ptr := some ⟨6⟩ }

/-- Globals like `obsessGlobals`, but no `ochp_command` is configured. -/
def noOchpGlobals : Globals :=
  { obsessGlobals with ochp_command := none, ochp_command_ptr := none }

/-- Globals like `obsessGlobals`, but `ocsp_command` names a command whose
definition is not resolved. -/
def unresolvedOcspGlobals : Globals := { obsessGlobals with ocsp_command_ptr := none }

/-- The sample host found down, obsessed over. -/
def obsessedHost : host := { downHost with obsess_over_host := TRUE }

/-- A service of `handlerHost`, obsessed over. -/
def obsessedService : service := { handlerService with obsess_over_service := TRUE }

/-- An obsessed-over service whose host back-reference is missing. -/
def obsessedOrphanService : service := { obsessedService with host_ptr := none }

/-- The sample host found down in a soft state, its last hard state change at
500. -/
def softDownHost : host :=
  { downHost with state_type := SOFT_STATE, last_hard_state_change := 500 }

/-- The sample host found down with notification times set and further
notifications suppressed. -/
def notifiedDownHost : host :=
  { downHost with last_host_notification := 700, next_host_notification := 1300,
                  no_more_notifications := TRUE }

/-- A host that recovers in a hard state while a normal acknowledgement is set. -/
def acknowledgedRecoveringHost : host :=
  { recoveringHost with acknowledgement_type := ACKNOWLEDGEMENT_NORMAL,
                        problem_has_been_acknowledged := TRUE }

/-- Globals like `sampleGlobals`, with `log_host_retries` switched on. -/
def retryLogGlobals : Globals := { sampleGlobals with log_host_retries := TRUE }

/-- A host that was down at its last check and at its last hard state and is still
down, in a soft state. -/
def softRetryHost : host :=
  { softDownHost with last_state := HOST_DOWN, last_hard_state := HOST_DOWN }

/-- A host that is still down in a hard state, acknowledged, after three attempts
and two notifications, with its times and event ids set. -/
def stillDownHost : host :=
  { downHost with
    last_state := HOST_DOWN, last_hard_state := HOST_DOWN, current_attempt := 3,
    current_event_id := 2, last_event_id := 1,
    acknowledgement_type := ACKNOWLEDGEMENT_STICKY, problem_has_been_acknowledged := TRUE,
    last_time_down := 800, last_state_change := 600, last_hard_state_change := 700,
    last_host_notification := 750, next_host_notification := 1350,
    no_more_notifications := TRUE, current_notification_number := 2,
    notified_on_down := TRUE }

/-- A host in a state that is none of up, down and unreachable, unchanged since
its last check. -/
def oddStateHost : host :=
  { sampleHost with current_state := 7, last_state := 7, last_hard_state := 7 }

/-- Callees that write nothing into the record. -/
def inertWriters : HostWriters where
  obsessive_compulsive_host_check_processor := fun _ h => h
  update_host_performance_data := fun _ h => h
  delete_host_acknowledgement_comments := fun _ h => h
  log_host_event := fun _ h => h
  check_pending_flex_host_downtime := fun _ h => h
  host_notification := fun _ h => h
  handle_host_event := fun _ h => h

/-- A notification subsystem that stamps the record it is handed: it counts the
notification and writes the time it went out and the time of the next one; the
other callees write nothing. -/
def stampingWriters : HostWriters :=
  { inertWriters with
    host_notification := fun _ h =>
      { h with last_host_notification := 1000, next_host_notification := 1600,
               current_notification_number := h.current_notification_number + 1 } }

/-- Callees that write the record but none of the notification times: the
performance-data update and the dispatcher leave the record alone, the
notification subsystem counts the notification and remembers the state it
notified about. -/
def countingWriters : HostWriters :=
  { inertWriters with
    host_notification := fun _ h =>
      { h with current_notification_number := h.current_notification_number + 1,
               notified_on_down := TRUE } }

/-- The sample host found down in a soft state with notification times set and
further notifications suppressed. -/
def notifiedSoftDownHost : host := { notifiedDownHost with state_type := SOFT_STATE }

/-! ## Lemmas on the host state handler -/

/-- A non-null host declares a transition exactly when the condition of line 676
holds of its record. -/
theorem declares_transition_iff (env : Env) (g : Globals) (hist : List Event) (h : host) :
    declares_transition env g hist h ↔ state_changed h := by
  unfold declares_transition handle_host_state state_changed
  simp only []
  split
  · rename_i hc
    exact ⟨fun _ => hc, fun _ => ⟨_, rfl, rfl⟩⟩
  · rename_i hc
    constructor
    · rintro ⟨r, hr, hs⟩
      have h1 := Option.some.inj hr
      subst h1
      simp [TRUE, FALSE] at hs
    · intro hc2
      exact absurd hc2 hc

/-- The record and the counter after a pass that declares a transition. -/
theorem handle_host_state_changed (env : Env) (g : Globals) (hist : List Event) (h : host)
    (hc : state_changed h) :
    ∃ r, handle_host_state env g hist (some h) = some r
      ∧ r.result = OK ∧ r.state_change = TRUE
      ∧ r.g = { g with next_event_id := (g.next_event_id + 1) % ULONG_MODULUS }
      ∧ r.hst.current_state = h.current_state ∧ r.hst.state_type = h.state_type
      ∧ r.hst.last_state = h.last_state ∧ r.hst.last_hard_state = h.last_hard_state
      ∧ r.hst.last_state_change = r.current_time
      ∧ r.hst.current_event_id = g.next_event_id
      ∧ r.hst.last_event_id = h.current_event_id
      ∧ r.hst.acknowledgement_type =
          (if h.acknowledgement_type = ACKNOWLEDGEMENT_NORMAL then ACKNOWLEDGEMENT_NONE
           else if h.acknowledgement_type = ACKNOWLEDGEMENT_STICKY ∧ h.current_state = HOST_UP
           then ACKNOWLEDGEMENT_NONE else h.acknowledgement_type)
      ∧ r.hst.problem_has_been_acknowledged =
          (if h.acknowledgement_type = ACKNOWLEDGEMENT_NORMAL then FALSE
           else if h.acknowledgement_type = ACKNOWLEDGEMENT_STICKY ∧ h.current_state = HOST_UP
           then FALSE else h.problem_has_been_acknowledged)
      ∧ r.hst.current_attempt = (if h.current_state = HOST_UP then 1 else h.current_attempt)
      ∧ r.hst.current_notification_number =
          (if h.current_state = HOST_UP then 0 else h.current_notification_number)
      ∧ r.hst.notified_on_down = (if h.current_state = HOST_UP then FALSE else h.notified_on_down)
      ∧ r.hst.notified_on_unreachable =
          (if h.current_state = HOST_UP then FALSE else h.notified_on_unreachable) := by
  unfold state_changed at hc
  unfold handle_host_state
  simp only []
  rw [if_pos hc]
  exact ⟨_, rfl, rfl, rfl, rfl, rfl, rfl, rfl, rfl, rfl, rfl, rfl, rfl, rfl, rfl, rfl, rfl, rfl⟩

/-- The record and the counter after a pass that declares no transition. -/
theorem handle_host_state_unchanged (env : Env) (g : Globals) (hist : List Event) (h : host)
    (hc : ¬ state_changed h) :
    ∃ r, handle_host_state env g hist (some h) = some r
      ∧ r.result = OK ∧ r.state_change = FALSE ∧ r.g = g
      ∧ r.hst = { h with
          last_time_up := if h.current_state = HOST_UP then r.current_time else h.last_time_up,
          last_time_down :=
            if h.current_state = HOST_DOWN then r.current_time else h.last_time_down,
          last_time_unreachable :=
            if h.current_state = HOST_UNREACHABLE then r.current_time
            else h.last_time_unreachable } := by
  unfold state_changed at hc
  unfold handle_host_state
  simp only []
  rw [if_neg hc]
  exact ⟨_, rfl, rfl, rfl, rfl, rfl⟩

/-! ## Lemmas on the events of a call -/

/-- No events, no engine calls. -/
theorem engine_calls_nil : engine_calls [] = [] := rfl

/-- The engine calls of a list of events, one event at a time. -/
theorem engine_calls_cons (e : Event) (l : List Event) :
    engine_calls (e :: l) =
      (match engineCall e with
       | some c => c :: engine_calls l
       | none => engine_calls l) := by
  unfold engine_calls
  rw [List.filterMap_cons]
  cases engineCall e <;> rfl

/-- The engine calls of two runs of events in a row. -/
theorem engine_calls_append (a b : List Event) :
    engine_calls (a ++ b) = engine_calls a ++ engine_calls b := by
  simp [engine_calls]

/-- The obsessive host processor makes no engine call. -/
theorem ochp_engine_calls (env : Env) (g : Globals) (hist : List Event) (hst : Option host) :
    engine_calls (obsessive_compulsive_host_check_processor env g hist hst).2 = [] := by
  unfold obsessive_compulsive_host_check_processor
  simp only []
  repeat' split
  all_goals simp [engine_calls_append, engine_calls_cons, engine_calls_nil, engineCall]

/-- The global host event handler makes no engine call. -/
theorem run_global_host_event_handler_engine_calls (env : Env) (g : Globals)
    (hist : List Event) (hst : Option host) :
    engine_calls (run_global_host_event_handler env g hist hst).2 = [] := by
  unfold run_global_host_event_handler
  simp only []
  repeat' split
  all_goals simp [engine_calls_append, engine_calls_cons, engine_calls_nil, engineCall]

/-- The host event handler makes no engine call. -/
theorem run_host_event_handler_engine_calls (env : Env) (g : Globals)
    (hist : List Event) (hst : Option host) :
    engine_calls (run_host_event_handler env g hist hst).2 = [] := by
  unfold run_host_event_handler
  simp only []
  repeat' split
  all_goals simp [engine_calls_append, engine_calls_cons, engine_calls_nil, engineCall]

/-- The host event dispatcher makes no engine call. -/
theorem handle_host_event_engine_calls (env : Env) (g : Globals)
    (hist : List Event) (hst : Option host) :
    engine_calls (handle_host_event env g hist hst).2 = [] := by
  unfold handle_host_event
  simp only []
  repeat' split
  all_goals simp [engine_calls_append, engine_calls_cons, engine_calls_nil, engineCall,
    run_global_host_event_handler_engine_calls, run_host_event_handler_engine_calls]

/-- The engine calls of one pass on a non-null host, in order. -/
theorem handle_host_state_engine_calls (env : Env) (g : Globals) (hist : List Event)
    (h : host) :
    ∃ r, handle_host_state env g hist (some h) = some r
      ∧ engine_calls r.events =
          [EngineCall.time, EngineCall.update_host_performance_data] ++
          (if state_changed h then
            (if h.acknowledgement_type = ACKNOWLEDGEMENT_NORMAL
                ∨ (h.acknowledgement_type = ACKNOWLEDGEMENT_STICKY ∧ h.current_state = HOST_UP)
             then [EngineCall.delete_host_acknowledgement_comments] else [])
            ++ (if h.state_type = HARD_STATE
                  ∨ (h.state_type = SOFT_STATE ∧ g.log_host_retries = TRUE)
                then [EngineCall.log_host_event] else [])
            ++ (if h.state_type = HARD_STATE then
                  [EngineCall.check_pending_flex_host_downtime,
                   EngineCall.host_notification NOTIFICATION_NORMAL NOTIFICATION_OPTION_NONE]
                else [])
           else
            (if h.current_state ≠ HOST_UP ∧ h.state_type = HARD_STATE then
               [EngineCall.host_notification NOTIFICATION_NORMAL NOTIFICATION_OPTION_NONE]
             else [])
            ++ (if h.state_type = SOFT_STATE ∧ g.log_host_retries = TRUE then
                  [EngineCall.log_host_event] else [])) := by
  unfold handle_host_state state_changed
  simp only []
  split
  · refine ⟨_, rfl, ?_⟩
    simp only [engine_calls_append, engine_calls_cons, engine_calls_nil, engineCall,
      ochp_engine_calls, handle_host_event_engine_calls, List.append_nil, List.nil_append,
      apply_ite engine_calls]
    split_ifs <;> simp_all
  · refine ⟨_, rfl, ?_⟩
    simp only [engine_calls_append, engine_calls_cons, engine_calls_nil, engineCall,
      ochp_engine_calls, handle_host_event_engine_calls, List.append_nil, List.nil_append,
      apply_ite engine_calls]
    split_ifs <;> simp_all

/-- The notification requests are those of the engine calls. -/
theorem notification_requests_eq (evs : List Event) :
    notification_requests evs =
      (engine_calls evs).filterMap fun c =>
        match c with
        | .host_notification type options => some (type, options)
        | _ => none := by
  induction evs with
  | nil => rfl
  | cons e l ih =>
    unfold notification_requests engine_calls at *
    cases e <;> simp [List.filterMap_cons, engineCall, ih]

/-! ## Lemmas on the dispatch steps -/

/-- No events, no dispatch steps. -/
theorem dispatch_steps_nil : dispatch_steps [] = [] := rfl

/-- The dispatch steps of a list of events, one event at a time. -/
theorem dispatch_steps_cons (e : Event) (l : List Event) :
    dispatch_steps (e :: l) =
      (match dispatchStep e with
       | some c => c :: dispatch_steps l
       | none => dispatch_steps l) := by
  unfold dispatch_steps
  rw [List.filterMap_cons]
  cases dispatchStep e <;> rfl

/-- The dispatch steps of two runs of events in a row. -/
theorem dispatch_steps_append (a b : List Event) :
    dispatch_steps (a ++ b) = dispatch_steps a ++ dispatch_steps b := by
  simp [dispatch_steps]

/-- The steps of `run_global_host_event_handler` when its command is configured. -/
theorem run_global_host_event_handler_steps (env : Env) (g : Globals) (hist : List Event)
    (h : host) (he : g.enable_event_handlers ≠ FALSE)
    (hc : g.global_host_event_handler ≠ none) :
    ∃ a b t, dispatch_steps (run_global_host_event_handler env g hist (some h)).2
        = handler_steps .GLOBAL_HOST_EVENTHANDLER a b t
      ∧ (run_global_host_event_handler env g hist (some h)).1
        = (if a && b then OK else ERROR) := by
  unfold run_global_host_event_handler
  simp only []
  rw [if_neg he]
  cases hcmd : g.global_host_event_handler with
  | none => exact absurd hcmd hc
  | some handler =>
    simp only []
    generalize env.get_raw_command_line _ _ _ _ = raw
    cases raw with
    | none =>
      refine ⟨false, false, false, ?_, rfl⟩
      simp [dispatch_steps_append, dispatch_steps_cons, dispatch_steps_nil, dispatchStep,
        handler_steps, apply_ite dispatch_steps]
    | some raw =>
      simp only []
      generalize env.process_macros _ _ _ = pc
      cases pc with
      | none =>
        refine ⟨true, false, false, ?_, rfl⟩
        simp [dispatch_steps_append, dispatch_steps_cons, dispatch_steps_nil, dispatchStep,
        handler_steps, apply_ite dispatch_steps]
      | some processed =>
        simp only []
        generalize env.my_system _ _ _ = res
        by_cases hto : res.early_timeout = TRUE
        · refine ⟨true, true, true, ?_, rfl⟩
          simp [dispatch_steps_append, dispatch_steps_cons, dispatch_steps_nil, dispatchStep,
        handler_steps, apply_ite dispatch_steps, hto]
        · refine ⟨true, true, false, ?_, rfl⟩
          simp [dispatch_steps_append, dispatch_steps_cons, dispatch_steps_nil, dispatchStep,
        handler_steps, apply_ite dispatch_steps, hto]

/-- The steps of `run_host_event_handler` when its command is configured. -/
theorem run_host_event_handler_steps (env : Env) (g : Globals) (hist : List Event)
    (h : host) (hc : h.event_handler ≠ none) :
    ∃ a b t, dispatch_steps (run_host_event_handler env g hist (some h)).2
        = handler_steps .HOST_EVENTHANDLER a b t
      ∧ (run_host_event_handler env g hist (some h)).1 = (if a && b then OK else ERROR) := by
  unfold run_host_event_handler
  simp only []
  cases hcmd : h.event_handler with
  | none => exact absurd hcmd hc
  | some handler =>
    simp only []
    generalize env.get_raw_command_line _ _ _ _ = raw
    cases raw with
    | none =>
      refine ⟨false, false, false, ?_, rfl⟩
      simp [dispatch_steps_append, dispatch_steps_cons, dispatch_steps_nil, dispatchStep,
        handler_steps, apply_ite dispatch_steps]
    | some raw =>
      simp only []
      generalize env.process_macros _ _ _ = pc
      cases pc with
      | none =>
        refine ⟨true, false, false, ?_, rfl⟩
        simp [dispatch_steps_append, dispatch_steps_cons, dispatch_steps_nil, dispatchStep,
        handler_steps, apply_ite dispatch_steps]
      | some processed =>
        simp only []
        generalize env.my_system _ _ _ = res
        by_cases hto : res.early_timeout = TRUE
        · refine ⟨true, true, true, ?_, rfl⟩
          simp [dispatch_steps_append, dispatch_steps_cons, dispatch_steps_nil, dispatchStep,
        handler_steps, apply_ite dispatch_steps, hto]
        · refine ⟨true, true, false, ?_, rfl⟩
          simp [dispatch_steps_append, dispatch_steps_cons, dispatch_steps_nil, dispatchStep,
        handler_steps, apply_ite dispatch_steps, hto]

/-- The steps of `handle_host_event` when handlers are enabled and both the global
and the host's own handler are configured: the steps of the global handler, then
those of the own handler, then the drain; the call returns `OK`. -/
theorem handle_host_event_steps (env : Env) (g : Globals) (hist : List Event) (h : host)
    (he : g.enable_event_handlers ≠ FALSE) (hhe : h.event_handler_enabled ≠ FALSE)
    (hg : g.global_host_event_handler ≠ none) (ho : h.event_handler ≠ none) :
    (handle_host_event env g hist (some h)).1 = OK
    ∧ ∃ a b t a' b' t', dispatch_steps (handle_host_event env g hist (some h)).2
        = handler_steps .GLOBAL_HOST_EVENTHANDLER a b t
          ++ handler_steps .HOST_EVENTHANDLER a' b' t' ++ [DispatchStep.drain] := by
  unfold handle_host_event
  simp only []
  rw [if_neg he, if_neg hhe]
  cases hcmd : h.event_handler with
  | none => exact absurd hcmd ho
  | some handler =>
    simp only []
    refine ⟨trivial, ?_⟩
    obtain ⟨a, b, t, h1, -⟩ := run_global_host_event_handler_steps env g
      (hist ++ ([Event.log_debug_info .DEBUGL_FUNCTIONS 0 "handle_host_event()\n"]
        ++ (if env.USE_EVENT_BROKER then
              [Event.broker_statechange_data_host .NEBTYPE_STATECHANGE_END h] else [])
        ++ [Event.clear_volatile_macros, Event.grab_host_macros h,
            Event.grab_datetime_macros, Event.grab_summary_macros])) h he hg
    generalize (run_global_host_event_handler env g _ (some h)).2 = gl at h1 ⊢
    obtain ⟨a', b', t', h2, -⟩ := run_host_event_handler_steps env g
      (hist ++ ([Event.log_debug_info .DEBUGL_FUNCTIONS 0 "handle_host_event()\n"]
        ++ (if env.USE_EVENT_BROKER then
              [Event.broker_statechange_data_host .NEBTYPE_STATECHANGE_END h] else [])
        ++ [Event.clear_volatile_macros, Event.grab_host_macros h,
            Event.grab_datetime_macros, Event.grab_summary_macros] ++ gl)) h ho
    generalize (run_host_event_handler env g _ (some h)).2 = ow at h2 ⊢
    refine ⟨a, b, t, a', b', t', ?_⟩
    simp only [dispatch_steps_append, h1, h2]
    simp [dispatch_steps_cons, dispatch_steps_nil, dispatchStep, apply_ite dispatch_steps]

/-- The command runs are the runs among the dispatch steps. -/
theorem command_runs_eq (evs : List Event) :
    command_runs evs = run_sites (dispatch_steps evs) := by
  induction evs with
  | nil => rfl
  | cons e l ih =>
    unfold command_runs run_sites dispatch_steps at *
    cases e <;> simp [List.filterMap_cons, dispatchStep, ih]

/-- A handler's command is run exactly when its raw command line is found and expanded. -/
theorem run_sites_handler_steps (site : CallSite) (a b t : Bool) :
    run_sites (handler_steps site a b t) = if a && b then [site] else [] := by
  cases a <;> cases b <;> cases t <;> rfl

/-- The run sites of two runs of steps in a row. -/
theorem run_sites_append (x y : List DispatchStep) :
    run_sites (x ++ y) = run_sites x ++ run_sites y := by
  simp [run_sites]

/-- The step of an event of the call is among the dispatch steps of the call. -/
theorem mem_dispatch_steps (evs : List Event) (e : Event) (c : DispatchStep)
    (he : e ∈ evs) (hc : dispatchStep e = some c) : c ∈ dispatch_steps evs := by
  unfold dispatch_steps
  exact List.mem_filterMap.2 ⟨e, he, hc⟩

/-! ## The state transition engine: change detection, event ids, acknowledgements -/

/-- C1: on a non-null host, whatever the globals, `handle_host_state` declares a
transition exactly when `last_state != current_state`, or
`last_hard_state != current_state`, or the host is up in a soft state; a declared
transition stamps `last_state_change` with the time of the call, moves
`current_event_id` to `last_event_id` and takes the new `current_event_id` from the
counter; when the condition fails no transition is declared and
`last_state_change`, `current_event_id`, `last_event_id` and `next_event_id` keep
their values. -/
theorem C1_transition_iff_change_detected (env : Env) (g : Globals) (hist : List Event)
    (h : host) :
    (declares_transition env g hist h ↔
      (h.last_state ≠ h.current_state ∨ h.last_hard_state ≠ h.current_state
        ∨ (h.current_state = HOST_UP ∧ h.state_type = SOFT_STATE)))
    ∧ ∃ r, handle_host_state env g hist (some h) = some r
      ∧ (r.state_change = TRUE ↔
          (h.last_state ≠ h.current_state ∨ h.last_hard_state ≠ h.current_state
            ∨ (h.current_state = HOST_UP ∧ h.state_type = SOFT_STATE)))
      ∧ (r.state_change = TRUE →
          r.hst.last_state_change = r.current_time
          ∧ r.hst.last_event_id = h.current_event_id
          ∧ r.hst.current_event_id = g.next_event_id)
      ∧ (h.last_state = h.current_state → h.last_hard_state = h.current_state →
          ¬ (h.current_state = HOST_UP ∧ h.state_type = SOFT_STATE) →
            r.state_change = FALSE
            ∧ r.hst.last_state_change = h.last_state_change
            ∧ r.hst.current_event_id = h.current_event_id
            ∧ r.hst.last_event_id = h.last_event_id
            ∧ r.g.next_event_id = g.next_event_id) := by
  refine ⟨declares_transition_iff env g hist h, ?_⟩
  by_cases hc : state_changed h
  · obtain ⟨r, hr, -, hs, -, -, -, -, -, h1, h2, h3, -⟩ :=
      handle_host_state_changed env g hist h hc
    refine ⟨r, hr, ⟨fun _ => hc, fun _ => hs⟩, fun _ => ⟨h1, h3, h2⟩, ?_⟩
    intro e1 e2 e3
    exact absurd hc (by unfold state_changed; tauto)
  · obtain ⟨r, hr, -, hs, hg, hh⟩ := handle_host_state_unchanged env g hist h hc
    refine ⟨r, hr, ⟨fun ht => ?_, fun hc2 => absurd hc2 hc⟩, fun ht => ?_, fun _ _ _ => ?_⟩
    · rw [hs] at ht; exact absurd ht (by decide)
    · rw [hs] at ht; exact absurd ht (by decide)
    · rw [hh, hg]; exact ⟨hs, rfl, rfl, rfl, rfl⟩

/-- C1 at the sample host found down: the transition is declared, the change is
stamped and the event id comes from the counter (3). -/
theorem C1_transition_iff_change_detected_witness :
    declares_transition sampleEnv sampleGlobals [] downHost
    ∧ ∃ r, handle_host_state sampleEnv sampleGlobals [] (some downHost) = some r
      ∧ r.state_change = TRUE
      ∧ r.hst.last_state_change = r.current_time
      ∧ r.hst.last_event_id = 0
      ∧ r.hst.current_event_id = 3 := by
  obtain ⟨hiff, r, hr, hsc, hst, -⟩ :=
    C1_transition_iff_change_detected sampleEnv sampleGlobals [] downHost
  have hs : r.state_change = TRUE := hsc.2 (by decide)
  obtain ⟨h1, h2, h3⟩ := hst hs
  exact ⟨hiff.2 (by decide), r, hr, hs, h1, h2, h3⟩

/-- C2, as stated, fails: on a host whose `current_event_id` (7) is not below the
counter (3) a declared transition leaves `current_event_id` at 3, which is not
greater than before; and with the counter at its largest value the increment
wraps to 0. -/
theorem C2_counterexample_event_id :
    (declares_transition sampleEnv sampleGlobals [] { downHost with current_event_id := 7 }
      ∧ ∃ r, handle_host_state sampleEnv sampleGlobals []
            (some { downHost with current_event_id := 7 }) = some r
          ∧ r.hst.current_event_id = 3
          ∧ ¬ (7 < r.hst.current_event_id))
    ∧ (declares_transition sampleEnv { sampleGlobals with next_event_id := 2 ^ 64 - 1 } []
        downHost
      ∧ ∃ r, handle_host_state sampleEnv { sampleGlobals with next_event_id := 2 ^ 64 - 1 } []
            (some downHost) = some r
          ∧ r.g.next_event_id = 0
          ∧ ¬ (r.g.next_event_id = (2 ^ 64 - 1) + 1)) := by
  refine ⟨⟨(declares_transition_iff _ _ _ _).2 (by decide), _, rfl, rfl, by decide⟩,
    ⟨(declares_transition_iff _ _ _ _).2 (by decide), _, rfl, by decide, by decide⟩⟩

/-- C2 (amended): a declared transition replaces `next_event_id` by its successor
modulo the range of `unsigned long` (its value plus exactly 1 unless it was the
largest value), stores the old counter value in `current_event_id` and the old
`current_event_id` in `last_event_id`; the new `current_event_id` is greater than
the old one exactly when the old one was below the counter. -/
theorem C2_event_id_from_counter (env : Env) (g : Globals) (hist : List Event) (h : host)
    (hd : declares_transition env g hist h) :
    ∃ r, handle_host_state env g hist (some h) = some r
      ∧ r.g.next_event_id = (g.next_event_id + 1) % ULONG_MODULUS
      ∧ (g.next_event_id + 1 < ULONG_MODULUS → r.g.next_event_id = g.next_event_id + 1)
      ∧ r.hst.current_event_id = g.next_event_id
      ∧ r.hst.last_event_id = h.current_event_id
      ∧ (h.current_event_id < r.hst.current_event_id
          ↔ h.current_event_id < g.next_event_id) := by
  obtain ⟨r, hr, -, -, hg, -, -, -, -, -, h2, h3, -⟩ :=
    handle_host_state_changed env g hist h ((declares_transition_iff env g hist h).1 hd)
  refine ⟨r, hr, ?_, ?_, h2, h3, ?_⟩
  · rw [hg]
  · intro hlt
    rw [hg]
    exact Nat.mod_eq_of_lt hlt
  · rw [h2]

/-- C2 (amended), at the sample host found down with the counter at 3. -/
theorem C2_event_id_from_counter_witness :
    declares_transition sampleEnv sampleGlobals [] downHost
    ∧ ∃ r, handle_host_state sampleEnv sampleGlobals [] (some downHost) = some r
      ∧ r.g.next_event_id = (sampleGlobals.next_event_id + 1) % ULONG_MODULUS
      ∧ (sampleGlobals.next_event_id + 1 < ULONG_MODULUS →
          r.g.next_event_id = sampleGlobals.next_event_id + 1)
      ∧ r.hst.current_event_id = sampleGlobals.next_event_id
      ∧ r.hst.last_event_id = downHost.current_event_id
      ∧ (downHost.current_event_id < r.hst.current_event_id ↔
          downHost.current_event_id < sampleGlobals.next_event_id) :=
  ⟨(declares_transition_iff _ _ _ _).2 (by decide),
   C2_event_id_from_counter sampleEnv sampleGlobals [] downHost
     ((declares_transition_iff _ _ _ _).2 (by decide))⟩

/-- C3: on a host whose acknowledgement is `ACKNOWLEDGEMENT_NORMAL`, any declared
transition (to any state, hard or soft) leaves `acknowledgement_type` at
`ACKNOWLEDGEMENT_NONE` and `problem_has_been_acknowledged` at `FALSE`. -/
theorem C3_normal_acknowledgement_reset (env : Env) (g : Globals) (hist : List Event)
    (h : host) (hack : h.acknowledgement_type = ACKNOWLEDGEMENT_NORMAL)
    (hd : declares_transition env g hist h) :
    ∃ r, handle_host_state env g hist (some h) = some r
      ∧ r.hst.acknowledgement_type = ACKNOWLEDGEMENT_NONE
      ∧ r.hst.problem_has_been_acknowledged = FALSE := by
  obtain ⟨r, hr, -, -, -, -, -, -, -, -, -, -, ha, hp, -⟩ :=
    handle_host_state_changed env g hist h ((declares_transition_iff env g hist h).1 hd)
  refine ⟨r, hr, ?_, ?_⟩
  · rw [ha, if_pos hack]
  · rw [hp, if_pos hack]

/-- C3 at the sample host found down while a normal acknowledgement is set. -/
theorem C3_normal_acknowledgement_reset_witness :
    normalAckHost.acknowledgement_type = ACKNOWLEDGEMENT_NORMAL
    ∧ declares_transition sampleEnv sampleGlobals [] normalAckHost
    ∧ ∃ r, handle_host_state sampleEnv sampleGlobals [] (some normalAckHost) = some r
      ∧ r.hst.acknowledgement_type = ACKNOWLEDGEMENT_NONE
      ∧ r.hst.problem_has_been_acknowledged = FALSE :=
  ⟨rfl, (declares_transition_iff _ _ _ _).2 (by decide),
   C3_normal_acknowledgement_reset sampleEnv sampleGlobals [] normalAckHost rfl
    ((declares_transition_iff _ _ _ _).2 (by decide))⟩

/-- C4: on a host whose acknowledgement is `ACKNOWLEDGEMENT_STICKY`, a declared
transition to a state other than `HOST_UP` keeps the acknowledgement sticky and
`problem_has_been_acknowledged` as it was; a declared transition to `HOST_UP`
leaves `ACKNOWLEDGEMENT_NONE` and `FALSE`. -/
theorem C4_sticky_acknowledgement (env : Env) (g : Globals) (hist : List Event)
    (h : host) (hack : h.acknowledgement_type = ACKNOWLEDGEMENT_STICKY)
    (hd : declares_transition env g hist h) :
    ∃ r, handle_host_state env g hist (some h) = some r
      ∧ (h.current_state ≠ HOST_UP →
          r.hst.acknowledgement_type = ACKNOWLEDGEMENT_STICKY
          ∧ r.hst.problem_has_been_acknowledged = h.problem_has_been_acknowledged)
      ∧ (h.current_state = HOST_UP →
          r.hst.acknowledgement_type = ACKNOWLEDGEMENT_NONE
          ∧ r.hst.problem_has_been_acknowledged = FALSE) := by
  obtain ⟨r, hr, -, -, -, -, -, -, -, -, -, -, ha, hp, -⟩ :=
    handle_host_state_changed env g hist h ((declares_transition_iff env g hist h).1 hd)
  have hn : ¬ h.acknowledgement_type = ACKNOWLEDGEMENT_NORMAL := by
    rw [hack]; decide
  refine ⟨r, hr, fun hne => ?_, fun hup => ?_⟩
  · have hf : ¬ (h.acknowledgement_type = ACKNOWLEDGEMENT_STICKY ∧ h.current_state = HOST_UP) :=
      fun hh => hne hh.2
    rw [ha, hp, if_neg hn, if_neg hf, if_neg hn, if_neg hf]
    exact ⟨hack, rfl⟩
  · have ht : h.acknowledgement_type = ACKNOWLEDGEMENT_STICKY ∧ h.current_state = HOST_UP :=
      ⟨hack, hup⟩
    rw [ha, hp, if_neg hn, if_pos ht, if_neg hn, if_pos ht]
    exact ⟨rfl, rfl⟩

/-- C4 at the sample host found down while a sticky acknowledgement is set: the
acknowledgement stays. -/
theorem C4_sticky_acknowledgement_witness :
    stickyAckHost.acknowledgement_type = ACKNOWLEDGEMENT_STICKY
    ∧ declares_transition sampleEnv sampleGlobals [] stickyAckHost
    ∧ ∃ r, handle_host_state sampleEnv sampleGlobals [] (some stickyAckHost) = some r
      ∧ r.hst.acknowledgement_type = ACKNOWLEDGEMENT_STICKY
      ∧ r.hst.problem_has_been_acknowledged = TRUE := by
  obtain ⟨r, hr, h1, -⟩ :=
    C4_sticky_acknowledgement sampleEnv sampleGlobals [] stickyAckHost rfl
      ((declares_transition_iff _ _ _ _).2 (by decide))
  exact ⟨rfl, (declares_transition_iff _ _ _ _).2 (by decide), r, hr, h1 (by decide)⟩

/-- C5: a declared transition with `current_state == HOST_UP` (a recovery, hard
or soft) leaves `current_attempt` at 1, `current_notification_number` at 0 and
both `notified_on_down` and `notified_on_unreachable` at `FALSE`. -/
theorem C5_recovery_reset (env : Env) (g : Globals) (hist : List Event) (h : host)
    (hd : declares_transition env g hist h) (hup : h.current_state = HOST_UP) :
    ∃ r, handle_host_state env g hist (some h) = some r
      ∧ r.hst.current_attempt = 1
      ∧ r.hst.current_notification_number = 0
      ∧ r.hst.notified_on_down = FALSE
      ∧ r.hst.notified_on_unreachable = FALSE := by
  obtain ⟨r, hr, -, -, -, -, -, -, -, -, -, -, -, -, h1, h2, h3, h4⟩ :=
    handle_host_state_changed env g hist h ((declares_transition_iff env g hist h).1 hd)
  refine ⟨r, hr, ?_, ?_, ?_, ?_⟩
  · rw [h1, if_pos hup]
  · rw [h2, if_pos hup]
  · rw [h3, if_pos hup]
  · rw [h4, if_pos hup]

/-- C5 at the recovering sample host. -/
theorem C5_recovery_reset_witness :
    declares_transition sampleEnv sampleGlobals [] recoveringHost
    ∧ recoveringHost.current_state = HOST_UP
    ∧ ∃ r, handle_host_state sampleEnv sampleGlobals [] (some recoveringHost) = some r
      ∧ r.hst.current_attempt = 1
      ∧ r.hst.current_notification_number = 0
      ∧ r.hst.notified_on_down = FALSE
      ∧ r.hst.notified_on_unreachable = FALSE :=
  ⟨(declares_transition_iff _ _ _ _).2 (by decide), rfl,
   C5_recovery_reset sampleEnv sampleGlobals [] recoveringHost
     ((declares_transition_iff _ _ _ _).2 (by decide)) rfl⟩

/-! ## The state transition engine: notifications, result, repeated calls -/

/-- C6: one call of `handle_host_state` on a non-null host requests a notification
(`host_notification` with `NOTIFICATION_NORMAL`) exactly once when
`state_type == HARD_STATE` and a transition is declared or the state is not
`HOST_UP`, and not at all otherwise; so no pass in a soft state requests one (the
soft recovery Up/Up/Up/Soft included), and a persisting hard problem with no
transition requests one and changes no event id. -/
theorem C6_notification_requests (env : Env) (g : Globals) (hist : List Event) (h : host) :
    ∃ r, handle_host_state env g hist (some h) = some r
      ∧ notification_requests r.events =
          (if h.state_type = HARD_STATE ∧ (r.state_change = TRUE ∨ h.current_state ≠ HOST_UP)
           then [(NOTIFICATION_NORMAL, NOTIFICATION_OPTION_NONE)] else [])
      ∧ (h.state_type = SOFT_STATE → notification_requests r.events = [])
      ∧ (h.current_state = HOST_UP → h.last_state = HOST_UP → h.last_hard_state = HOST_UP →
          h.state_type = SOFT_STATE →
            r.state_change = TRUE ∧ notification_requests r.events = [])
      ∧ (h.state_type = HARD_STATE → h.current_state ≠ HOST_UP → r.state_change ≠ TRUE →
          notification_requests r.events = [(NOTIFICATION_NORMAL, NOTIFICATION_OPTION_NONE)]
          ∧ r.hst.current_event_id = h.current_event_id
          ∧ r.hst.last_event_id = h.last_event_id
          ∧ r.g.next_event_id = g.next_event_id) := by
  obtain ⟨r, hr, he⟩ := handle_host_state_engine_calls env g hist h
  have hsh : SOFT_STATE ≠ HARD_STATE := by decide
  by_cases hc : state_changed h
  · obtain ⟨r', hr', -, hs, -⟩ := handle_host_state_changed env g hist h hc
    have hrr : r' = r := Option.some.inj (hr'.symm.trans hr)
    subst hrr
    have hn : notification_requests r'.events =
        (if h.state_type = HARD_STATE then [(NOTIFICATION_NORMAL, NOTIFICATION_OPTION_NONE)]
         else []) := by
      rw [notification_requests_eq, he, if_pos hc]
      split_ifs <;> simp
    refine ⟨r', hr, ?_, ?_, ?_, ?_⟩
    · rw [hn]
      by_cases h3 : h.state_type = HARD_STATE <;> simp [h3, hs]
    · intro hsoft
      rw [hn, if_neg (by rw [hsoft]; exact hsh)]
    · intro _ _ _ hsoft
      refine ⟨hs, ?_⟩
      rw [hn, if_neg (by rw [hsoft]; exact hsh)]
    · intro _ _ hns
      exact absurd hs hns
  · obtain ⟨r', hr', -, hs, hg, hh⟩ := handle_host_state_unchanged env g hist h hc
    have hrr : r' = r := Option.some.inj (hr'.symm.trans hr)
    subst hrr
    have hft : ¬ r'.state_change = TRUE := by rw [hs]; decide
    have hn : notification_requests r'.events =
        (if h.current_state ≠ HOST_UP ∧ h.state_type = HARD_STATE then
          [(NOTIFICATION_NORMAL, NOTIFICATION_OPTION_NONE)] else []) := by
      rw [notification_requests_eq, he, if_neg hc]
      split_ifs <;> simp
    refine ⟨r', hr, ?_, ?_, ?_, ?_⟩
    · rw [hn]
      by_cases h3 : h.state_type = HARD_STATE <;>
      by_cases h4 : h.current_state = HOST_UP <;> simp [h3, h4, hft]
    · intro hsoft
      rw [hn, if_neg (fun hh => hsh (hsoft.symm.trans hh.2))]
    · intro hup hl hlh hsoft
      exact absurd (Or.inr (Or.inr ⟨hup, hsoft⟩)) hc
    · intro hhard hne _
      rw [hn, if_pos ⟨hne, hhard⟩, hh, hg]
      exact ⟨rfl, rfl, rfl, rfl⟩

/-- C6 at the sample host found down in a hard state: exactly one normal
notification is requested. -/
theorem C6_notification_requests_witness :
    ∃ r, handle_host_state sampleEnv sampleGlobals [] (some downHost) = some r
      ∧ notification_requests r.events = [(NOTIFICATION_NORMAL, NOTIFICATION_OPTION_NONE)] := by
  obtain ⟨r, hr, hn, -⟩ := C6_notification_requests sampleEnv sampleGlobals [] downHost
  refine ⟨r, hr, ?_⟩
  rw [hn]
  exact if_pos ⟨rfl, Or.inr (by decide)⟩

/-- C7 (the code at the failing input): with a null host `handle_host_state`
evaluates `hst->current_state` and so yields no result at all, in particular
not `ERROR`; whenever it does return, whatever the collaborators answer, it
returns `OK`, and it returns for every non-null host. -/
theorem C7_null_host_is_dereferenced (env : Env) (g : Globals) (hist : List Event) :
    handle_host_state env g hist none = none
    ∧ (∀ h : host, ∃ r, handle_host_state env g hist (some h) = some r ∧ r.result = OK)
    ∧ (∀ (hst : Option host) (r : HostPass),
        handle_host_state env g hist hst = some r → r.result ≠ ERROR) := by
  have hall : ∀ h : host,
      ∃ r, handle_host_state env g hist (some h) = some r ∧ r.result = OK := by
    intro h
    by_cases hc : state_changed h
    · obtain ⟨r, hr, ho, -⟩ := handle_host_state_changed env g hist h hc
      exact ⟨r, hr, ho⟩
    · obtain ⟨r, hr, ho, -⟩ := handle_host_state_unchanged env g hist h hc
      exact ⟨r, hr, ho⟩
  refine ⟨rfl, hall, ?_⟩
  intro hst r hr
  cases hst with
  | none => exact absurd hr (by simp [handle_host_state])
  | some h =>
    obtain ⟨r', hr', ho⟩ := hall h
    have hrr : r' = r := Option.some.inj (hr'.symm.trans hr)
    subst hrr
    rw [ho]
    decide

/-- C8, as stated, fails: on the sample host found down (last state still up) two
calls in a row both declare a transition; the counter goes from 3 to 4 and then
to 5 and the second call assigns a new `current_event_id`. -/
theorem C8_counterexample_second_call_declares_again :
    ∃ r1 r2, handle_host_state sampleEnv sampleGlobals [] (some downHost) = some r1
      ∧ handle_host_state sampleEnv r1.g ([] ++ r1.events) (some r1.hst) = some r2
      ∧ r1.state_change = TRUE ∧ r2.state_change = TRUE
      ∧ r1.g.next_event_id = 4 ∧ r2.g.next_event_id = 5
      ∧ r1.hst.current_event_id = 3 ∧ r2.hst.current_event_id = 4
      ∧ r1.hst.last_event_id = 0 ∧ r2.hst.last_event_id = 3 :=
  ⟨_, _, rfl, rfl, by decide, by decide, by decide, by decide, by decide, by decide,
    by decide, by decide⟩

/-- C8 (amended): `handle_host_state` writes none of `current_state`, `state_type`,
`last_state` and `last_hard_state`, so of two calls in a row the second declares a
transition exactly when the first did; when the first declared none, the second
leaves `next_event_id`, `current_event_id`, `last_event_id` and `last_state_change`
as the first left them. -/
theorem C8_second_call_repeats_decision (env : Env) (g : Globals) (hist : List Event)
    (h : host) :
    ∃ r1 r2, handle_host_state env g hist (some h) = some r1
      ∧ handle_host_state env r1.g (hist ++ r1.events) (some r1.hst) = some r2
      ∧ r1.hst.current_state = h.current_state ∧ r1.hst.state_type = h.state_type
      ∧ r1.hst.last_state = h.last_state ∧ r1.hst.last_hard_state = h.last_hard_state
      ∧ (r2.state_change = TRUE ↔ r1.state_change = TRUE)
      ∧ (r1.state_change ≠ TRUE →
          r2.g.next_event_id = r1.g.next_event_id
          ∧ r2.hst.current_event_id = r1.hst.current_event_id
          ∧ r2.hst.last_event_id = r1.hst.last_event_id
          ∧ r2.hst.last_state_change = r1.hst.last_state_change) := by
  by_cases hc : state_changed h
  · obtain ⟨r1, hr1, -, hs1, -, f1, f2, f3, f4, -⟩ := handle_host_state_changed env g hist h hc
    have hc2 : state_changed r1.hst := by
      unfold state_changed at hc ⊢
      rw [f1, f2, f3, f4]
      exact hc
    obtain ⟨r2, hr2, -, hs2, -⟩ :=
      handle_host_state_changed env r1.g (hist ++ r1.events) r1.hst hc2
    exact ⟨r1, r2, hr1, hr2, f1, f2, f3, f4, ⟨fun _ => hs1, fun _ => hs2⟩,
      fun hn => absurd hs1 hn⟩
  · obtain ⟨r1, hr1, -, hs1, hg1, hh1⟩ := handle_host_state_unchanged env g hist h hc
    have f1 : r1.hst.current_state = h.current_state := by rw [hh1]
    have f2 : r1.hst.state_type = h.state_type := by rw [hh1]
    have f3 : r1.hst.last_state = h.last_state := by rw [hh1]
    have f4 : r1.hst.last_hard_state = h.last_hard_state := by rw [hh1]
    have hc2 : ¬ state_changed r1.hst := by
      unfold state_changed at hc ⊢
      rw [f1, f2, f3, f4]
      exact hc
    obtain ⟨r2, hr2, -, hs2, hg2, hh2⟩ :=
      handle_host_state_unchanged env r1.g (hist ++ r1.events) r1.hst hc2
    have hft : ¬ FALSE = TRUE := by decide
    refine ⟨r1, r2, hr1, hr2, f1, f2, f3, f4, ?_, fun _ => ?_⟩
    · rw [hs1, hs2]
    · rw [hg2, hh2]
      exact ⟨rfl, rfl, rfl, rfl⟩

/-- C8 (amended) at the sample host, up and unchanged: neither call declares a
transition and the second leaves the counter at 3. -/
theorem C8_second_call_repeats_decision_witness :
    ∃ r1 r2, handle_host_state sampleEnv sampleGlobals [] (some sampleHost) = some r1
      ∧ handle_host_state sampleEnv r1.g ([] ++ r1.events) (some r1.hst) = some r2
      ∧ r1.state_change ≠ TRUE
      ∧ r2.state_change ≠ TRUE
      ∧ r2.g.next_event_id = r1.g.next_event_id
      ∧ r2.hst.current_event_id = r1.hst.current_event_id := by
  obtain ⟨r1, r2, hr1, hr2, -, -, -, -, hiff, hun⟩ :=
    C8_second_call_repeats_decision sampleEnv sampleGlobals [] sampleHost
  have e1 := Option.some.inj hr1
  have hs1 : r1.state_change ≠ TRUE := by
    rw [← e1]
    decide
  obtain ⟨h1, h2, -⟩ := hun hs1
  exact ⟨r1, r2, hr1, hr2, hs1, fun h => hs1 (hiff.1 h), h1, h2⟩

/-! ## The event handler dispatcher -/

/-- C10, as stated, fails: handlers are enabled, both handlers are configured, the
run of the global handler's command is reported as timed out and the warning is
written, but no raw command line is found for the host's own handler, so its
command is not executed; the call returns `OK`. -/
theorem C10_counterexample_own_command_not_executed :
    handlerGlobals.enable_event_handlers ≠ FALSE
    ∧ unresolvedHandlerHost.event_handler_enabled ≠ FALSE
    ∧ handlerGlobals.global_host_event_handler ≠ none
    ∧ unresolvedHandlerHost.event_handler ≠ none
    ∧ (handle_host_event timeoutEnv handlerGlobals [] (some unresolvedHandlerHost)).1 = OK
    ∧ dispatch_steps
        (handle_host_event timeoutEnv handlerGlobals [] (some unresolvedHandlerHost)).2
        = [.request .GLOBAL_HOST_EVENTHANDLER true, .expand .GLOBAL_HOST_EVENTHANDLER true,
           .run .GLOBAL_HOST_EVENTHANDLER true,
           .warning (NSLOG_EVENT_HANDLER ||| NSLOG_RUNTIME_WARNING),
           .request .HOST_EVENTHANDLER false, .drain]
    ∧ command_runs
        (handle_host_event timeoutEnv handlerGlobals [] (some unresolvedHandlerHost)).2
        = [CallSite.GLOBAL_HOST_EVENTHANDLER] := by
  refine ⟨by decide, by decide, by decide, by decide, by decide, by decide, by decide⟩

/-- C10 (amended): on a non-null host with handlers enabled globally and for the
host and both handlers configured, if `my_system` reports a timeout for the
global handler's command, then the warning of category
`NSLOG_EVENT_HANDLER | NSLOG_RUNTIME_WARNING` is written right after that run, the
own handler is processed afterwards (its raw command line is requested, and its
command is run exactly when a raw command line is found and its expansion yields
a command line), the drain follows, and `handle_host_event` returns `OK`. -/
theorem C10_global_timeout_is_absorbed (env : Env) (g : Globals) (hist : List Event)
    (h : host)
    (he : g.enable_event_handlers ≠ FALSE) (hhe : h.event_handler_enabled ≠ FALSE)
    (hg : g.global_host_event_handler ≠ none) (ho : h.event_handler ≠ none)
    (hto : ∃ cmd timeout res,
      Event.my_system .GLOBAL_HOST_EVENTHANDLER cmd timeout res
        ∈ (handle_host_event env g hist (some h)).2
      ∧ res.early_timeout = TRUE) :
    (handle_host_event env g hist (some h)).1 = OK
    ∧ ∃ a' b' t',
        dispatch_steps (handle_host_event env g hist (some h)).2
          = [.request .GLOBAL_HOST_EVENTHANDLER true, .expand .GLOBAL_HOST_EVENTHANDLER true,
             .run .GLOBAL_HOST_EVENTHANDLER true,
             .warning (NSLOG_EVENT_HANDLER ||| NSLOG_RUNTIME_WARNING)]
            ++ handler_steps .HOST_EVENTHANDLER a' b' t' ++ [DispatchStep.drain]
        ∧ command_runs (handle_host_event env g hist (some h)).2
          = CallSite.GLOBAL_HOST_EVENTHANDLER
              :: (if a' && b' then [CallSite.HOST_EVENTHANDLER] else []) := by
  obtain ⟨hret, a, b, t, a', b', t', hs⟩ := handle_host_event_steps env g hist h he hhe hg ho
  obtain ⟨cmd, timeout, res, hmem, hres⟩ := hto
  have hstep : DispatchStep.run .GLOBAL_HOST_EVENTHANDLER true
      ∈ dispatch_steps (handle_host_event env g hist (some h)).2 :=
    mem_dispatch_steps _ _ _ hmem (by simp [dispatchStep, hres])
  rw [hs] at hstep
  have habt : a = true ∧ b = true ∧ t = true := by
    revert hstep
    cases a <;> cases b <;> cases t <;> cases a' <;> cases b' <;> cases t' <;> decide
  obtain ⟨rfl, rfl, rfl⟩ := habt
  refine ⟨hret, a', b', t', hs, ?_⟩
  rw [command_runs_eq, hs, run_sites_append, run_sites_append, run_sites_handler_steps,
    run_sites_handler_steps]
  simp [run_sites]

/-- C10 (amended) at the sample host with both handlers resolved and every run
reported as timed out. -/
theorem C10_global_timeout_is_absorbed_witness :
    (handlerGlobals.enable_event_handlers ≠ FALSE
      ∧ handlerHost.event_handler_enabled ≠ FALSE
      ∧ handlerGlobals.global_host_event_handler ≠ none
      ∧ handlerHost.event_handler ≠ none
      ∧ Event.my_system .GLOBAL_HOST_EVENTHANDLER (some "global-host-handler") 30
            ⟨0, TRUE, none⟩
          ∈ (handle_host_event timeoutEnv handlerGlobals [] (some handlerHost)).2)
    ∧ (handle_host_event timeoutEnv handlerGlobals [] (some handlerHost)).1 = OK
    ∧ ∃ a' b' t',
        dispatch_steps (handle_host_event timeoutEnv handlerGlobals [] (some handlerHost)).2
          = [.request .GLOBAL_HOST_EVENTHANDLER true, .expand .GLOBAL_HOST_EVENTHANDLER true,
             .run .GLOBAL_HOST_EVENTHANDLER true,
             .warning (NSLOG_EVENT_HANDLER ||| NSLOG_RUNTIME_WARNING)]
            ++ handler_steps .HOST_EVENTHANDLER a' b' t' ++ [DispatchStep.drain]
        ∧ command_runs (handle_host_event timeoutEnv handlerGlobals [] (some handlerHost)).2
          = CallSite.GLOBAL_HOST_EVENTHANDLER
              :: (if a' && b' then [CallSite.HOST_EVENTHANDLER] else []) :=
  ⟨⟨by decide, by decide, by decide, by decide, by decide⟩,
   C10_global_timeout_is_absorbed timeoutEnv handlerGlobals [] handlerHost
    (by decide) (by decide) (by decide) (by decide)
    ⟨some "global-host-handler", 30, ⟨0, TRUE, none⟩, by decide, rfl⟩⟩

/-! ## The event handler dispatcher: disabled handlers, local failures -/

/-- The events of `handle_host_event` when handlers are disabled globally or for
the host: the function-entry trace and, when the broker is compiled in, the
state-change report. -/
theorem handle_host_event_disabled (env : Env) (g : Globals) (hist : List Event) (h : host)
    (hd : g.enable_event_handlers = FALSE ∨ h.event_handler_enabled = FALSE) :
    handle_host_event env g hist (some h) =
      (OK, [Event.log_debug_info .DEBUGL_FUNCTIONS 0 "handle_host_event()\n"]
        ++ (if env.USE_EVENT_BROKER then
              [Event.broker_statechange_data_host .NEBTYPE_STATECHANGE_END h] else [])) := by
  unfold handle_host_event
  simp only []
  rcases hd with hd | hd
  · rw [if_pos hd]
  · by_cases he : g.enable_event_handlers = FALSE
    · rw [if_pos he]
    · rw [if_neg he, if_pos hd]

/-- The events of `handle_service_event` when handlers are disabled globally or
for the service. -/
theorem handle_service_event_disabled (env : Env) (g : Globals) (hist : List Event)
    (s : service)
    (hd : g.enable_event_handlers = FALSE ∨ s.event_handler_enabled = FALSE) :
    handle_service_event env g hist (some s) =
      (OK, [Event.log_debug_info .DEBUGL_FUNCTIONS 0 "handle_service_event()\n"]
        ++ (if env.USE_EVENT_BROKER then
              [Event.broker_statechange_data_service .NEBTYPE_STATECHANGE_END s] else [])) := by
  unfold handle_service_event
  simp only []
  rcases hd with hd | hd
  · rw [if_pos hd]
  · by_cases he : g.enable_event_handlers = FALSE
    · rw [if_pos he]
    · rw [if_neg he, if_pos hd]

/-- C11: for a non-null host or service, if `enable_event_handlers` is `FALSE` or
the object's `event_handler_enabled` is `FALSE`, `handle_host_event` /
`handle_service_event` returns `OK`; the only calls it makes are its function-entry
debug trace and, when the broker is compiled in, the state-change report: the
command runner is not invoked, no macro is grabbed or expanded, nothing is
written to the log and the external commands are not drained.  For a service this
holds whatever its host back-reference. -/
theorem C11_disabled_handlers_are_a_no_op (env : Env) (g : Globals) (hist : List Event)
    (h : host) (s : service)
    (hh : g.enable_event_handlers = FALSE ∨ h.event_handler_enabled = FALSE)
    (hs : g.enable_event_handlers = FALSE ∨ s.event_handler_enabled = FALSE) :
    ((handle_host_event env g hist (some h)).1 = OK
      ∧ (handle_host_event env g hist (some h)).2
          = [Event.log_debug_info .DEBUGL_FUNCTIONS 0 "handle_host_event()\n"]
            ++ (if env.USE_EVENT_BROKER then
                  [Event.broker_statechange_data_host .NEBTYPE_STATECHANGE_END h] else [])
      ∧ command_runs (handle_host_event env g hist (some h)).2 = []
      ∧ dispatch_steps (handle_host_event env g hist (some h)).2 = []
      ∧ (handle_host_event env g hist (some h)).2.filter isMacroCall = []
      ∧ (handle_host_event env g hist (some h)).2.filter isLogLine = [])
    ∧ ((handle_service_event env g hist (some s)).1 = OK
      ∧ (handle_service_event env g hist (some s)).2
          = [Event.log_debug_info .DEBUGL_FUNCTIONS 0 "handle_service_event()\n"]
            ++ (if env.USE_EVENT_BROKER then
                  [Event.broker_statechange_data_service .NEBTYPE_STATECHANGE_END s] else [])
      ∧ command_runs (handle_service_event env g hist (some s)).2 = []
      ∧ dispatch_steps (handle_service_event env g hist (some s)).2 = []
      ∧ (handle_service_event env g hist (some s)).2.filter isMacroCall = []
      ∧ (handle_service_event env g hist (some s)).2.filter isLogLine = []) := by
  rw [handle_host_event_disabled env g hist h hh, handle_service_event_disabled env g hist s hs]
  refine ⟨⟨rfl, rfl, ?_, ?_, ?_, ?_⟩, ⟨rfl, rfl, ?_, ?_, ?_, ?_⟩⟩ <;>
    cases env.USE_EVENT_BROKER <;> rfl

/-- C11 with handlers enabled globally, at a host whose own handlers are disabled
and at a service without host whose own handlers are disabled. -/
theorem C11_disabled_handlers_are_a_no_op_witness :
    (handlerGlobals.enable_event_handlers = FALSE ∨ quietHost.event_handler_enabled = FALSE)
    ∧ (handlerGlobals.enable_event_handlers = FALSE
        ∨ orphanQuietService.event_handler_enabled = FALSE)
    ∧ (handle_host_event sampleEnv handlerGlobals [] (some quietHost)).1 = OK
    ∧ command_runs (handle_host_event sampleEnv handlerGlobals [] (some quietHost)).2 = []
    ∧ (handle_service_event sampleEnv handlerGlobals [] (some orphanQuietService)).1 = OK
    ∧ command_runs
        (handle_service_event sampleEnv handlerGlobals [] (some orphanQuietService)).2 = [] := by
  have hw := C11_disabled_handlers_are_a_no_op sampleEnv handlerGlobals [] quietHost
    orphanQuietService (Or.inr rfl) (Or.inr rfl)
  exact ⟨Or.inr rfl, Or.inr rfl, hw.1.1, hw.1.2.2.1, hw.2.1, hw.2.2.2.1⟩

/-- With no global host event handler defined, `run_global_host_event_handler`
returns `ERROR` after its function-entry trace. -/
theorem run_global_host_event_handler_unconfigured (env : Env) (g : Globals)
    (hist : List Event) (h : host) (he : g.enable_event_handlers ≠ FALSE)
    (hn : g.global_host_event_handler = none) :
    run_global_host_event_handler env g hist (some h) =
      (ERROR,
        [Event.log_debug_info .DEBUGL_FUNCTIONS 0 "run_global_host_event_handler()\n"]) := by
  unfold run_global_host_event_handler
  simp only []
  rw [if_neg he, hn]

/-- With no event handler defined for the host, `run_host_event_handler` returns
`ERROR` after its function-entry trace. -/
theorem run_host_event_handler_unconfigured (env : Env) (g : Globals)
    (hist : List Event) (h : host) (hn : h.event_handler = none) :
    run_host_event_handler env g hist (some h) =
      (ERROR, [Event.log_debug_info .DEBUGL_FUNCTIONS 0 "run_host_event_handler()\n"]) := by
  unfold run_host_event_handler
  simp only []
  rw [hn]

/-- The steps of `handle_host_event` when handlers are enabled globally and for
the host, whichever handlers are configured: the steps of the global handler if
one is configured, then those of the own handler if one is configured, then the
drain; the call returns `OK`. -/
theorem handle_host_event_steps_enabled (env : Env) (g : Globals) (hist : List Event)
    (h : host)
    (he : g.enable_event_handlers ≠ FALSE) (hhe : h.event_handler_enabled ≠ FALSE) :
    (handle_host_event env g hist (some h)).1 = OK
    ∧ ∃ a b t a' b' t', dispatch_steps (handle_host_event env g hist (some h)).2
        = (if g.global_host_event_handler.isSome then
            handler_steps .GLOBAL_HOST_EVENTHANDLER a b t else [])
          ++ (if h.event_handler.isSome then
            handler_steps .HOST_EVENTHANDLER a' b' t' else [])
          ++ [DispatchStep.drain] := by
  have hpre : ∀ hist', ∃ a b t,
      dispatch_steps (run_global_host_event_handler env g hist' (some h)).2
        = (if g.global_host_event_handler.isSome then
            handler_steps .GLOBAL_HOST_EVENTHANDLER a b t else []) := by
    intro hist'
    cases hg : g.global_host_event_handler with
    | none =>
      rw [run_global_host_event_handler_unconfigured env g hist' h he hg]
      exact ⟨false, false, false, rfl⟩
    | some c =>
      obtain ⟨a, b, t, h1, -⟩ := run_global_host_event_handler_steps env g hist' h he
        (by rw [hg]; exact Option.some_ne_none c)
      exact ⟨a, b, t, h1⟩
  unfold handle_host_event
  simp only []
  rw [if_neg he, if_neg hhe]
  refine ⟨?_, ?_⟩
  · split <;> rfl
  · obtain ⟨a, b, t, h1⟩ := hpre
      (hist ++ ([Event.log_debug_info .DEBUGL_FUNCTIONS 0 "handle_host_event()\n"]
        ++ (if env.USE_EVENT_BROKER then
              [Event.broker_statechange_data_host .NEBTYPE_STATECHANGE_END h] else [])
        ++ [Event.clear_volatile_macros, Event.grab_host_macros h,
            Event.grab_datetime_macros, Event.grab_summary_macros]))
    generalize (run_global_host_event_handler env g _ (some h)).2 = gl at h1 ⊢
    cases hcmd : h.event_handler with
    | none =>
      refine ⟨a, b, t, false, false, false, ?_⟩
      simp only [dispatch_steps_append, h1]
      simp [dispatch_steps_cons, dispatch_steps_nil, dispatchStep, apply_ite dispatch_steps]
    | some handler =>
      simp only []
      obtain ⟨a', b', t', h2, -⟩ := run_host_event_handler_steps env g
        (hist ++ ([Event.log_debug_info .DEBUGL_FUNCTIONS 0 "handle_host_event()\n"]
          ++ (if env.USE_EVENT_BROKER then
                [Event.broker_statechange_data_host .NEBTYPE_STATECHANGE_END h] else [])
          ++ [Event.clear_volatile_macros, Event.grab_host_macros h,
              Event.grab_datetime_macros, Event.grab_summary_macros] ++ gl)) h
        (by rw [hcmd]; exact Option.some_ne_none handler)
      generalize (run_host_event_handler env g _ (some h)).2 = ow at h2 ⊢
      refine ⟨a, b, t, a', b', t', ?_⟩
      simp only [dispatch_steps_append, h1, h2]
      simp [dispatch_steps_cons, dispatch_steps_nil, dispatchStep, apply_ite dispatch_steps]

/-- C12: with event handlers enabled, each handler step fails on its own.
`run_global_host_event_handler` (resp. `run_host_event_handler`) returns `ERROR`
without invoking the command runner when its command is not configured, when no
raw command line is found or when the expansion yields no command line, and
otherwise runs its command once and returns `OK`; `handle_host_event` returns
`OK` in every case, and in one dispatch the steps of each configured handler are
there whatever became of the other: the command of a handler is run exactly when
it is configured, its raw command line is found and its expansion yields a
command line. -/
theorem C12_handler_steps_fail_locally (env : Env) (g : Globals) (hist : List Event)
    (h : host) (he : g.enable_event_handlers ≠ FALSE)
    (hhe : h.event_handler_enabled ≠ FALSE) :
    (g.global_host_event_handler = none →
        (run_global_host_event_handler env g hist (some h)).1 = ERROR
        ∧ command_runs (run_global_host_event_handler env g hist (some h)).2 = [])
    ∧ (g.global_host_event_handler ≠ none →
        ∃ a b t,
          dispatch_steps (run_global_host_event_handler env g hist (some h)).2
            = handler_steps .GLOBAL_HOST_EVENTHANDLER a b t
          ∧ (run_global_host_event_handler env g hist (some h)).1
            = (if a && b then OK else ERROR)
          ∧ command_runs (run_global_host_event_handler env g hist (some h)).2
            = (if a && b then [CallSite.GLOBAL_HOST_EVENTHANDLER] else []))
    ∧ (h.event_handler = none →
        (run_host_event_handler env g hist (some h)).1 = ERROR
        ∧ command_runs (run_host_event_handler env g hist (some h)).2 = [])
    ∧ (h.event_handler ≠ none →
        ∃ a b t,
          dispatch_steps (run_host_event_handler env g hist (some h)).2
            = handler_steps .HOST_EVENTHANDLER a b t
          ∧ (run_host_event_handler env g hist (some h)).1 = (if a && b then OK else ERROR)
          ∧ command_runs (run_host_event_handler env g hist (some h)).2
            = (if a && b then [CallSite.HOST_EVENTHANDLER] else []))
    ∧ (handle_host_event env g hist (some h)).1 = OK
    ∧ ∃ a b t a' b' t',
        dispatch_steps (handle_host_event env g hist (some h)).2
          = (if g.global_host_event_handler.isSome then
              handler_steps .GLOBAL_HOST_EVENTHANDLER a b t else [])
            ++ (if h.event_handler.isSome then
              handler_steps .HOST_EVENTHANDLER a' b' t' else [])
            ++ [DispatchStep.drain]
        ∧ command_runs (handle_host_event env g hist (some h)).2
          = (if g.global_host_event_handler.isSome && a && b then
              [CallSite.GLOBAL_HOST_EVENTHANDLER] else [])
            ++ (if h.event_handler.isSome && a' && b' then
              [CallSite.HOST_EVENTHANDLER] else []) := by
  refine ⟨fun hn => ?_, fun hc => ?_, fun hn => ?_, fun hc => ?_, ?_⟩
  · rw [run_global_host_event_handler_unconfigured env g hist h he hn]
    exact ⟨rfl, rfl⟩
  · obtain ⟨a, b, t, h1, h2⟩ := run_global_host_event_handler_steps env g hist h he hc
    refine ⟨a, b, t, h1, h2, ?_⟩
    rw [command_runs_eq, h1, run_sites_handler_steps]
  · rw [run_host_event_handler_unconfigured env g hist h hn]
    exact ⟨rfl, rfl⟩
  · obtain ⟨a, b, t, h1, h2⟩ := run_host_event_handler_steps env g hist h hc
    refine ⟨a, b, t, h1, h2, ?_⟩
    rw [command_runs_eq, h1, run_sites_handler_steps]
  · obtain ⟨hret, a, b, t, a', b', t', hs⟩ :=
      handle_host_event_steps_enabled env g hist h he hhe
    refine ⟨hret, a, b, t, a', b', t', hs, ?_⟩
    rw [command_runs_eq, hs, run_sites_append, run_sites_append]
    cases g.global_host_event_handler <;> cases h.event_handler <;>
      cases a <;> cases b <;> cases t <;> cases a' <;> cases b' <;> cases t' <;> rfl

/-- C12 at the sample host with a resolved handler of its own and no global
handler: the global step fails, the own command is run, the dispatch returns
`OK`. -/
theorem C12_handler_steps_fail_locally_witness :
    ownHandlerOnlyGlobals.enable_event_handlers ≠ FALSE
    ∧ handlerHost.event_handler_enabled ≠ FALSE
    ∧ (run_global_host_event_handler sampleEnv ownHandlerOnlyGlobals [] (some handlerHost)).1
        = ERROR
    ∧ command_runs
        (run_global_host_event_handler sampleEnv ownHandlerOnlyGlobals [] (some handlerHost)).2
        = []
    ∧ (handle_host_event sampleEnv ownHandlerOnlyGlobals [] (some handlerHost)).1 = OK
    ∧ command_runs (handle_host_event sampleEnv ownHandlerOnlyGlobals [] (some handlerHost)).2
        = [CallSite.HOST_EVENTHANDLER] := by
  have hw := C12_handler_steps_fail_locally sampleEnv ownHandlerOnlyGlobals [] handlerHost
    (by decide) (by decide)
  exact ⟨by decide, by decide, (hw.1 rfl).1, (hw.1 rfl).2, hw.2.2.2.2.1, by decide⟩

/-- The steps of `obsessive_compulsive_service_check_processor` when obsessing is
enabled globally and for the service, the command is configured and the service
has its host; every expansion that yields a command line is followed by one run
of exactly that command line with `ocsp_timeout`. -/
theorem ocsp_steps (env : Env) (g : Globals) (hist : List Event) (s : service) (hh : host)
    (ho : g.obsess_over_services ≠ FALSE) (hs : s.obsess_over_service ≠ FALSE)
    (hc : g.ocsp_command ≠ none) (hp : s.host_ptr = some hh) :
    ∃ a b t,
      dispatch_steps (obsessive_compulsive_service_check_processor env g hist (some s)).2
        = forwarder_steps .OCSP a b t
      ∧ (obsessive_compulsive_service_check_processor env g hist (some s)).1
        = (if a && b then OK else ERROR)
      ∧ command_calls (obsessive_compulsive_service_check_processor env g hist (some s)).2
        = (expansions
            (obsessive_compulsive_service_check_processor env g hist (some s)).2).filterMap
            fun p => p.2.map fun c => (p.1, some c, g.ocsp_timeout) := by
  unfold obsessive_compulsive_service_check_processor
  simp only []
  rw [if_neg ho, if_neg hs, hp]
  cases hcmd : g.ocsp_command with
  | none => exact absurd hcmd hc
  | some command =>
    simp only []
    generalize env.get_raw_command_line _ _ _ _ = raw
    cases raw with
    | none =>
      refine ⟨false, false, false, ?_, rfl, ?_⟩
      · simp [dispatch_steps_append, dispatch_steps_cons, dispatch_steps_nil, dispatchStep,
          forwarder_steps]
      · simp [command_calls, expansions]
    | some raw =>
      simp only []
      generalize env.process_macros _ _ _ = pc
      cases pc with
      | none =>
        refine ⟨true, false, false, ?_, rfl, ?_⟩
        · simp [dispatch_steps_append, dispatch_steps_cons, dispatch_steps_nil, dispatchStep,
            forwarder_steps]
        · simp [command_calls, expansions]
      | some processed =>
        simp only []
        generalize env.my_system _ _ _ = res
        by_cases hto : res.early_timeout = TRUE
        · refine ⟨true, true, true, ?_, rfl, ?_⟩
          · simp [dispatch_steps_append, dispatch_steps_cons, dispatch_steps_nil, dispatchStep,
              forwarder_steps, hto]
          · simp [command_calls, expansions, hto]
        · refine ⟨true, true, false, ?_, rfl, ?_⟩
          · simp [dispatch_steps_append, dispatch_steps_cons, dispatch_steps_nil, dispatchStep,
              forwarder_steps, hto]
          · simp [command_calls, expansions, hto]

/-- The steps of `obsessive_compulsive_host_check_processor` when obsessing is
enabled globally and for the host and the command is configured: once a raw
command line is found the command runner is invoked whatever the expansion
yields, and it is handed a null command line. -/
theorem ochp_steps (env : Env) (g : Globals) (hist : List Event) (h : host)
    (ho : g.obsess_over_hosts ≠ FALSE) (hh : h.obsess_over_host ≠ FALSE)
    (hc : g.ochp_command ≠ none) :
    ∃ a b t,
      dispatch_steps (obsessive_compulsive_host_check_processor env g hist (some h)).2
        = (.request .OCHP a ::
            (if a then
              [.expand .OCHP b, .run .OCHP t]
                ++ (if t then [.warning NSLOG_RUNTIME_WARNING] else [])
             else []))
      ∧ (obsessive_compulsive_host_check_processor env g hist (some h)).1
        = (if a then OK else ERROR)
      ∧ command_calls (obsessive_compulsive_host_check_processor env g hist (some h)).2
        = (expansions (obsessive_compulsive_host_check_processor env g hist (some h)).2).map
            fun p => (p.1, none, g.ochp_timeout) := by
  unfold obsessive_compulsive_host_check_processor
  simp only []
  rw [if_neg ho, if_neg hh]
  cases hcmd : g.ochp_command with
  | none => exact absurd hcmd hc
  | some command =>
    simp only []
    generalize env.get_raw_command_line _ _ _ _ = raw
    cases raw with
    | none =>
      refine ⟨false, false, false, ?_, rfl, ?_⟩
      · simp [dispatch_steps_append, dispatch_steps_cons, dispatch_steps_nil, dispatchStep]
      · simp [command_calls, expansions]
    | some raw =>
      simp only []
      generalize env.process_macros _ _ _ = pc
      generalize env.my_system _ _ _ = res
      by_cases hto : res.early_timeout = TRUE
      · refine ⟨true, pc.isSome, true, ?_, rfl, ?_⟩
        · simp [dispatch_steps_append, dispatch_steps_cons, dispatch_steps_nil, dispatchStep,
            hto]
        · simp [command_calls, expansions, hto]
      · refine ⟨true, pc.isSome, false, ?_, rfl, ?_⟩
        · simp [dispatch_steps_append, dispatch_steps_cons, dispatch_steps_nil, dispatchStep,
            hto]
        · simp [command_calls, expansions, hto]

/-- The expansion steps are the expansions, without the command lines. -/
theorem expand_flags_eq (evs : List Event) :
    expand_flags (dispatch_steps evs) = (expansions evs).map fun p => (p.1, p.2.isSome) := by
  induction evs with
  | nil => rfl
  | cons e l ih =>
    unfold expand_flags dispatch_steps expansions at *
    cases e <;> simp [List.filterMap_cons, dispatchStep, ih]

/-- The events of `obsessive_compulsive_host_check_processor` when obsessing is
disabled globally or for the host: the function-entry trace. -/
theorem ochp_disabled (env : Env) (g : Globals) (hist : List Event) (h : host)
    (hd : g.obsess_over_hosts = FALSE ∨ h.obsess_over_host = FALSE) :
    obsessive_compulsive_host_check_processor env g hist (some h) =
      (OK, [Event.log_debug_info .DEBUGL_FUNCTIONS 0
        "obsessive_compulsive_host_check_processor()\n"]) := by
  unfold obsessive_compulsive_host_check_processor
  simp only []
  rcases hd with hd | hd
  · rw [if_pos hd]
  · by_cases he : g.obsess_over_hosts = FALSE
    · rw [if_pos he]
    · rw [if_neg he, if_pos hd]

/-- The events of `obsessive_compulsive_service_check_processor` when obsessing is
disabled globally or for the service: the function-entry trace. -/
theorem ocsp_disabled (env : Env) (g : Globals) (hist : List Event) (s : service)
    (hd : g.obsess_over_services = FALSE ∨ s.obsess_over_service = FALSE) :
    obsessive_compulsive_service_check_processor env g hist (some s) =
      (OK, [Event.log_debug_info .DEBUGL_FUNCTIONS 0
        "obsessive_compulsive_service_check_processor()\n"]) := by
  unfold obsessive_compulsive_service_check_processor
  simp only []
  rcases hd with hd | hd
  · rw [if_pos hd]
  · by_cases he : g.obsess_over_services = FALSE
    · rw [if_pos he]
    · rw [if_neg he, if_pos hd]

/-- With obsessing enabled and no `ochp_command`, the host processor returns
`ERROR` after its function-entry trace. -/
theorem ochp_unconfigured (env : Env) (g : Globals) (hist : List Event) (h : host)
    (ho : g.obsess_over_hosts ≠ FALSE) (hh : h.obsess_over_host ≠ FALSE)
    (hn : g.ochp_command = none) :
    obsessive_compulsive_host_check_processor env g hist (some h) =
      (ERROR, [Event.log_debug_info .DEBUGL_FUNCTIONS 0
        "obsessive_compulsive_host_check_processor()\n"]) := by
  unfold obsessive_compulsive_host_check_processor
  simp only []
  rw [if_neg ho, if_neg hh, hn]

/-- With obsessing enabled and no `ocsp_command`, or with a command and no host
back-reference, the service processor returns `ERROR` after its function-entry
trace. -/
theorem ocsp_unconfigured_or_orphan (env : Env) (g : Globals) (hist : List Event)
    (s : service)
    (ho : g.obsess_over_services ≠ FALSE) (hs : s.obsess_over_service ≠ FALSE)
    (hn : g.ocsp_command = none ∨ s.host_ptr = none) :
    obsessive_compulsive_service_check_processor env g hist (some s) =
      (ERROR, [Event.log_debug_info .DEBUGL_FUNCTIONS 0
        "obsessive_compulsive_service_check_processor()\n"]) := by
  unfold obsessive_compulsive_service_check_processor
  simp only []
  rw [if_neg ho, if_neg hs]
  cases hc : g.ocsp_command with
  | none => rfl
  | some c =>
    rcases hn with hn | hn
    · rw [hc] at hn; exact absurd hn (Option.some_ne_none c)
    · simp only []
      rw [hn]

/-! ## The obsessive forwarder -/

/-- C13: for a non-null host (resp. service), if `obsess_over_hosts` (resp.
`obsess_over_services`) is `FALSE` or the object's own obsess flag is `FALSE`, the
obsessive processor makes no call but its function-entry trace, so it never
invokes the command runner, and returns `OK`, whether or not `ochp_command`
(`ocsp_command`) is configured. -/
theorem C13_no_obsessing_without_both_flags (env : Env) (g : Globals) (hist : List Event)
    (h : host) (s : service)
    (hh : g.obsess_over_hosts = FALSE ∨ h.obsess_over_host = FALSE)
    (hs : g.obsess_over_services = FALSE ∨ s.obsess_over_service = FALSE) :
    ((obsessive_compulsive_host_check_processor env g hist (some h)).1 = OK
      ∧ (obsessive_compulsive_host_check_processor env g hist (some h)).2
          = [Event.log_debug_info .DEBUGL_FUNCTIONS 0
              "obsessive_compulsive_host_check_processor()\n"]
      ∧ command_runs (obsessive_compulsive_host_check_processor env g hist (some h)).2 = []
      ∧ dispatch_steps (obsessive_compulsive_host_check_processor env g hist (some h)).2 = [])
    ∧ ((obsessive_compulsive_service_check_processor env g hist (some s)).1 = OK
      ∧ (obsessive_compulsive_service_check_processor env g hist (some s)).2
          = [Event.log_debug_info .DEBUGL_FUNCTIONS 0
              "obsessive_compulsive_service_check_processor()\n"]
      ∧ command_runs (obsessive_compulsive_service_check_processor env g hist (some s)).2 = []
      ∧ dispatch_steps (obsessive_compulsive_service_check_processor env g hist (some s)).2
          = []) := by
  rw [ochp_disabled env g hist h hh, ocsp_disabled env g hist s hs]
  exact ⟨⟨rfl, rfl, rfl, rfl⟩, ⟨rfl, rfl, rfl, rfl⟩⟩

/-- C13 at the sample down host and the sample service, neither obsessed over,
while obsessing is enabled globally and both forwarding commands are configured:
both processors return `OK` and run no command. -/
theorem C13_no_obsessing_without_both_flags_witness :
    obsessGlobals.obsess_over_hosts = TRUE
    ∧ obsessGlobals.ochp_command = some "forward-host"
    ∧ obsessGlobals.ocsp_command = some "forward-service"
    ∧ downHost.obsess_over_host = FALSE
    ∧ handlerService.obsess_over_service = FALSE
    ∧ (obsessive_compulsive_host_check_processor sampleEnv obsessGlobals []
        (some downHost)).1 = OK
    ∧ command_runs (obsessive_compulsive_host_check_processor sampleEnv obsessGlobals []
        (some downHost)).2 = []
    ∧ (obsessive_compulsive_service_check_processor sampleEnv obsessGlobals []
        (some handlerService)).1 = OK
    ∧ command_runs (obsessive_compulsive_service_check_processor sampleEnv obsessGlobals []
        (some handlerService)).2 = [] := by
  have hw := C13_no_obsessing_without_both_flags sampleEnv obsessGlobals [] downHost
    handlerService (Or.inr rfl) (Or.inr rfl)
  exact ⟨rfl, rfl, rfl, rfl, rfl, hw.1.1, hw.1.2.2.1, hw.2.1, hw.2.2.2.1⟩

/-- C14, as stated, fails: an obsessed-over service with `ocsp_command` configured
makes the service processor return `ERROR` when its host back-reference is
missing, and also when it has its host but no raw command line is found. -/
theorem C14_counterexample_error_for_orphan_service :
    obsessGlobals.ocsp_command ≠ none
    ∧ (obsessive_compulsive_service_check_processor sampleEnv obsessGlobals []
        (some obsessedOrphanService)).1 = ERROR
    ∧ unresolvedOcspGlobals.ocsp_command ≠ none
    ∧ obsessedService.host_ptr ≠ none
    ∧ (obsessive_compulsive_service_check_processor resolvedOnlyEnv unresolvedOcspGlobals []
        (some obsessedService)).1 = ERROR := by
  refine ⟨by decide, by decide, by decide, by decide, by decide⟩

/-- C14 (amended): if an obsessive processor returns `ERROR`, then the object is
null, or the forwarding command is not configured, or no raw command line was
found, or (service processor only) the host back-reference is missing or the
expansion yielded no command line; and then the command runner was not invoked,
so a timeout never makes it return `ERROR`. -/
theorem C14_causes_of_forwarder_error (env : Env) (g : Globals) (hist : List Event)
    (hst : Option host) (svc : Option service)
    (hh : (obsessive_compulsive_host_check_processor env g hist hst).1 = ERROR)
    (hs : (obsessive_compulsive_service_check_processor env g hist svc).1 = ERROR) :
    ((hst = none ∨ g.ochp_command = none
        ∨ DispatchStep.request .OCHP false
            ∈ dispatch_steps (obsessive_compulsive_host_check_processor env g hist hst).2)
      ∧ command_runs (obsessive_compulsive_host_check_processor env g hist hst).2 = [])
    ∧ ((svc = none ∨ g.ocsp_command = none
        ∨ (∃ s, svc = some s ∧ s.host_ptr = none)
        ∨ DispatchStep.request .OCSP false
            ∈ dispatch_steps (obsessive_compulsive_service_check_processor env g hist svc).2
        ∨ DispatchStep.expand .OCSP false
            ∈ dispatch_steps (obsessive_compulsive_service_check_processor env g hist svc).2)
      ∧ command_runs (obsessive_compulsive_service_check_processor env g hist svc).2 = []) := by
  have hne : OK ≠ ERROR := by decide
  constructor
  · cases hst with
    | none => exact ⟨Or.inl rfl, rfl⟩
    | some h =>
      by_cases hd : g.obsess_over_hosts = FALSE ∨ h.obsess_over_host = FALSE
      · rw [ochp_disabled env g hist h hd] at hh
        exact absurd hh hne
      · have ho : g.obsess_over_hosts ≠ FALSE := fun e => hd (Or.inl e)
        have hho : h.obsess_over_host ≠ FALSE := fun e => hd (Or.inr e)
        by_cases hc : g.ochp_command = none
        · rw [ochp_unconfigured env g hist h ho hho hc]
          exact ⟨Or.inr (Or.inl hc), rfl⟩
        · obtain ⟨a, b, t, h1, h2, -⟩ := ochp_steps env g hist h ho hho hc
          rw [h2] at hh
          rw [command_runs_eq, h1]
          cases a with
          | true => exact absurd hh hne
          | false => exact ⟨Or.inr (Or.inr (by simp)), rfl⟩
  · cases svc with
    | none => exact ⟨Or.inl rfl, rfl⟩
    | some s =>
      by_cases hd : g.obsess_over_services = FALSE ∨ s.obsess_over_service = FALSE
      · rw [ocsp_disabled env g hist s hd] at hs
        exact absurd hs hne
      · have ho : g.obsess_over_services ≠ FALSE := fun e => hd (Or.inl e)
        have hso : s.obsess_over_service ≠ FALSE := fun e => hd (Or.inr e)
        by_cases hc : g.ocsp_command = none
        · rw [ocsp_unconfigured_or_orphan env g hist s ho hso (Or.inl hc)]
          exact ⟨Or.inr (Or.inl hc), rfl⟩
        · cases hp : s.host_ptr with
          | none =>
            rw [ocsp_unconfigured_or_orphan env g hist s ho hso (Or.inr hp)]
            exact ⟨Or.inr (Or.inr (Or.inl ⟨s, rfl, hp⟩)), rfl⟩
          | some hhost =>
            obtain ⟨a, b, t, h1, h2, -⟩ := ocsp_steps env g hist s hhost ho hso hc hp
            rw [h2] at hs
            rw [command_runs_eq, h1]
            cases a <;> cases b <;> cases t <;>
              first
              | exact absurd hs hne
              | exact ⟨Or.inr (Or.inr (Or.inr (Or.inl (by decide)))), rfl⟩
              | exact ⟨Or.inr (Or.inr (Or.inr (Or.inr (by decide)))), rfl⟩

/-- C14 (amended) at an obsessed-over host with no `ochp_command` and an
obsessed-over service without host. -/
theorem C14_causes_of_forwarder_error_witness :
    (obsessive_compulsive_host_check_processor sampleEnv noOchpGlobals []
        (some obsessedHost)).1 = ERROR
    ∧ (obsessive_compulsive_service_check_processor sampleEnv noOchpGlobals []
        (some obsessedOrphanService)).1 = ERROR
    ∧ command_runs (obsessive_compulsive_host_check_processor sampleEnv noOchpGlobals []
        (some obsessedHost)).2 = []
    ∧ command_runs (obsessive_compulsive_service_check_processor sampleEnv noOchpGlobals []
        (some obsessedOrphanService)).2 = [] := by
  have hw := C14_causes_of_forwarder_error sampleEnv noOchpGlobals [] (some obsessedHost)
    (some obsessedOrphanService) (by decide) (by decide)
  exact ⟨by decide, by decide, hw.1.2, hw.2.2⟩

/-- C15 (the code on both objects): with obsessing enabled globally and for the
object, the forwarding command configured and its expansion yielding a command
line, the processor invokes the command runner exactly once with the dedicated
timeout, writes the warning exactly when the run timed out and returns `OK`; the
service processor hands over exactly the expanded command line `cs`, whereas the
host processor hands over a null command line instead of the expanded `c`. -/
theorem C15_forwarder_command_line (env : Env) (g : Globals) (hist : List Event)
    (h : host) (s : service) (hh : host) (c cs : String)
    (ho : g.obsess_over_hosts ≠ FALSE) (hho : h.obsess_over_host ≠ FALSE)
    (hc : g.ochp_command ≠ none)
    (hexp : expansions (obsessive_compulsive_host_check_processor env g hist (some h)).2
      = [(CallSite.OCHP, some c)])
    (so : g.obsess_over_services ≠ FALSE) (sso : s.obsess_over_service ≠ FALSE)
    (sc : g.ocsp_command ≠ none) (sp : s.host_ptr = some hh)
    (sexp : expansions (obsessive_compulsive_service_check_processor env g hist (some s)).2
      = [(CallSite.OCSP, some cs)]) :
    ((obsessive_compulsive_service_check_processor env g hist (some s)).1 = OK
      ∧ command_calls (obsessive_compulsive_service_check_processor env g hist (some s)).2
          = [(CallSite.OCSP, some cs, g.ocsp_timeout)]
      ∧ ∃ t, dispatch_steps (obsessive_compulsive_service_check_processor env g hist (some s)).2
          = [.request .OCSP true, .expand .OCSP true, .run .OCSP t]
            ++ (if t then [.warning NSLOG_RUNTIME_WARNING] else []))
    ∧ ((obsessive_compulsive_host_check_processor env g hist (some h)).1 = OK
      ∧ command_calls (obsessive_compulsive_host_check_processor env g hist (some h)).2
          = [(CallSite.OCHP, none, g.ochp_timeout)]
      ∧ command_calls (obsessive_compulsive_host_check_processor env g hist (some h)).2
          ≠ [(CallSite.OCHP, some c, g.ochp_timeout)]
      ∧ ∃ t, dispatch_steps (obsessive_compulsive_host_check_processor env g hist (some h)).2
          = [.request .OCHP true, .expand .OCHP true, .run .OCHP t]
            ++ (if t then [.warning NSLOG_RUNTIME_WARNING] else [])) := by
  constructor
  · obtain ⟨a, b, t, h1, h2, h3⟩ := ocsp_steps env g hist s hh so sso sc sp
    have hf := expand_flags_eq (obsessive_compulsive_service_check_processor env g hist (some s)).2
    rw [h1, sexp] at hf
    rw [h2, h3, sexp, h1]
    cases a <;> cases b <;> simp [expand_flags, forwarder_steps] at hf
    exact ⟨rfl, rfl, t, by cases t <;> rfl⟩
  · obtain ⟨a, b, t, h1, h2, h3⟩ := ochp_steps env g hist h ho hho hc
    have hf := expand_flags_eq (obsessive_compulsive_host_check_processor env g hist (some h)).2
    rw [h1, hexp] at hf
    rw [h2, h3, hexp, h1]
    cases a <;> cases b <;> simp [expand_flags] at hf
    exact ⟨rfl, rfl, by simp, t, by cases t <;> rfl⟩

/-- C15 at the sample obsessed-over host and service: the service command is run
as expanded, the host command line handed to the runner is null. -/
theorem C15_forwarder_command_line_witness :
    expansions (obsessive_compulsive_host_check_processor sampleEnv obsessGlobals []
        (some obsessedHost)).2 = [(CallSite.OCHP, some "forward-host")]
    ∧ expansions (obsessive_compulsive_service_check_processor sampleEnv obsessGlobals []
        (some obsessedService)).2 = [(CallSite.OCSP, some "forward-service")]
    ∧ command_calls (obsessive_compulsive_service_check_processor sampleEnv obsessGlobals []
        (some obsessedService)).2 = [(CallSite.OCSP, some "forward-service", 15)]
    ∧ command_calls (obsessive_compulsive_host_check_processor sampleEnv obsessGlobals []
        (some obsessedHost)).2 = [(CallSite.OCHP, none, 15)] := by
  have hw := C15_forwarder_command_line sampleEnv obsessGlobals [] obsessedHost obsessedService
    handlerHost "forward-host" "forward-service" (by decide) (by decide) (by decide) (by decide)
    (by decide) (by decide) (by decide) rfl (by decide)
  exact ⟨by decide, by decide, hw.1.2.1, hw.2.2.1⟩

/-- The drains are the drain steps. -/
theorem drain_calls_eq (evs : List Event) :
    drain_calls evs = (dispatch_steps evs).count DispatchStep.drain := by
  induction evs with
  | nil => rfl
  | cons e l ih =>
    unfold drain_calls dispatch_steps at *
    cases e <;> simp [List.filter_cons, List.filterMap_cons, dispatchStep, isDrain, ih]

/-- The steps of a handler contain no drain. -/
theorem count_drain_handler_steps (site : CallSite) (a b t : Bool) :
    (handler_steps site a b t).count DispatchStep.drain = 0 := by
  cases site <;> cases a <;> cases b <;> cases t <;> decide

/-- The obsessive host processor does not drain the external commands. -/
theorem ochp_no_drain (env : Env) (g : Globals) (hist : List Event) (hst : Option host) :
    (dispatch_steps (obsessive_compulsive_host_check_processor env g hist hst).2).count
      DispatchStep.drain = 0 := by
  cases hst with
  | none => rfl
  | some h =>
    by_cases hd : g.obsess_over_hosts = FALSE ∨ h.obsess_over_host = FALSE
    · rw [ochp_disabled env g hist h hd]; rfl
    · have ho : g.obsess_over_hosts ≠ FALSE := fun e => hd (Or.inl e)
      have hho : h.obsess_over_host ≠ FALSE := fun e => hd (Or.inr e)
      by_cases hc : g.ochp_command = none
      · rw [ochp_unconfigured env g hist h ho hho hc]; rfl
      · obtain ⟨a, b, t, h1, -⟩ := ochp_steps env g hist h ho hho hc
        rw [h1]
        cases a <;> cases b <;> cases t <;> decide

/-- The host event dispatcher drains the external commands once when handlers
are enabled globally and for the host, and not at all otherwise. -/
theorem handle_host_event_drains (env : Env) (g : Globals) (hist : List Event) (h : host) :
    drain_calls (handle_host_event env g hist (some h)).2
      = (if g.enable_event_handlers ≠ FALSE ∧ h.event_handler_enabled ≠ FALSE then 1
         else 0) := by
  by_cases hd : g.enable_event_handlers = FALSE ∨ h.event_handler_enabled = FALSE
  · have hn : ¬ (g.enable_event_handlers ≠ FALSE ∧ h.event_handler_enabled ≠ FALSE) := by
      rcases hd with hd | hd
      · exact fun x => x.1 hd
      · exact fun x => x.2 hd
    rw [handle_host_event_disabled env g hist h hd, if_neg hn]
    cases env.USE_EVENT_BROKER <;> rfl
  · have he : g.enable_event_handlers ≠ FALSE := fun e => hd (Or.inl e)
    have hhe : h.event_handler_enabled ≠ FALSE := fun e => hd (Or.inr e)
    obtain ⟨-, a, b, t, a', b', t', hs⟩ := handle_host_event_steps_enabled env g hist h he hhe
    have hpos : g.enable_event_handlers ≠ FALSE ∧ h.event_handler_enabled ≠ FALSE :=
      ⟨he, hhe⟩
    rw [drain_calls_eq, hs, if_pos hpos]
    simp only [List.count_append, apply_ite (List.count DispatchStep.drain),
      count_drain_handler_steps, List.count_nil, ite_self]
    rfl

/-- The events of a pass that declares a transition: a first part, whose dispatch
steps and drains are those of the obsessive processor, followed by the events of
one call of `handle_host_event` on the record as it stands before the recovery
reset. -/
theorem handle_host_state_changed_events (env : Env) (g : Globals) (hist : List Event)
    (h : host) (hc : state_changed h) :
    ∃ r pre hrec, handle_host_state env g hist (some h) = some r
      ∧ r.events = pre ++ (handle_host_event env r.g (hist ++ pre) (some hrec)).2
      ∧ drain_calls pre = 0
      ∧ hrec.event_handler_enabled = h.event_handler_enabled
      ∧ hrec.event_handler = h.event_handler
      ∧ hrec.current_state = h.current_state
      ∧ hrec.current_attempt = h.current_attempt
      ∧ hrec.current_notification_number = h.current_notification_number
      ∧ hrec.notified_on_down = h.notified_on_down
      ∧ hrec.notified_on_unreachable = h.notified_on_unreachable
      ∧ hrec.last_host_notification = 0
      ∧ hrec.next_host_notification = 0
      ∧ hrec.no_more_notifications = FALSE := by
  unfold state_changed at hc
  unfold handle_host_state
  simp only []
  rw [if_pos hc]
  refine ⟨_, _, _, rfl, rfl, ?_, rfl, rfl, rfl, rfl, rfl, rfl, rfl, rfl, rfl, rfl⟩
  rw [drain_calls_eq]
  simp only [dispatch_steps_append, List.count_append, ochp_no_drain,
    apply_ite dispatch_steps, apply_ite (List.count DispatchStep.drain)]
  simp [dispatch_steps_cons, dispatch_steps_nil, dispatchStep]

/-- The drains of two runs of events in a row. -/
theorem drain_calls_append (a b : List Event) :
    drain_calls (a ++ b) = drain_calls a + drain_calls b := by
  simp [drain_calls]

/-! ## The state transition engine: drain, time stamps, notification times -/

/-- C16, as stated, fails: on the sample host found down a transition is declared,
but event handlers are disabled globally, `handle_host_event` returns before it
reaches `check_for_external_commands`, and the pass drains nothing. -/
theorem C16_counterexample_no_drain_when_handlers_disabled :
    declares_transition sampleEnv sampleGlobals [] downHost
    ∧ sampleGlobals.enable_event_handlers = FALSE
    ∧ ∃ r, handle_host_state sampleEnv sampleGlobals [] (some downHost) = some r
      ∧ r.result = OK
      ∧ drain_calls r.events = 0 :=
  ⟨(declares_transition_iff _ _ _ _).2 (by decide), rfl, _, rfl, rfl, by decide⟩

/-- C16 (amended): on a non-null host on which `handle_host_state` declares a
transition, the external commands are drained exactly once during the pass when
event handlers are enabled globally and for the host (whether or not any handler
command is configured, expands or runs), and not at all when either flag is
`FALSE`; the pass returns `OK` either way. -/
theorem C16_drain_once_when_handlers_enabled (env : Env) (g : Globals) (hist : List Event)
    (h : host) (hd : declares_transition env g hist h) :
    ∃ r, handle_host_state env g hist (some h) = some r
      ∧ r.result = OK
      ∧ drain_calls r.events
          = (if g.enable_event_handlers ≠ FALSE ∧ h.event_handler_enabled ≠ FALSE then 1
             else 0) := by
  have hc := (declares_transition_iff env g hist h).1 hd
  obtain ⟨r, pre, hrec, hr, hev, hpre, he1, -⟩ :=
    handle_host_state_changed_events env g hist h hc
  obtain ⟨r', hr', hok, -, hg, -⟩ := handle_host_state_changed env g hist h hc
  have hrr : r' = r := Option.some.inj (hr'.symm.trans hr)
  subst hrr
  refine ⟨r', hr, hok, ?_⟩
  rw [hev, drain_calls_append, hpre, handle_host_event_drains, he1, hg, Nat.zero_add]

/-- C16 (amended) at the sample host found down, with handlers enabled and both
handlers configured: one drain. -/
theorem C16_drain_once_when_handlers_enabled_witness :
    declares_transition sampleEnv handlerGlobals [] handlerHost
    ∧ ∃ r, handle_host_state sampleEnv handlerGlobals [] (some handlerHost) = some r
      ∧ r.result = OK
      ∧ drain_calls r.events = 1 := by
  have hd : declares_transition sampleEnv handlerGlobals [] handlerHost :=
    (declares_transition_iff _ _ _ _).2 (by decide)
  obtain ⟨r, hr, hok, hn⟩ := C16_drain_once_when_handlers_enabled sampleEnv handlerGlobals []
    handlerHost hd
  refine ⟨hd, r, hr, hok, ?_⟩
  rw [hn]
  decide

/-- The engine call of an event of the call is among the engine calls of the
call. -/
theorem mem_engine_calls (evs : List Event) (e : Event) (c : EngineCall)
    (he : e ∈ evs) (hc : engineCall e = some c) : c ∈ engine_calls evs := by
  unfold engine_calls
  exact List.mem_filterMap.2 ⟨e, he, hc⟩

/-- The obsessive host processor requests no notification. -/
theorem ochp_no_notification (env : Env) (g : Globals) (hist : List Event)
    (hst : Option host) (hn : host) (t o : Int) :
    Event.host_notification hn t o
      ∉ (obsessive_compulsive_host_check_processor env g hist hst).2 := by
  intro hmem
  have := mem_engine_calls _ _ _ hmem rfl
  rw [ochp_engine_calls] at this
  exact absurd this (List.not_mem_nil _)

/-- The host event dispatcher requests no notification. -/
theorem handle_host_event_no_notification (env : Env) (g : Globals) (hist : List Event)
    (hst : Option host) (hn : host) (t o : Int) :
    Event.host_notification hn t o ∉ (handle_host_event env g hist hst).2 := by
  intro hmem
  have := mem_engine_calls _ _ _ hmem rfl
  rw [handle_host_event_engine_calls] at this
  exact absurd this (List.not_mem_nil _)

/-- C17: on a host on which `handle_host_state` declares a transition,
`last_state_change` after the call is the time read by `time` at the start of
the call; `last_hard_state_change` is that same time if `state_type` is
`HARD_STATE` and keeps its value otherwise. -/
theorem C17_state_change_time_stamps (env : Env) (g : Globals) (hist : List Event)
    (h : host) (hd : declares_transition env g hist h) :
    ∃ r, handle_host_state env g hist (some h) = some r
      ∧ r.current_time
          = env.time (hist ++ [Event.log_debug_info .DEBUGL_FUNCTIONS 0 "handle_host_state()\n"])
      ∧ r.hst.last_state_change = r.current_time
      ∧ (h.state_type = HARD_STATE → r.hst.last_hard_state_change = r.current_time)
      ∧ (h.state_type ≠ HARD_STATE →
          r.hst.last_hard_state_change = h.last_hard_state_change) := by
  have hc := (declares_transition_iff env g hist h).1 hd
  unfold state_changed at hc
  unfold handle_host_state
  simp only []
  rw [if_pos hc]
  refine ⟨_, rfl, rfl, rfl, fun hh => ?_, fun hh => ?_⟩
  · exact if_pos hh
  · exact if_neg hh

/-- C17 at the sample host found down in a hard state and in a soft state: the
clock reads 1000. -/
theorem C17_state_change_time_stamps_witness :
    declares_transition sampleEnv sampleGlobals [] downHost
    ∧ declares_transition sampleEnv sampleGlobals [] softDownHost
    ∧ (∃ r, handle_host_state sampleEnv sampleGlobals [] (some downHost) = some r
        ∧ r.hst.last_state_change = 1000 ∧ r.hst.last_hard_state_change = 1000)
    ∧ (∃ r, handle_host_state sampleEnv sampleGlobals [] (some softDownHost) = some r
        ∧ r.hst.last_state_change = 1000 ∧ r.hst.last_hard_state_change = 500) := by
  have hd1 : declares_transition sampleEnv sampleGlobals [] downHost :=
    (declares_transition_iff _ _ _ _).2 (by decide)
  have hd2 : declares_transition sampleEnv sampleGlobals [] softDownHost :=
    (declares_transition_iff _ _ _ _).2 (by decide)
  obtain ⟨r1, hr1, ht1, hs1, hh1, -⟩ :=
    C17_state_change_time_stamps sampleEnv sampleGlobals [] downHost hd1
  obtain ⟨r2, hr2, ht2, hs2, -, hn2⟩ :=
    C17_state_change_time_stamps sampleEnv sampleGlobals [] softDownHost hd2
  refine ⟨hd1, hd2, ⟨r1, hr1, ?_, ?_⟩, ⟨r2, hr2, ?_, ?_⟩⟩
  · rw [hs1, ht1]; rfl
  · rw [hh1 rfl, ht1]; rfl
  · rw [hs2, ht2]; rfl
  · rw [hn2 (by decide)]; rfl

/-- With callees that write nothing, the pass with writing callees is
`handle_host_state`. -/
theorem handle_host_state_with_inert_writers (env : Env) (g : Globals) (hist : List Event)
    (hst : Option host) :
    handle_host_state_with_writers env inertWriters g hist hst
      = handle_host_state env g hist hst := by
  cases hst with
  | none => rfl
  | some h =>
    unfold handle_host_state_with_writers handle_host_state
    simp only [inertWriters, ite_self]

/-- A callee that keeps the notification times, called or not. -/
theorem keeps_notification_times_ite (f : List Event → host → host)
    (hk : keeps_notification_times f) (c : Prop) [Decidable c] (hist : List Event) (h : host) :
    (if c then f hist h else h).last_host_notification = h.last_host_notification
    ∧ (if c then f hist h else h).next_host_notification = h.next_host_notification
    ∧ (if c then f hist h else h).no_more_notifications = h.no_more_notifications := by
  split_ifs
  · exact hk hist h
  · exact ⟨rfl, rfl, rfl⟩

/-- With callees that write nothing into the record: on a host on which
`handle_host_state` declares a transition, `last_host_notification` and
`next_host_notification` are 0 and `no_more_notifications` is `FALSE` after the
call, and they already are in the record handed to every notification request of
the pass. -/
theorem handle_host_state_notification_times (env : Env) (g : Globals) (hist : List Event)
    (h : host) (hd : declares_transition env g hist h) :
    ∃ r, handle_host_state env g hist (some h) = some r
      ∧ r.hst.last_host_notification = 0
      ∧ r.hst.next_host_notification = 0
      ∧ r.hst.no_more_notifications = FALSE
      ∧ ∀ hn t o, Event.host_notification hn t o ∈ r.events →
          hn.last_host_notification = 0 ∧ hn.next_host_notification = 0
          ∧ hn.no_more_notifications = FALSE := by
  have hc := (declares_transition_iff env g hist h).1 hd
  unfold state_changed at hc
  unfold handle_host_state
  simp only []
  rw [if_pos hc]
  refine ⟨_, rfl, rfl, rfl, rfl, ?_⟩
  intro hn t o hmem
  simp only [List.mem_append, List.mem_cons, List.mem_singleton, List.not_mem_nil,
    ochp_no_notification, handle_host_event_no_notification, or_false, false_or,
    reduceCtorEq] at hmem
  split_ifs at hmem <;> simp at hmem <;> obtain ⟨rfl, -, -⟩ := hmem <;>
    exact ⟨rfl, rfl, rfl⟩

/-- C18, as stated, fails: `handle_host_state` hands the record to
`host_notification` (line 727) after the reset of lines 711-715 and writes none
of the three fields afterwards.  With a notification subsystem that stamps the
record, the sample host found down in a hard state declares a transition and
`last_host_notification` and `next_host_notification` are 1000 and 1600 after
the call, though the record handed to the notification request carried 0 and
0; found down in a soft state, no notification is requested and both are 0. -/
theorem C18_counterexample_notification_stamps_the_record :
    declares_transition_with_writers sampleEnv stampingWriters sampleGlobals [] notifiedDownHost
    ∧ (∃ r, handle_host_state_with_writers sampleEnv stampingWriters sampleGlobals []
          (some notifiedDownHost) = some r
        ∧ notification_requests r.events = [(NOTIFICATION_NORMAL, NOTIFICATION_OPTION_NONE)]
        ∧ (notified_records r.events).map
            (fun x => (x.last_host_notification, x.next_host_notification)) = [(0, 0)]
        ∧ r.hst.last_host_notification = 1000
        ∧ r.hst.next_host_notification = 1600
        ∧ r.hst.last_host_notification ≠ 0
        ∧ r.hst.next_host_notification ≠ 0)
    ∧ declares_transition_with_writers sampleEnv stampingWriters sampleGlobals []
        notifiedSoftDownHost
    ∧ (∃ r, handle_host_state_with_writers sampleEnv stampingWriters sampleGlobals []
          (some notifiedSoftDownHost) = some r
        ∧ notification_requests r.events = []
        ∧ r.hst.last_host_notification = 0
        ∧ r.hst.next_host_notification = 0) :=
  ⟨⟨_, rfl, by decide⟩,
    ⟨_, rfl, by decide, by decide, by decide, by decide, by decide, by decide⟩,
    ⟨_, rfl, by decide⟩, ⟨_, rfl, by decide, by decide, by decide⟩⟩

/-- C18 (amended): on a host on which `handle_host_state` declares a transition,
whatever the values before the call, whatever the state type and whatever the
callees before the reset write, if the callees that are handed the record after
the reset of lines 711-715 (`log_host_event`, `check_pending_flex_host_downtime`,
`host_notification` and `handle_host_event`) write none of the three fields,
then `last_host_notification` and `next_host_notification` are 0 and
`no_more_notifications` is `FALSE` after the call, and they already are in the
record handed to every notification request of the pass. -/
theorem C18_notification_times_reset (env : Env) (w : HostWriters) (g : Globals)
    (hist : List Event) (h : host)
    (hd : declares_transition_with_writers env w g hist h)
    (hl : keeps_notification_times w.log_host_event)
    (hf : keeps_notification_times w.check_pending_flex_host_downtime)
    (hn : keeps_notification_times w.host_notification)
    (he : keeps_notification_times w.handle_host_event) :
    ∃ r, handle_host_state_with_writers env w g hist (some h) = some r
      ∧ r.state_change = TRUE
      ∧ r.hst.last_host_notification = 0
      ∧ r.hst.next_host_notification = 0
      ∧ r.hst.no_more_notifications = FALSE
      ∧ ∀ x t o, Event.host_notification x t o ∈ r.events →
          x.last_host_notification = 0 ∧ x.next_host_notification = 0
          ∧ x.no_more_notifications = FALSE := by
  obtain ⟨r, hr, hs⟩ := hd
  refine ⟨r, hr, hs, ?_⟩
  unfold handle_host_state_with_writers at hr
  dsimp -zeta only at hr
  lift_lets at hr
  extract_lets ev0 current_time ev1 ev2 ha ev3 h0 h1 state_change g1 h6 ev4 hd h9 ev5 hl'
    ev6 hf' ev7 hn' ev8 he' h11 ev4n hnn ev5n hln at hr
  split_ifs at hr with hc
  · have e := Option.some.inj hr
    subst e
    have k1 := keeps_notification_times_ite _ hl
      (h9.state_type = HARD_STATE ∨ h9.state_type = SOFT_STATE ∧ g1.log_host_retries = TRUE)
      (hist ++ ev4) h9
    have k2 := keeps_notification_times_ite _ hf (hl'.state_type = HARD_STATE) (hist ++ ev5) hl'
    have k3 := keeps_notification_times_ite _ hn (hf'.state_type = HARD_STATE) (hist ++ ev6) hf'
    have k4 := he (hist ++ ev7) hn'
    refine ⟨k4.1.trans (k3.1.trans (k2.1.trans k1.1)),
      k4.2.1.trans (k3.2.1.trans (k2.2.1.trans k1.2.1)),
      k4.2.2.trans (k3.2.2.trans (k2.2.2.trans k1.2.2)), ?_⟩
    intro x t o hmem
    have hmem' : Event.host_notification x t o ∈ ev8 := hmem
    simp only [ev8, ev7, ev6, ev5, ev4, ev3, ev2, ev1, ev0, List.mem_append, List.mem_cons,
      List.mem_singleton, List.not_mem_nil, ochp_no_notification,
      handle_host_event_no_notification, or_false, false_or, reduceCtorEq] at hmem'
    have key : x = hf' := by
      split_ifs at hmem' <;> simp at hmem' <;> exact hmem'.1
    rw [key]
    exact ⟨k2.1.trans k1.1, k2.2.1.trans k1.2.1, k2.2.2.trans k1.2.2⟩
  · have e := Option.some.inj hr
    subst e
    exact absurd hs hc

/-- C18 (amended) at the sample host found down with notification times set: with
a notification subsystem that counts the notification but keeps the three
fields they are 0, 0 and `FALSE` after the call and the notification number is
1; with callees that write nothing the pass is `handle_host_state` and the
fields are 0, 0 and `FALSE` as well. -/
theorem C18_notification_times_reset_witness :
    declares_transition_with_writers sampleEnv countingWriters sampleGlobals [] notifiedDownHost
    ∧ keeps_notification_times countingWriters.host_notification
    ∧ (∃ r, handle_host_state_with_writers sampleEnv countingWriters sampleGlobals []
          (some notifiedDownHost) = some r
        ∧ r.hst.last_host_notification = 0
        ∧ r.hst.next_host_notification = 0
        ∧ r.hst.no_more_notifications = FALSE
        ∧ r.hst.current_notification_number = 1)
    ∧ (∃ r, handle_host_state sampleEnv sampleGlobals [] (some notifiedDownHost) = some r
        ∧ r.hst.last_host_notification = 0
        ∧ r.hst.next_host_notification = 0
        ∧ r.hst.no_more_notifications = FALSE) := by
  have hd : declares_transition_with_writers sampleEnv countingWriters sampleGlobals []
      notifiedDownHost := ⟨_, rfl, by decide⟩
  have hk : keeps_notification_times countingWriters.host_notification :=
    fun _ _ => ⟨rfl, rfl, rfl⟩
  have hi : declares_transition_with_writers sampleEnv inertWriters sampleGlobals []
      notifiedDownHost := ⟨_, rfl, by decide⟩
  obtain ⟨r, hr, -, a, b, c, -⟩ := C18_notification_times_reset sampleEnv countingWriters
    sampleGlobals [] notifiedDownHost hd (fun _ _ => ⟨rfl, rfl, rfl⟩)
    (fun _ _ => ⟨rfl, rfl, rfl⟩) hk (fun _ _ => ⟨rfl, rfl, rfl⟩)
  obtain ⟨r', hr', -, a', b', c', -⟩ := C18_notification_times_reset sampleEnv inertWriters
    sampleGlobals [] notifiedDownHost hi (fun _ _ => ⟨rfl, rfl, rfl⟩)
    (fun _ _ => ⟨rfl, rfl, rfl⟩) (fun _ _ => ⟨rfl, rfl, rfl⟩)
    (fun _ _ => ⟨rfl, rfl, rfl⟩)
  rw [handle_host_state_with_inert_writers] at hr'
  refine ⟨hd, hk, ⟨r, hr, a, b, c, ?_⟩, ⟨r', hr', a', b', c'⟩⟩
  rw [← Option.some.inj hr]
  decide

/-- One call on a non-null host: it returns, its `state_change` tells whether the
condition of line 676 held, and the counter and the event ids are as lines
688-690 leave them. -/
theorem handle_host_state_ids (env : Env) (g : Globals) (hist : List Event) (h : host) :
    ∃ r, handle_host_state env g hist (some h) = some r
      ∧ (r.state_change = TRUE ↔ state_changed h)
      ∧ r.g.next_event_id
          = (if state_changed h then (g.next_event_id + 1) % ULONG_MODULUS else g.next_event_id)
      ∧ (state_changed h →
          r.hst.current_event_id = g.next_event_id
          ∧ r.hst.last_event_id = h.current_event_id) := by
  by_cases hc : state_changed h
  · obtain ⟨r, hr, -, hs, hg, -, -, -, -, -, h2, h3, -⟩ :=
      handle_host_state_changed env g hist h hc
    refine ⟨r, hr, ⟨fun _ => hc, fun _ => hs⟩, ?_, fun _ => ⟨h2, h3⟩⟩
    rw [if_pos hc, hg]
  · obtain ⟨r, hr, -, hs, hg, -⟩ := handle_host_state_unchanged env g hist h hc
    refine ⟨r, hr, ⟨fun ht => ?_, fun hc2 => absurd hc2 hc⟩, ?_, fun hc2 => absurd hc2 hc⟩
    · rw [hs] at ht; exact absurd ht (by decide)
    · rw [if_neg hc, hg]

/-- The invariant of a sequence of calls that never wraps the counter. -/
theorem run_passes_invariant (env : Env) (hs : List host) :
    ∀ (g : Globals) (hist : List Event),
      g.next_event_id + transition_count hs < ULONG_MODULUS →
      (run_passes env g hist hs).map (fun p => p.input) = hs
      ∧ (run_passes env g hist hs).map (fun p => p.g_before)
          = (g :: (run_passes env g hist hs).map (fun p => p.pass.g)).take
              (run_passes env g hist hs).length
      ∧ (∀ p ∈ run_passes env g hist hs,
          p.pass.g.next_event_id
            = p.g_before.next_event_id + (if p.pass.state_change = TRUE then 1 else 0))
      ∧ (∀ p ∈ run_passes env g hist hs, g.next_event_id ≤ p.pass.g.next_event_id)
      ∧ List.Pairwise (· ≤ ·) ((run_passes env g hist hs).map fun p => p.pass.g.next_event_id)
      ∧ assigned_event_ids (run_passes env g hist hs)
          = List.range' g.next_event_id (transition_count hs)
      ∧ (∀ p ∈ run_passes env g hist hs, p.pass.state_change = TRUE →
          p.pass.hst.last_event_id = p.input.current_event_id
          ∧ p.pass.hst.current_event_id = p.g_before.next_event_id) := by
  induction hs with
  | nil =>
    intro g hist _
    simp [run_passes, assigned_event_ids, transition_count]
  | cons h rest ih =>
    intro g hist hnw
    obtain ⟨r, hr, hsc, hg, hid⟩ := handle_host_state_ids env g hist h
    have hcount : transition_count (h :: rest)
        = transition_count rest + (if state_changed h then 1 else 0) := by
      unfold transition_count
      rw [List.countP_cons]
      by_cases hc : state_changed h <;> simp [hc]
    have hgn : r.g.next_event_id = g.next_event_id + (if state_changed h then 1 else 0) := by
      rw [hg]
      by_cases hc : state_changed h
      · rw [if_pos hc, if_pos hc]
        apply Nat.mod_eq_of_lt
        rw [hcount, if_pos hc] at hnw
        omega
      · rw [if_neg hc, if_neg hc]; rfl
    have hnw' : r.g.next_event_id + transition_count rest < ULONG_MODULUS := by
      rw [hgn]; rw [hcount] at hnw; omega
    obtain ⟨i1, i2, i3, i4, i5, i6, i7⟩ := ih r.g (hist ++ r.events) hnw'
    have hrun : run_passes env g hist (h :: rest)
        = ⟨g, h, r⟩ :: run_passes env r.g (hist ++ r.events) rest := by
      simp [run_passes, hr]
    rw [hrun]
    have hite : (if r.state_change = TRUE then 1 else 0) = (if state_changed h then 1 else 0) := by
      by_cases hc : state_changed h
      · rw [if_pos hc, if_pos (hsc.2 hc)]
      · rw [if_neg hc, if_neg (fun x => hc (hsc.1 x))]
    refine ⟨?_, ?_, ?_, ?_, ?_, ?_, ?_⟩
    · simp [i1]
    · simp only [List.map_cons, List.length_cons, List.take_succ_cons]
      rw [i2]
    · intro p hp
      rcases List.mem_cons.1 hp with rfl | hp
      · simp only []
        rw [hite, hgn]
      · exact i3 p hp
    · intro p hp
      rcases List.mem_cons.1 hp with rfl | hp
      · simp only []
        rw [hgn]; omega
      · have := i4 p hp
        rw [hgn] at this; omega
    · simp only [List.map_cons, List.pairwise_cons]
      refine ⟨?_, i5⟩
      intro c hc
      obtain ⟨p, hp, rfl⟩ := List.mem_map.1 hc
      exact i4 p hp
    · unfold assigned_event_ids at i6 ⊢
      rw [hcount]
      by_cases hc : state_changed h
      · have ht : r.state_change = TRUE := hsc.2 hc
        rw [List.filter_cons_of_pos (by simpa using ht), List.map_cons, i6, (hid hc).1, hgn,
          if_pos hc]
        rfl
      · have ht : ¬ r.state_change = TRUE := fun x => hc (hsc.1 x)
        rw [List.filter_cons_of_neg (by simpa using ht), i6, hgn, if_neg hc]
        rfl
    · intro p hp
      rcases List.mem_cons.1 hp with rfl | hp
      · intro ht
        simp only []
        have hc := hsc.1 ht
        exact ⟨(hid hc).2, (hid hc).1⟩
      · exact i7 p hp

/-! ## The event identifier counter over a sequence of calls -/

/-- C19: in every finite sequence of `handle_host_state` calls on any host
records, from any counter value that the transitions of the sequence do not
carry past the largest `unsigned long`, every call returns; each call starts from
the globals the call before left; `next_event_id` goes up by exactly one at each
call that declares a transition and keeps its value at every other call, so it
never decreases; the values assigned to `current_event_id` at the declared
transitions are, in call order, the consecutive numbers from the initial counter
value, hence strictly increasing and pairwise distinct across all hosts; and at
each declared transition `last_event_id` after the call is `current_event_id`
before it. -/
theorem C19_event_ids_over_a_sequence_of_calls (env : Env) (g : Globals)
    (hist : List Event) (hs : List host)
    (hnw : g.next_event_id + transition_count hs < ULONG_MODULUS) :
    (run_passes env g hist hs).map (fun p => p.input) = hs
    ∧ (run_passes env g hist hs).map (fun p => p.g_before)
        = (g :: (run_passes env g hist hs).map (fun p => p.pass.g)).take
            (run_passes env g hist hs).length
    ∧ (∀ p ∈ run_passes env g hist hs, p.pass.state_change = TRUE →
        p.pass.g.next_event_id = p.g_before.next_event_id + 1)
    ∧ (∀ p ∈ run_passes env g hist hs, p.pass.state_change ≠ TRUE →
        p.pass.g.next_event_id = p.g_before.next_event_id)
    ∧ List.Pairwise (· ≤ ·)
        (g.next_event_id :: (run_passes env g hist hs).map fun p => p.pass.g.next_event_id)
    ∧ assigned_event_ids (run_passes env g hist hs)
        = List.range' g.next_event_id (transition_count hs)
    ∧ List.Pairwise (· < ·) (assigned_event_ids (run_passes env g hist hs))
    ∧ (assigned_event_ids (run_passes env g hist hs)).Nodup
    ∧ (∀ p ∈ run_passes env g hist hs, p.pass.state_change = TRUE →
        p.pass.hst.last_event_id = p.input.current_event_id
        ∧ p.pass.hst.current_event_id = p.g_before.next_event_id) := by
  obtain ⟨i1, i2, i3, i4, i5, i6, i7⟩ := run_passes_invariant env hs g hist hnw
  refine ⟨i1, i2, ?_, ?_, ?_, i6, ?_, ?_, i7⟩
  · intro p hp ht
    rw [i3 p hp, if_pos ht]
  · intro p hp ht
    rw [i3 p hp, if_neg ht]
    rfl
  · rw [List.pairwise_cons]
    refine ⟨?_, i5⟩
    intro c hc
    obtain ⟨p, hp, rfl⟩ := List.mem_map.1 hc
    exact i4 p hp
  · rw [i6]
    exact List.pairwise_lt_range' _ _
  · rw [i6]
    exact List.nodup_range' _ _

/-- C19 on the sample host found down, then up and unchanged, then recovering,
with the counter at 3: the ids 3 and 4 are assigned and the counter reads 4, 4
and 5 after the calls. -/
theorem C19_event_ids_over_a_sequence_of_calls_witness :
    sampleGlobals.next_event_id + transition_count [downHost, sampleHost, recoveringHost]
        < ULONG_MODULUS
    ∧ assigned_event_ids
        (run_passes sampleEnv sampleGlobals [] [downHost, sampleHost, recoveringHost]) = [3, 4]
    ∧ (run_passes sampleEnv sampleGlobals [] [downHost, sampleHost, recoveringHost]).map
        (fun p => p.pass.g.next_event_id) = [4, 4, 5] := by
  have hw := C19_event_ids_over_a_sequence_of_calls sampleEnv sampleGlobals []
    [downHost, sampleHost, recoveringHost] (by decide)
  refine ⟨by decide, hw.2.2.2.2.2.1.trans (by decide), by decide⟩

/-- No events, no pass calls. -/
theorem pass_calls_nil : pass_calls [] = [] := rfl

/-- The pass calls of a list of events, one event at a time. -/
theorem pass_calls_cons (e : Event) (l : List Event) :
    pass_calls (e :: l) =
      (match passCall e with
       | some c => c :: pass_calls l
       | none => pass_calls l) := by
  unfold pass_calls
  rw [List.filterMap_cons]
  cases passCall e <;> rfl

/-- The pass calls of two runs of events in a row. -/
theorem pass_calls_append (a b : List Event) :
    pass_calls (a ++ b) = pass_calls a ++ pass_calls b := by
  simp [pass_calls]

/-- Every call of the obsessive host processor shows as one pass call. -/
theorem ochp_pass_calls (env : Env) (g : Globals) (hist : List Event) (hst : Option host) :
    pass_calls (obsessive_compulsive_host_check_processor env g hist hst).2
      = [PassCall.obsessive_compulsive_host_check_processor] := by
  unfold obsessive_compulsive_host_check_processor
  simp only []
  repeat' split
  all_goals simp [pass_calls_append, pass_calls_cons, pass_calls_nil, passCall,
    apply_ite pass_calls]

/-- The global host event handler makes no pass call. -/
theorem run_global_host_event_handler_pass_calls (env : Env) (g : Globals)
    (hist : List Event) (hst : Option host) :
    pass_calls (run_global_host_event_handler env g hist hst).2 = [] := by
  unfold run_global_host_event_handler
  simp only []
  repeat' split
  all_goals simp [pass_calls_append, pass_calls_cons, pass_calls_nil, passCall,
    apply_ite pass_calls]

/-- The host event handler makes no pass call. -/
theorem run_host_event_handler_pass_calls (env : Env) (g : Globals)
    (hist : List Event) (hst : Option host) :
    pass_calls (run_host_event_handler env g hist hst).2 = [] := by
  unfold run_host_event_handler
  simp only []
  repeat' split
  all_goals simp [pass_calls_append, pass_calls_cons, pass_calls_nil, passCall,
    apply_ite pass_calls]

/-- Every call of the host event dispatcher shows as one pass call. -/
theorem handle_host_event_pass_calls (env : Env) (g : Globals) (hist : List Event)
    (hst : Option host) :
    pass_calls (handle_host_event env g hist hst).2 = [PassCall.handle_host_event] := by
  unfold handle_host_event
  simp only []
  repeat' split
  all_goals simp [pass_calls_append, pass_calls_cons, pass_calls_nil, passCall,
    apply_ite pass_calls, run_global_host_event_handler_pass_calls,
    run_host_event_handler_pass_calls]

/-- The pass calls of one pass on a non-null host, in order. -/
theorem handle_host_state_pass_calls (env : Env) (g : Globals) (hist : List Event)
    (h : host) :
    ∃ r, handle_host_state env g hist (some h) = some r
      ∧ pass_calls r.events =
          [PassCall.obsessive_compulsive_host_check_processor,
           PassCall.update_host_performance_data] ++
          (if state_changed h then
            (if h.acknowledgement_type = ACKNOWLEDGEMENT_NORMAL
                ∨ (h.acknowledgement_type = ACKNOWLEDGEMENT_STICKY ∧ h.current_state = HOST_UP)
             then [PassCall.delete_host_acknowledgement_comments] else [])
            ++ (if h.state_type = HARD_STATE
                  ∨ (h.state_type = SOFT_STATE ∧ g.log_host_retries = TRUE)
                then [PassCall.log_host_event] else [])
            ++ (if h.state_type = HARD_STATE then
                  [PassCall.check_pending_flex_host_downtime, PassCall.host_notification]
                else [])
            ++ [PassCall.handle_host_event]
           else
            (if h.current_state ≠ HOST_UP ∧ h.state_type = HARD_STATE then
               [PassCall.host_notification] else [])
            ++ (if h.state_type = SOFT_STATE ∧ g.log_host_retries = TRUE then
                  [PassCall.log_host_event] else [])) := by
  unfold handle_host_state state_changed
  simp only []
  split
  · refine ⟨_, rfl, ?_⟩
    simp only [pass_calls_append, pass_calls_cons, pass_calls_nil, passCall,
      ochp_pass_calls, handle_host_event_pass_calls, List.append_nil, List.nil_append,
      apply_ite pass_calls]
    split_ifs <;> simp_all
  · refine ⟨_, rfl, ?_⟩
    simp only [pass_calls_append, pass_calls_cons, pass_calls_nil, passCall,
      ochp_pass_calls, handle_host_event_pass_calls, List.append_nil, List.nil_append,
      apply_ite pass_calls]
    split_ifs <;> simp_all

/-- On a pass that declares a transition, the record handed to every
notification request still has the attempt number, the notification number and
the `notified_on_*` flags the host had before the call. -/
theorem handle_host_state_notification_records (env : Env) (g : Globals)
    (hist : List Event) (h : host) (hc : state_changed h) :
    ∃ r, handle_host_state env g hist (some h) = some r
      ∧ ∀ hn t o, Event.host_notification hn t o ∈ r.events →
          hn.current_attempt = h.current_attempt
          ∧ hn.current_notification_number = h.current_notification_number
          ∧ hn.notified_on_down = h.notified_on_down
          ∧ hn.notified_on_unreachable = h.notified_on_unreachable := by
  unfold state_changed at hc
  unfold handle_host_state
  simp only []
  rw [if_pos hc]
  refine ⟨_, rfl, ?_⟩
  intro hn t o hmem
  simp only [List.mem_append, List.mem_cons, List.mem_singleton, List.not_mem_nil,
    ochp_no_notification, handle_host_event_no_notification, or_false, false_or,
    reduceCtorEq] at hmem
  split_ifs at hmem <;> simp at hmem <;> obtain ⟨rfl, -, -⟩ := hmem <;>
    exact ⟨rfl, rfl, rfl, rfl⟩

/-! ## The order of the calls of one pass -/

/-- C20: on a non-null host the calls of one `handle_host_state` pass come in a
fixed order.  The obsessive processor is called first and the performance-data
update second, on every pass.  On a declared transition there follow the
deletion of the acknowledgement comments (exactly when the acknowledgement was
reset), `log_host_event` (hard state, or soft state with `log_host_retries`),
`check_pending_flex_host_downtime` and `host_notification` (hard state) and
`handle_host_event`, each once; `handle_host_event` is called exactly once on a
declared transition and never on a pass without one.  The record handed to the
notification request and to `handle_host_event` still has the attempt number,
the notification number and the `notified_on_*` flags from before the call: the
recovery reset is applied after both have returned. -/
theorem C20_order_of_calls (env : Env) (g : Globals) (hist : List Event) (h : host) :
    ∃ r, handle_host_state env g hist (some h) = some r
      ∧ pass_calls r.events =
          [PassCall.obsessive_compulsive_host_check_processor,
           PassCall.update_host_performance_data] ++
          (if r.state_change = TRUE then
            (if h.acknowledgement_type = ACKNOWLEDGEMENT_NORMAL
                ∨ (h.acknowledgement_type = ACKNOWLEDGEMENT_STICKY ∧ h.current_state = HOST_UP)
             then [PassCall.delete_host_acknowledgement_comments] else [])
            ++ (if h.state_type = HARD_STATE
                  ∨ (h.state_type = SOFT_STATE ∧ g.log_host_retries = TRUE)
                then [PassCall.log_host_event] else [])
            ++ (if h.state_type = HARD_STATE then
                  [PassCall.check_pending_flex_host_downtime, PassCall.host_notification]
                else [])
            ++ [PassCall.handle_host_event]
           else
            (if h.current_state ≠ HOST_UP ∧ h.state_type = HARD_STATE then
               [PassCall.host_notification] else [])
            ++ (if h.state_type = SOFT_STATE ∧ g.log_host_retries = TRUE then
                  [PassCall.log_host_event] else []))
      ∧ (r.state_change = TRUE → h.state_type = HARD_STATE →
          pass_calls r.events =
            [PassCall.obsessive_compulsive_host_check_processor,
             PassCall.update_host_performance_data]
            ++ (if h.acknowledgement_type = ACKNOWLEDGEMENT_NORMAL
                ∨ (h.acknowledgement_type = ACKNOWLEDGEMENT_STICKY ∧ h.current_state = HOST_UP)
                then [PassCall.delete_host_acknowledgement_comments] else [])
            ++ [PassCall.log_host_event, PassCall.check_pending_flex_host_downtime,
                PassCall.host_notification, PassCall.handle_host_event])
      ∧ (pass_calls r.events).count PassCall.handle_host_event
          = (if r.state_change = TRUE then 1 else 0)
      ∧ (r.state_change = TRUE →
          (∃ pre hrec,
            r.events = pre ++ (handle_host_event env r.g (hist ++ pre) (some hrec)).2
            ∧ hrec.current_attempt = h.current_attempt
            ∧ hrec.current_notification_number = h.current_notification_number
            ∧ hrec.notified_on_down = h.notified_on_down
            ∧ hrec.notified_on_unreachable = h.notified_on_unreachable)
          ∧ (∀ hn t o, Event.host_notification hn t o ∈ r.events →
              hn.current_attempt = h.current_attempt
              ∧ hn.current_notification_number = h.current_notification_number
              ∧ hn.notified_on_down = h.notified_on_down
              ∧ hn.notified_on_unreachable = h.notified_on_unreachable)
          ∧ (h.current_state = HOST_UP →
              r.hst.current_attempt = 1 ∧ r.hst.current_notification_number = 0
              ∧ r.hst.notified_on_down = FALSE ∧ r.hst.notified_on_unreachable = FALSE)) := by
  obtain ⟨r, hr, hp⟩ := handle_host_state_pass_calls env g hist h
  by_cases hc : state_changed h
  · obtain ⟨r1, hr1, -, hs, -, -, -, -, -, -, -, -, -, -, a1, a2, a3, a4⟩ :=
      handle_host_state_changed env g hist h hc
    obtain ⟨r2, pre, hrec, hr2, hev, -, -, -, -, b1, b2, b3, b4, -⟩ :=
      handle_host_state_changed_events env g hist h hc
    obtain ⟨r3, hr3, hn⟩ := handle_host_state_notification_records env g hist h hc
    have e1 : r1 = r := Option.some.inj (hr1.symm.trans hr)
    have e2 : r2 = r := Option.some.inj (hr2.symm.trans hr)
    have e3 : r3 = r := Option.some.inj (hr3.symm.trans hr)
    subst e1 e2 e3
    rw [if_pos hc] at hp
    refine ⟨_, hr, ?_, ?_, ?_, ?_⟩
    · rw [hp, if_pos hs]
    · intro _ hh
      rw [hp, if_pos (Or.inl hh), if_pos hh]
      simp
    · rw [hp, if_pos hs]
      split_ifs <;> decide
    · intro _
      refine ⟨⟨pre, hrec, hev, b1, b2, b3, b4⟩, hn, fun hup => ?_⟩
      rw [a1, a2, a3, a4, if_pos hup, if_pos hup, if_pos hup, if_pos hup]
      exact ⟨rfl, rfl, rfl, rfl⟩
  · obtain ⟨r1, hr1, -, hs, -⟩ := handle_host_state_unchanged env g hist h hc
    have e1 : r1 = r := Option.some.inj (hr1.symm.trans hr)
    subst e1
    have hft : ¬ r1.state_change = TRUE := by rw [hs]; decide
    rw [if_neg hc] at hp
    refine ⟨_, hr, ?_, ?_, ?_, ?_⟩
    · rw [hp, if_neg hft]
    · intro ht; exact absurd ht hft
    · rw [hp, if_neg hft]
      split_ifs <;> decide
    · intro ht; exact absurd ht hft

/-- C20 at a host that recovers in a hard state with a normal acknowledgement:
all seven calls, in order, and the reset values in the end. -/
theorem C20_order_of_calls_witness :
    ∃ r, handle_host_state sampleEnv sampleGlobals [] (some acknowledgedRecoveringHost) = some r
      ∧ r.state_change = TRUE
      ∧ pass_calls r.events =
          [PassCall.obsessive_compulsive_host_check_processor,
           PassCall.update_host_performance_data,
           PassCall.delete_host_acknowledgement_comments,
           PassCall.log_host_event,
           PassCall.check_pending_flex_host_downtime,
           PassCall.host_notification,
           PassCall.handle_host_event]
      ∧ (∀ hn t o, Event.host_notification hn t o ∈ r.events → hn.current_attempt = 3)
      ∧ r.hst.current_attempt = 1 := by
  obtain ⟨r, hr, -, hhard, -, hreset⟩ :=
    C20_order_of_calls sampleEnv sampleGlobals [] acknowledgedRecoveringHost
  have hs : r.state_change = TRUE := by
    rw [← Option.some.inj hr]
    decide
  obtain ⟨-, hn, hup⟩ := hreset hs
  refine ⟨r, hr, hs, ?_, fun hn' t o hmem => (hn hn' t o hmem).1, (hup rfl).1⟩
  rw [hhard hs rfl]
  decide

/-! ## The state-change log entry -/

/-- The calls of `log_host_event` are the `log_host_event` engine calls. -/
theorem log_host_event_calls_eq (evs : List Event) :
    log_host_event_calls evs = (engine_calls evs).count EngineCall.log_host_event := by
  induction evs with
  | nil => rfl
  | cons e l ih =>
    unfold log_host_event_calls at *
    rw [engine_calls_cons]
    cases e <;> simp [List.filter_cons, isLogHostEvent, engineCall, ih]

/-- C21: on a non-null host, one `handle_host_state` pass calls `log_host_event`
exactly once when a transition is declared and `state_type` is `HARD_STATE`, or
when `state_type` is `SOFT_STATE` and `log_host_retries` is `TRUE`, and not at
all otherwise (whatever the value of `state_type`); so a hard-state pass without
transition logs nothing and a soft-state pass with `log_host_retries` logs once
whether or not a transition is declared. -/
theorem C21_state_change_log_entry (env : Env) (g : Globals) (hist : List Event) (h : host) :
    ∃ r, handle_host_state env g hist (some h) = some r
      ∧ log_host_event_calls r.events
          = (if (r.state_change = TRUE ∧ h.state_type = HARD_STATE)
                ∨ (h.state_type = SOFT_STATE ∧ g.log_host_retries = TRUE) then 1 else 0)
      ∧ (r.state_change ≠ TRUE → h.state_type = HARD_STATE →
          log_host_event_calls r.events = 0)
      ∧ (h.state_type = SOFT_STATE → g.log_host_retries = TRUE →
          log_host_event_calls r.events = 1) := by
  obtain ⟨r, hr, he⟩ := handle_host_state_engine_calls env g hist h
  have hne : HARD_STATE ≠ SOFT_STATE := by decide
  have hcount : log_host_event_calls r.events
      = (if (r.state_change = TRUE ∧ h.state_type = HARD_STATE)
            ∨ (h.state_type = SOFT_STATE ∧ g.log_host_retries = TRUE) then 1 else 0) := by
    rw [log_host_event_calls_eq, he]
    by_cases hc : state_changed h
    · obtain ⟨r1, hr1, -, hs, -⟩ := handle_host_state_changed env g hist h hc
      have e1 : r1 = r := Option.some.inj (hr1.symm.trans hr)
      subst e1
      rw [if_pos hc]
      by_cases hh : h.state_type = HARD_STATE
      · have hns : ¬ h.state_type = SOFT_STATE := fun e => hne (hh.symm.trans e)
        split_ifs <;> simp_all
      · split_ifs <;> simp_all
    · obtain ⟨r1, hr1, -, hs, -⟩ := handle_host_state_unchanged env g hist h hc
      have e1 : r1 = r := Option.some.inj (hr1.symm.trans hr)
      subst e1
      have hft : ¬ r1.state_change = TRUE := by rw [hs]; decide
      rw [if_neg hc]
      split_ifs <;> simp_all
  refine ⟨r, hr, hcount, ?_, ?_⟩
  · intro hn hh
    have hns : ¬ h.state_type = SOFT_STATE := fun e => hne (hh.symm.trans e)
    rw [hcount, if_neg]
    rintro (⟨ht, -⟩ | ⟨hs, -⟩)
    · exact hn ht
    · exact hns hs
  · intro hs hl
    rw [hcount, if_pos (Or.inr ⟨hs, hl⟩)]

/-- C21 on the sample hosts: the host found down in a hard state logs once, the
unchanged host in a hard state logs nothing, and with `log_host_retries` the
host in a soft state logs once both when it is found down and when it is still
down; without `log_host_retries` it logs nothing. -/
theorem C21_state_change_log_entry_witness :
    (∃ r, handle_host_state sampleEnv sampleGlobals [] (some downHost) = some r
      ∧ r.state_change = TRUE ∧ log_host_event_calls r.events = 1)
    ∧ (∃ r, handle_host_state sampleEnv retryLogGlobals [] (some sampleHost) = some r
      ∧ r.state_change = FALSE ∧ log_host_event_calls r.events = 0)
    ∧ (∃ r, handle_host_state sampleEnv retryLogGlobals [] (some softDownHost) = some r
      ∧ r.state_change = TRUE ∧ log_host_event_calls r.events = 1)
    ∧ (∃ r, handle_host_state sampleEnv retryLogGlobals [] (some softRetryHost) = some r
      ∧ r.state_change = FALSE ∧ log_host_event_calls r.events = 1)
    ∧ (∃ r, handle_host_state sampleEnv sampleGlobals [] (some softRetryHost) = some r
      ∧ r.state_change = FALSE ∧ log_host_event_calls r.events = 0) := by
  obtain ⟨r1, h1, c1, -⟩ := C21_state_change_log_entry sampleEnv sampleGlobals [] downHost
  obtain ⟨r2, h2, c2, -⟩ := C21_state_change_log_entry sampleEnv retryLogGlobals [] sampleHost
  obtain ⟨r3, h3, c3, -⟩ :=
    C21_state_change_log_entry sampleEnv retryLogGlobals [] softDownHost
  obtain ⟨r4, h4, c4, -⟩ :=
    C21_state_change_log_entry sampleEnv retryLogGlobals [] softRetryHost
  obtain ⟨r5, h5, c5, -⟩ := C21_state_change_log_entry sampleEnv sampleGlobals [] softRetryHost
  have s1 : r1.state_change = TRUE := by rw [← Option.some.inj h1]; decide
  have s2 : r2.state_change = FALSE := by rw [← Option.some.inj h2]; decide
  have s3 : r3.state_change = TRUE := by rw [← Option.some.inj h3]; decide
  have s4 : r4.state_change = FALSE := by rw [← Option.some.inj h4]; decide
  have s5 : r5.state_change = FALSE := by rw [← Option.some.inj h5]; decide
  refine ⟨⟨r1, h1, s1, ?_⟩, ⟨r2, h2, s2, ?_⟩, ⟨r3, h3, s3, ?_⟩, ⟨r4, h4, s4, ?_⟩,
    ⟨r5, h5, s5, ?_⟩⟩
  · rw [c1, s1]; decide
  · rw [c2, s2]; decide
  · rw [c3, s3]; decide
  · rw [c4, s4]; decide
  · rw [c5, s5]; decide

/-! ## The missing host of a service -/

/-- C23: on a non-null host on which `handle_host_state` declares no transition,
the call returns `OK`, leaves the globals (`next_event_id` among them) as they
were, and leaves the host record as it was except for the time stamp of its
current state, which becomes the time read at the start of the call:
`last_time_up` for `HOST_UP`, `last_time_down` for `HOST_DOWN`,
`last_time_unreachable` for `HOST_UNREACHABLE`, and no field for any other
state.  So the acknowledgement fields, the attempt and notification numbers,
the `notified_on_*` flags, the notification times, the state-change times and
the event ids keep their values. -/
theorem C23_frame_of_a_pass_without_transition (env : Env) (g : Globals)
    (hist : List Event) (h : host) (hn : ¬ declares_transition env g hist h) :
    ∃ r, handle_host_state env g hist (some h) = some r
      ∧ r.result = OK
      ∧ r.state_change = FALSE
      ∧ r.current_time
          = env.time (hist ++ [Event.log_debug_info .DEBUGL_FUNCTIONS 0 "handle_host_state()\n"])
      ∧ r.g = g
      ∧ (h.current_state = HOST_UP → r.hst = { h with last_time_up := r.current_time })
      ∧ (h.current_state = HOST_DOWN → r.hst = { h with last_time_down := r.current_time })
      ∧ (h.current_state = HOST_UNREACHABLE →
          r.hst = { h with last_time_unreachable := r.current_time })
      ∧ (h.current_state ≠ HOST_UP → h.current_state ≠ HOST_DOWN →
          h.current_state ≠ HOST_UNREACHABLE → r.hst = h)
      ∧ (r.hst.acknowledgement_type = h.acknowledgement_type
          ∧ r.hst.problem_has_been_acknowledged = h.problem_has_been_acknowledged
          ∧ r.hst.current_attempt = h.current_attempt
          ∧ r.hst.current_notification_number = h.current_notification_number
          ∧ r.hst.notified_on_down = h.notified_on_down
          ∧ r.hst.notified_on_unreachable = h.notified_on_unreachable
          ∧ r.hst.last_host_notification = h.last_host_notification
          ∧ r.hst.next_host_notification = h.next_host_notification
          ∧ r.hst.no_more_notifications = h.no_more_notifications
          ∧ r.hst.last_state_change = h.last_state_change
          ∧ r.hst.last_hard_state_change = h.last_hard_state_change
          ∧ r.hst.current_event_id = h.current_event_id
          ∧ r.hst.last_event_id = h.last_event_id
          ∧ r.g.next_event_id = g.next_event_id) := by
  have hc : ¬ state_changed h := fun hc => hn ((declares_transition_iff env g hist h).2 hc)
  unfold state_changed at hc
  unfold handle_host_state
  simp only []
  rw [if_neg hc]
  refine ⟨_, rfl, rfl, rfl, rfl, rfl, ?_, ?_, ?_, ?_, ?_⟩
  · intro hup
    have h1 : ¬ h.current_state = HOST_DOWN := by rw [hup]; decide
    have h2 : ¬ h.current_state = HOST_UNREACHABLE := by rw [hup]; decide
    simp only [if_pos hup, if_neg h1, if_neg h2]
  · intro hdown
    have h1 : ¬ h.current_state = HOST_UP := by rw [hdown]; decide
    have h2 : ¬ h.current_state = HOST_UNREACHABLE := by rw [hdown]; decide
    simp only [if_pos hdown, if_neg h1, if_neg h2]
  · intro hun
    have h1 : ¬ h.current_state = HOST_UP := by rw [hun]; decide
    have h2 : ¬ h.current_state = HOST_DOWN := by rw [hun]; decide
    simp only [if_pos hun, if_neg h1, if_neg h2]
  · intro h1 h2 h3
    simp only [if_neg h1, if_neg h2, if_neg h3]
  · exact ⟨rfl, rfl, rfl, rfl, rfl, rfl, rfl, rfl, rfl, rfl, rfl, rfl, rfl, rfl⟩

/-- C23 at the sample host still up, at a host still down with every counter and
time set, and at a host in a state that is none of the three: the clock reads
1000, only the time stamp of the current state is written. -/
theorem C23_frame_of_a_pass_without_transition_witness :
    ¬ declares_transition sampleEnv sampleGlobals [] sampleHost
    ∧ ¬ declares_transition sampleEnv sampleGlobals [] stillDownHost
    ∧ ¬ declares_transition sampleEnv sampleGlobals [] oddStateHost
    ∧ (∃ r, handle_host_state sampleEnv sampleGlobals [] (some sampleHost) = some r
        ∧ r.g = sampleGlobals ∧ r.hst = { sampleHost with last_time_up := 1000 })
    ∧ (∃ r, handle_host_state sampleEnv sampleGlobals [] (some stillDownHost) = some r
        ∧ r.g = sampleGlobals ∧ r.hst = { stillDownHost with last_time_down := 1000 })
    ∧ (∃ r, handle_host_state sampleEnv sampleGlobals [] (some oddStateHost) = some r
        ∧ r.g = sampleGlobals ∧ r.hst = oddStateHost) := by
  have n1 : ¬ declares_transition sampleEnv sampleGlobals [] sampleHost :=
    fun hd => absurd ((declares_transition_iff _ _ _ _).1 hd) (by decide)
  have n2 : ¬ declares_transition sampleEnv sampleGlobals [] stillDownHost :=
    fun hd => absurd ((declares_transition_iff _ _ _ _).1 hd) (by decide)
  have n3 : ¬ declares_transition sampleEnv sampleGlobals [] oddStateHost :=
    fun hd => absurd ((declares_transition_iff _ _ _ _).1 hd) (by decide)
  obtain ⟨r1, hr1, -, -, t1, g1, u1, -⟩ :=
    C23_frame_of_a_pass_without_transition sampleEnv sampleGlobals [] sampleHost n1
  obtain ⟨r2, hr2, -, -, t2, g2, -, d2, -⟩ :=
    C23_frame_of_a_pass_without_transition sampleEnv sampleGlobals [] stillDownHost n2
  obtain ⟨r3, hr3, -, -, -, g3, -, -, -, o3, -⟩ :=
    C23_frame_of_a_pass_without_transition sampleEnv sampleGlobals [] oddStateHost n3
  refine ⟨n1, n2, n3, ⟨r1, hr1, g1, ?_⟩, ⟨r2, hr2, g2, ?_⟩, ⟨r3, hr3, g3, ?_⟩⟩
  · rw [u1 rfl, t1]; rfl
  · rw [d2 rfl, t2]; rfl
  · exact o3 (by decide) (by decide) (by decide)

end Sehandlers
